import Mathlib

/-!
# Physics and collision kernel: cube demo (cube3d.c) and platformer (video_game.c)

A shallow embedding of the rigid-body integrator, the boundary collision
resolver, the stabilising torque, the projections and the incremental
wireframe renderer of `cube3d.c`, and of the bitmap collision resolver, the
level tables, the reset, the per-frame player update and the frame function of
`video_game.c`, with `drawBitmap` of `Adafruit_GFX.c`, followed by theorems
about them.

Modelling conventions.

* A C `float` is a value of a linearly ordered field `K` with exact arithmetic:
  rounding, infinities and NaN are not modelled.  The cube code is generic in
  `K`; the platformer code, which needs no math-library call, uses `ℚ`.
* `ProjectPoint`, whose results are the integer pixel coordinates of the cube,
  is the exception: there every float operation is the exact operation
  followed by the rounding `rnd` of a parameter `FloatModel`, the conversion
  `(int)x` is the `toInt` of that parameter, and the `int` sum that forms a
  pixel coordinate is reduced to 32 bits.  `binary32` is the model of IEEE 754
  single precision (round to nearest, ties to even) with a saturating
  conversion; infinities and NaN are not modelled there either.
* The math-library functions `sqrtf`, `cosf`, `sinf`, `acosf` are not part of
  the repository: they are a parameter (`MathLib`), and every theorem states
  the facts about them it relies on as hypotheses.
* `rand()` is not part of the repository either: it is a parameter
  `rand : ℕ → ℕ` giving the k-th value returned since start-up, and the state
  counts the calls made so far.
* Elsewhere a C `int` is an unbounded `ℤ` (signed overflow is undefined
  behaviour in C).
* File-scope variables become fields of an explicit state record that every
  function takes and returns; a table with a count (killboxes, doors,
  enemies) is the list of its registered entries.
* Outside `ProjectPoint` the conversion `(int)x` is truncation toward zero.
* The calls the renderer makes to the display library (`drawLine`,
  `drawFastHLine`, `drawFastVLine`) are returned as the list of calls made,
  in order.
* What the player update reads from the hardware (button, clock, joystick
  voltage) is an input record, and the level bitmaps returned by
  `get_map_frame` are a parameter.
* `drawBitmap` returns the list of its `drawPixel` calls; the frame function
  is embedded without its calls to the display.  The frame counts of the two
  character animations whose headers are not in the repository are a
  parameter (`AnimationFrames`).
-/

namespace Cube3D

/-- The math-library functions called by cube3d.c. -/
structure MathLib (K : Type) where
  sqrtf : K → K
  cosf : K → K
  sinf : K → K
  acosf : K → K

/-- The file-scope simulation variables of cube3d.c, and the number of
`rand()` calls made so far. -/
structure CubeState (K : Type) where
  g_angleX : K
  g_angleY : K
  g_angleZ : K
  g_positionX : K
  g_positionY : K
  g_positionZ : K
  g_velocityX : K
  g_velocityY : K
  g_velocityZ : K
  g_angularVelocityX : K
  g_angularVelocityY : K
  g_angularVelocityZ : K
  randCalls : ℕ

section Defs

variable {K : Type} [LinearOrderedField K]

def SCREEN_WIDTH : ℤ := 128
def SCREEN_HEIGHT : ℤ := 128
def SCREEN_CENTER_X : K := 64
def SCREEN_CENTER_Y : K := 64
def CUBE_SIZE : K := 15
def GRAVITY_STRENGTH : K := 1.1
def DAMPING : K := 0.98
def ANGULAR_DAMPING : K := 0.25
def RESTITUTION : K := 0.5
def TIME_STEP : K := 0.9
def STABILIZATION_STRENGTH : K := 0.02
def ENV_VISUAL_SIZE : K := 60
def ENV_Z_OFFSET : K := 60
def PHYSICS_MIN_X : K := -ENV_VISUAL_SIZE
def PHYSICS_MAX_X : K := ENV_VISUAL_SIZE
def PHYSICS_MIN_Y : K := -ENV_VISUAL_SIZE
def PHYSICS_MAX_Y : K := ENV_VISUAL_SIZE
def PHYSICS_MIN_Z : K := -ENV_VISUAL_SIZE + ENV_Z_OFFSET
def PHYSICS_MAX_Z : K := ENV_VISUAL_SIZE + ENV_Z_OFFSET

/-- The eight local-space vertices of the cube, in array order. -/
def g_cube_vertices : List (K × K × K) :=
  [ (-CUBE_SIZE, -CUBE_SIZE, -CUBE_SIZE),
    ( CUBE_SIZE, -CUBE_SIZE, -CUBE_SIZE),
    ( CUBE_SIZE,  CUBE_SIZE, -CUBE_SIZE),
    (-CUBE_SIZE,  CUBE_SIZE, -CUBE_SIZE),
    (-CUBE_SIZE, -CUBE_SIZE,  CUBE_SIZE),
    ( CUBE_SIZE, -CUBE_SIZE,  CUBE_SIZE),
    ( CUBE_SIZE,  CUBE_SIZE,  CUBE_SIZE),
    (-CUBE_SIZE,  CUBE_SIZE,  CUBE_SIZE) ]

/-- The six local-space unit face normals, in array order. -/
def g_face_normals : List (K × K × K) :=
  [ (0, 0, -1), (0, 0, 1), (0, -1, 0), (0, 1, 0), (-1, 0, 0), (1, 0, 0) ]

/-- RotatePoint: rotation about X, then Y, then Z by the current angles. -/
def RotatePoint (m : MathLib K) (s : CubeState K) (x y z : K) : K × K × K :=
  let y1 := y * m.cosf s.g_angleX - z * m.sinf s.g_angleX
  let z1 := y * m.sinf s.g_angleX + z * m.cosf s.g_angleX
  let x2 := x * m.cosf s.g_angleY + z1 * m.sinf s.g_angleY
  let z2 := -x * m.sinf s.g_angleY + z1 * m.cosf s.g_angleY
  let x3 := x2 * m.cosf s.g_angleZ - y1 * m.sinf s.g_angleZ
  let y3 := x2 * m.sinf s.g_angleZ + y1 * m.cosf s.g_angleZ
  (x3, y3, z2)

/-- RotateVector: the same arithmetic as RotatePoint, applied to directions. -/
def RotateVector (m : MathLib K) (s : CubeState K) (x y z : K) : K × K × K :=
  let y1 := y * m.cosf s.g_angleX - z * m.sinf s.g_angleX
  let z1 := y * m.sinf s.g_angleX + z * m.cosf s.g_angleX
  let x2 := x * m.cosf s.g_angleY + z1 * m.sinf s.g_angleY
  let z2 := -x * m.sinf s.g_angleY + z1 * m.cosf s.g_angleY
  let x3 := x2 * m.cosf s.g_angleZ - y1 * m.sinf s.g_angleZ
  let y3 := x2 * m.sinf s.g_angleZ + y1 * m.cosf s.g_angleZ
  (x3, y3, z2)

/-- The variables live across the vertex loop of CheckAndResolveCollisions:
the globals and the locals collisionDetected and collisionNormalX/Y/Z. -/
structure Scan (K : Type) where
  st : CubeState K
  collisionDetected : Bool
  collisionNormalX : K
  collisionNormalY : K
  collisionNormalZ : K

/-- One iteration of the vertex loop of CheckAndResolveCollisions, for the
local-space vertex v. -/
def collisionVertexStep (m : MathLib K) (a : Scan K) (v : K × K × K) : Scan K :=
  let r := RotatePoint m a.st v.1 v.2.1 v.2.2
  let worldX := a.st.g_positionX + r.1 - SCREEN_CENTER_X
  let worldY := a.st.g_positionY + r.2.1 - SCREEN_CENTER_Y
  let worldZ := a.st.g_positionZ + r.2.2
  let a1 : Scan K :=
    if worldX < PHYSICS_MIN_X then
      { a with
        collisionDetected := true
        collisionNormalX := a.collisionNormalX + 1
        st := { a.st with g_positionX := a.st.g_positionX + (PHYSICS_MIN_X - worldX) } }
    else if worldX > PHYSICS_MAX_X then
      { a with
        collisionDetected := true
        collisionNormalX := a.collisionNormalX + -1
        st := { a.st with g_positionX := a.st.g_positionX - (worldX - PHYSICS_MAX_X) } }
    else a
  let a2 : Scan K :=
    if worldY < PHYSICS_MIN_Y then
      { a1 with
        collisionDetected := true
        collisionNormalY := a1.collisionNormalY + 1
        st := { a1.st with g_positionY := a1.st.g_positionY + (PHYSICS_MIN_Y - worldY) } }
    else if worldY > PHYSICS_MAX_Y then
      { a1 with
        collisionDetected := true
        collisionNormalY := a1.collisionNormalY + -1
        st := { a1.st with g_positionY := a1.st.g_positionY - (worldY - PHYSICS_MAX_Y) } }
    else a1
  if worldZ < PHYSICS_MIN_Z then
    { a2 with
      collisionDetected := true
      collisionNormalZ := a2.collisionNormalZ + 1
      st := { a2.st with g_positionZ := a2.st.g_positionZ + (PHYSICS_MIN_Z - worldZ) } }
  else if worldZ > PHYSICS_MAX_Z then
    { a2 with
      collisionDetected := true
      collisionNormalZ := a2.collisionNormalZ + -1
      st := { a2.st with g_positionZ := a2.st.g_positionZ - (worldZ - PHYSICS_MAX_Z) } }
  else a2

/-- The vertex loop of CheckAndResolveCollisions over all eight vertices. -/
def collisionScan (m : MathLib K) (s : CubeState K) : Scan K :=
  g_cube_vertices.foldl (collisionVertexStep m)
    { st := s, collisionDetected := false,
      collisionNormalX := 0, collisionNormalY := 0, collisionNormalZ := 0 }

/-- The value `(rand() % 100) / 1000.0f - 0.05f` for the k-th call of rand. -/
def randPerturbation (rand : ℕ → ℕ) (k : ℕ) : K :=
  ((rand k % 100 : ℕ) : K) / 1000.0 - 0.05

/-- The collision response of CheckAndResolveCollisions, after the vertex
loop has left its variables in a. -/
def collisionResponse (m : MathLib K) (rand : ℕ → ℕ) (a : Scan K) : CubeState K :=
  if a.collisionDetected then
    let normalLength := m.sqrtf (a.collisionNormalX * a.collisionNormalX +
                                 a.collisionNormalY * a.collisionNormalY +
                                 a.collisionNormalZ * a.collisionNormalZ)
    if normalLength > 0.001 then
      let collisionNormalX := a.collisionNormalX / normalLength
      let collisionNormalY := a.collisionNormalY / normalLength
      let collisionNormalZ := a.collisionNormalZ / normalLength
      let dotProduct := a.st.g_velocityX * collisionNormalX +
                        a.st.g_velocityY * collisionNormalY +
                        a.st.g_velocityZ * collisionNormalZ
      if dotProduct < 0 then
        { a.st with
          g_velocityX := a.st.g_velocityX - (1.0 + RESTITUTION) * dotProduct * collisionNormalX
          g_velocityY := a.st.g_velocityY - (1.0 + RESTITUTION) * dotProduct * collisionNormalY
          g_velocityZ := a.st.g_velocityZ - (1.0 + RESTITUTION) * dotProduct * collisionNormalZ
          g_angularVelocityX := a.st.g_angularVelocityX + randPerturbation rand a.st.randCalls
          g_angularVelocityY :=
            a.st.g_angularVelocityY + randPerturbation rand (a.st.randCalls + 1)
          g_angularVelocityZ :=
            a.st.g_angularVelocityZ + randPerturbation rand (a.st.randCalls + 2)
          randCalls := a.st.randCalls + 3 }
      else a.st
    else a.st
  else a.st

/-- CheckAndResolveCollisions: the vertex loop, then the collision response. -/
def CheckAndResolveCollisions (m : MathLib K) (rand : ℕ → ℕ) (s : CubeState K) :
    CubeState K :=
  collisionResponse m rand (collisionScan m s)

/-- One iteration of the face loop of CalculateStabilizingTorque: the pair is
(bestAlignment, bestFace), and f is (face index, local normal). -/
def bestFaceStep (m : MathLib K) (s : CubeState K) (gravityX gravityY gravityZ : K)
    (b : K × ℤ) (f : ℕ × (K × K × K)) : K × ℤ :=
  let w := RotateVector m s f.2.1 f.2.2.1 f.2.2.2
  let dotProduct := w.1 * gravityX + w.2.1 * gravityY + w.2.2 * gravityZ
  if dotProduct < b.1 then (dotProduct, (f.1 : ℤ)) else b

/-- The face loop of CalculateStabilizingTorque: (bestAlignment, bestFace)
after the six faces, starting from (-1.0, -1). -/
def bestFaceScan (m : MathLib K) (s : CubeState K) (gravityX gravityY gravityZ : K) :
    K × ℤ :=
  (g_face_normals.enum).foldl (bestFaceStep m s gravityX gravityY gravityZ) (-1.0, -1)

/-- CalculateStabilizingTorque: returns (torqueX, torqueY, torqueZ). -/
def CalculateStabilizingTorque (m : MathLib K) (s : CubeState K)
    (gravityX gravityY gravityZ : K) : K × K × K :=
  let b := bestFaceScan m s gravityX gravityY gravityZ
  let bestAlignment := b.1
  let bestFace := b.2
  if bestFace ≠ -1 ∧ bestAlignment > -0.99 then
    let n := g_face_normals.getD bestFace.toNat ((0 : K), (0 : K), (0 : K))
    let w := RotateVector m s n.1 n.2.1 n.2.2
    let crossX := w.2.1 * gravityZ - w.2.2 * gravityY
    let crossY := w.2.2 * gravityX - w.1 * gravityZ
    let crossZ := w.1 * gravityY - w.2.1 * gravityX
    let crossLength := m.sqrtf (crossX * crossX + crossY * crossY + crossZ * crossZ)
    if crossLength > 0.001 then
      let rotationMagnitude := m.acosf (-bestAlignment) * STABILIZATION_STRENGTH
      (crossX / crossLength * rotationMagnitude,
       crossY / crossLength * rotationMagnitude,
       crossZ / crossLength * rotationMagnitude)
    else (0.0, 0.0, 0.0)
  else (0.0, 0.0, 0.0)

/-- Steps 1 to 5 of UpdatePhysics for the accelerometer sample
(g_iAccelX, g_iAccelY, g_iAccelZ): gravity, stabilising torque, damping and
the integration of position and orientation; everything before the final call
of CheckAndResolveCollisions. -/
def integrateMotion (m : MathLib K) (g_iAccelX g_iAccelY g_iAccelZ : ℤ)
    (s : CubeState K) : CubeState K :=
  let gravityX : K := (g_iAccelY : K)
  let gravityY : K := ((-g_iAccelZ : ℤ) : K)
  let gravityZ : K := ((-g_iAccelX : ℤ) : K)
  let gravityMagnitude := m.sqrtf (gravityX * gravityX + gravityY * gravityY +
                                   gravityZ * gravityZ)
  let s1 : CubeState K :=
    if gravityMagnitude > 0.001 then
      let gravityX := gravityX / gravityMagnitude
      let gravityY := gravityY / gravityMagnitude
      let gravityZ := gravityZ / gravityMagnitude
      let t := CalculateStabilizingTorque m s gravityX gravityY gravityZ
      { s with
        g_velocityX := s.g_velocityX + gravityX * GRAVITY_STRENGTH * TIME_STEP
        g_velocityY := s.g_velocityY + gravityY * GRAVITY_STRENGTH * TIME_STEP
        g_velocityZ := s.g_velocityZ + gravityZ * GRAVITY_STRENGTH * TIME_STEP
        g_angularVelocityX := s.g_angularVelocityX + t.1
        g_angularVelocityY := s.g_angularVelocityY + t.2.1
        g_angularVelocityZ := s.g_angularVelocityZ + t.2.2 }
    else s
  let s2 : CubeState K :=
    { s1 with
      g_velocityX := s1.g_velocityX * DAMPING
      g_velocityY := s1.g_velocityY * DAMPING
      g_velocityZ := s1.g_velocityZ * DAMPING }
  let s3 : CubeState K :=
    { s2 with
      g_positionX := s2.g_positionX + s2.g_velocityX * TIME_STEP
      g_positionY := s2.g_positionY + s2.g_velocityY * TIME_STEP
      g_positionZ := s2.g_positionZ + s2.g_velocityZ * TIME_STEP }
  let s4 : CubeState K :=
    { s3 with
      g_angularVelocityX := s3.g_angularVelocityX * ANGULAR_DAMPING
      g_angularVelocityY := s3.g_angularVelocityY * ANGULAR_DAMPING
      g_angularVelocityZ := s3.g_angularVelocityZ * ANGULAR_DAMPING }
  { s4 with
    g_angleX := s4.g_angleX + s4.g_angularVelocityX * TIME_STEP
    g_angleY := s4.g_angleY + s4.g_angularVelocityY * TIME_STEP
    g_angleZ := s4.g_angleZ + s4.g_angularVelocityZ * TIME_STEP }

/-- UpdatePhysics: one simulation step for the accelerometer sample
(g_iAccelX, g_iAccelY, g_iAccelZ); step 6 resolves the collisions. -/
def UpdatePhysics (m : MathLib K) (rand : ℕ → ℕ) (g_iAccelX g_iAccelY g_iAccelZ : ℤ)
    (s : CubeState K) : CubeState K :=
  CheckAndResolveCollisions m rand (integrateMotion m g_iAccelX g_iAccelY g_iAccelZ s)

/-- UpdatePhysics applied n times in a row with the same accelerometer sample. -/
def UpdatePhysicsN (m : MathLib K) (rand : ℕ → ℕ) (g_iAccelX g_iAccelY g_iAccelZ : ℤ) :
    ℕ → CubeState K → CubeState K
  | 0, s => s
  | n + 1, s =>
    UpdatePhysicsN m rand g_iAccelX g_iAccelY g_iAccelZ n
      (UpdatePhysics m rand g_iAccelX g_iAccelY g_iAccelZ s)

/-! ### Notions used to state the properties of the cube code -/

/-- World-space coordinates of the local vertex v for the state s: the values
worldX, worldY, worldZ computed at the top of the vertex loop. -/
def worldVertex (m : MathLib K) (s : CubeState K) (v : K × K × K) : K × K × K :=
  let r := RotatePoint m s v.1 v.2.1 v.2.2
  (s.g_positionX + r.1 - SCREEN_CENTER_X, s.g_positionY + r.2.1 - SCREEN_CENTER_Y,
   s.g_positionZ + r.2.2)

/-- The vertex v lies inside the physics box or on its boundary. -/
def insideBounds (m : MathLib K) (s : CubeState K) (v : K × K × K) : Prop :=
  PHYSICS_MIN_X ≤ (worldVertex m s v).1 ∧ (worldVertex m s v).1 ≤ PHYSICS_MAX_X ∧
  PHYSICS_MIN_Y ≤ (worldVertex m s v).2.1 ∧ (worldVertex m s v).2.1 ≤ PHYSICS_MAX_Y ∧
  PHYSICS_MIN_Z ≤ (worldVertex m s v).2.2 ∧ (worldVertex m s v).2.2 ≤ PHYSICS_MAX_Z

instance insideBoundsDecidable (m : MathLib K) (s : CubeState K) (v : K × K × K) :
    Decidable (insideBounds m s v) := by
  unfold insideBounds; infer_instance

/-- The six dot products (world-space face normal . gravity) that the face
loop of CalculateStabilizingTorque computes, in face order. -/
def faceDots (m : MathLib K) (s : CubeState K) (gravityX gravityY gravityZ : K) : List K :=
  g_face_normals.map fun n =>
    (RotateVector m s n.1 n.2.1 n.2.2).1 * gravityX +
    (RotateVector m s n.1 n.2.1 n.2.2).2.1 * gravityY +
    (RotateVector m s n.1 n.2.1 n.2.2).2.2 * gravityZ

/-- The state with its position cleared: what the vertex loop never writes. -/
def offPosition (s : CubeState K) : CubeState K :=
  { s with g_positionX := 0, g_positionY := 0, g_positionZ := 0 }

/-- The loop variables of CheckAndResolveCollisions after its first n
iterations. -/
def collisionScanPrefix (m : MathLib K) (s : CubeState K) (n : ℕ) : Scan K :=
  (g_cube_vertices.take n).foldl (collisionVertexStep m)
    { st := s, collisionDetected := false,
      collisionNormalX := 0, collisionNormalY := 0, collisionNormalZ := 0 }

/-- The righting torque as the spec words it (section 4.2 and claim C7): take
the face whose world-space normal n has the most negative dot product a with
the gravity direction g; if a > -0.99 and |n x g| > 0.001 the torque is
(n x g) / |n x g| * acos(-a) * STABILIZATION_STRENGTH, otherwise zero. -/
def specStabilizingTorque (m : MathLib K) (s : CubeState K) (gx gy gz : K) : K × K × K :=
  let cands : List ((K × K × K) × K) := g_face_normals.map fun n =>
    (RotateVector m s n.1 n.2.1 n.2.2,
     (RotateVector m s n.1 n.2.1 n.2.2).1 * gx + (RotateVector m s n.1 n.2.1 n.2.2).2.1 * gy +
       (RotateVector m s n.1 n.2.1 n.2.2).2.2 * gz)
  let best := cands.tail.foldl (fun b c => if c.2 < b.2 then c else b)
    (cands.headD ((0, 0, 0), 0))
  let n := best.1
  let a := best.2
  let crossX := n.2.1 * gz - n.2.2 * gy
  let crossY := n.2.2 * gx - n.1 * gz
  let crossZ := n.1 * gy - n.2.1 * gx
  let crossLength := m.sqrtf (crossX * crossX + crossY * crossY + crossZ * crossZ)
  if a > -0.99 ∧ crossLength > 0.001 then
    (crossX / crossLength * (m.acosf (-a) * STABILIZATION_STRENGTH),
     crossY / crossLength * (m.acosf (-a) * STABILIZATION_STRENGTH),
     crossZ / crossLength * (m.acosf (-a) * STABILIZATION_STRENGTH))
  else (0, 0, 0)

/-- UpdatePhysics applied once for each accelerometer sample of the list, in
order. -/
def runPhysics (m : MathLib K) (rand : ℕ → ℕ) : List (ℤ × ℤ × ℤ) → CubeState K → CubeState K
  | [], s => s
  | a :: rest, s => runPhysics m rand rest (UpdatePhysics m rand a.1 a.2.1 a.2.2 s)

/-- No step of the run detects a collision: in every step the vertex loop of
CheckAndResolveCollisions ends with collisionDetected false. -/
def collisionFree (m : MathLib K) (rand : ℕ → ℕ) : List (ℤ × ℤ × ℤ) → CubeState K → Prop
  | [], _ => True
  | a :: rest, s =>
    (collisionScan m (integrateMotion m a.1 a.2.1 a.2.2 s)).collisionDetected = false ∧
    collisionFree m rand rest (UpdatePhysics m rand a.1 a.2.1 a.2.2 s)

end Defs

/-! ### Projection and rendering (cube3d.c) -/

section Rendering

variable {K : Type} [LinearOrderedField K] [FloorRing K]

/-- The C conversion `(int)x` of a float: truncation toward zero. -/
def truncToInt (x : K) : ℤ := if 0 ≤ x then ⌊x⌋ else ⌈x⌉

def BLACK : ℕ := 0x0000
def WHITE : ℕ := 0xFFFF
def WALL_COLOR : ℕ := 0x3186

/-- The eight vertices of the environment box, in array order. -/
def g_environment_vertices : List (K × K × K) :=
  [ (-ENV_VISUAL_SIZE, -ENV_VISUAL_SIZE, -ENV_VISUAL_SIZE + ENV_Z_OFFSET),
    ( ENV_VISUAL_SIZE, -ENV_VISUAL_SIZE, -ENV_VISUAL_SIZE + ENV_Z_OFFSET),
    ( ENV_VISUAL_SIZE,  ENV_VISUAL_SIZE, -ENV_VISUAL_SIZE + ENV_Z_OFFSET),
    (-ENV_VISUAL_SIZE,  ENV_VISUAL_SIZE, -ENV_VISUAL_SIZE + ENV_Z_OFFSET),
    (-ENV_VISUAL_SIZE, -ENV_VISUAL_SIZE,  ENV_VISUAL_SIZE + ENV_Z_OFFSET),
    ( ENV_VISUAL_SIZE, -ENV_VISUAL_SIZE,  ENV_VISUAL_SIZE + ENV_Z_OFFSET),
    ( ENV_VISUAL_SIZE,  ENV_VISUAL_SIZE,  ENV_VISUAL_SIZE + ENV_Z_OFFSET),
    (-ENV_VISUAL_SIZE,  ENV_VISUAL_SIZE,  ENV_VISUAL_SIZE + ENV_Z_OFFSET) ]

/-- The twelve edges, as pairs of vertex indices, in array order. -/
def g_cube_edges : List (ℕ × ℕ) :=
  [ (0, 1), (1, 2), (2, 3), (3, 0),
    (4, 5), (5, 6), (6, 7), (7, 4),
    (0, 4), (1, 5), (2, 6), (3, 7) ]

/-- The float arithmetic of the target as far as ProjectPoint depends on it:
rnd x is the float that an operation with exact result x, or a literal of
value x, yields, and toInt x is the conversion (int)x of the float x. -/
structure FloatModel (K : Type) where
  rnd : K → K
  toInt : K → ℤ

/-- The value left in a 32-bit two's-complement int by a sum or difference of
ints whose exact value is n. -/
def wrapInt32 (n : ℤ) : ℤ := (n + 2 ^ 31) % 2 ^ 32 - 2 ^ 31

/-- ProjectPoint: the pair (px, py) written for the local point (x, y, z).
Each float operation is rounded by fm.rnd; the literals 200.0f and 100.0f and
the integer 64 are floats, and 0.001f is fm.rnd 0.001. -/
def ProjectPoint (fm : FloatModel K) (s : CubeState K) (x y z : K) : ℤ × ℤ :=
  let x := fm.rnd (x + fm.rnd (s.g_positionX - SCREEN_CENTER_X))
  let y := fm.rnd (y + fm.rnd (s.g_positionY - SCREEN_CENTER_Y))
  let z := fm.rnd (z + s.g_positionZ)
  let f : K := 200.0
  let z_offset : K := 100.0
  if |fm.rnd (z + z_offset)| > fm.rnd 0.001 then
    let perspective := fm.rnd (f / fm.rnd (z + z_offset))
    (wrapInt32 (SCREEN_WIDTH / 2 + fm.toInt (fm.rnd (x * perspective))),
     wrapInt32 (SCREEN_HEIGHT / 2 - fm.toInt (fm.rnd (y * perspective))))
  else
    (wrapInt32 (SCREEN_WIDTH / 2 + fm.toInt x), wrapInt32 (SCREEN_HEIGHT / 2 - fm.toInt y))

/-- ProjectEnvironmentPoint: the pair (px, py) written for the world point
(x, y, z). -/
def ProjectEnvironmentPoint (x y z : K) : ℤ × ℤ :=
  let f : K := 200.0
  let z_offset : K := 100.0
  let p : ℤ × ℤ :=
    if |z + z_offset| > 0.001 then
      let perspective := f / (z + z_offset)
      let projectedX := x * perspective
      let projectedY := y * perspective
      let projectedX := if projectedX > 200.0 then 200.0 else projectedX
      let projectedX := if projectedX < -200.0 then -200.0 else projectedX
      let projectedY := if projectedY > 200.0 then 200.0 else projectedY
      let projectedY := if projectedY < -200.0 then -200.0 else projectedY
      (SCREEN_WIDTH / 2 + truncToInt projectedX,
       SCREEN_HEIGHT / 2 - truncToInt projectedY)
    else
      (SCREEN_WIDTH / 2 + truncToInt x, SCREEN_HEIGHT / 2 - truncToInt y)
  let px := if p.1 < 0 then 0 else p.1
  let px := if px ≥ SCREEN_WIDTH then SCREEN_WIDTH - 1 else px
  let py := if p.2 < 0 then 0 else p.2
  let py := if py ≥ SCREEN_HEIGHT then SCREEN_HEIGHT - 1 else py
  (px, py)

/-- A call made by the renderer to the display library. -/
inductive DrawCall
  | drawFastHLine (x y w : ℤ) (color : ℕ)
  | drawFastVLine (x y h : ℤ) (color : ℕ)
  | drawLine (x0 y0 x1 y1 : ℤ) (color : ℕ)
  deriving DecidableEq

/-- The file-scope rendering variables of cube3d.c: the projected vertex
arrays of the cube and of the environment, their copies from the previous
frame, and the first-frame flag. -/
structure RenderState where
  g_projected_vertices : List (ℤ × ℤ)
  g_prev_projected_vertices : List (ℤ × ℤ)
  g_projected_env_vertices : List (ℤ × ℤ)
  g_prev_projected_env_vertices : List (ℤ × ℤ)
  g_first_frame : Bool

/-- The outcome of one render call: the variables afterwards, the calls made
by the erase loop, and after them the calls made by the draw loop. -/
structure Rendered where
  st : RenderState
  eraseCalls : List DrawCall
  drawCalls : List DrawCall

/-- The body of the edge loops of RenderEnvironment (the erase loop and the
draw loop have the same body), for the edge e, reading the vertex array buf
and drawing in the given colour. -/
def envEdgeCalls (buf : List (ℤ × ℤ)) (color : ℕ) (e : ℕ × ℕ) : List DrawCall :=
  let v1 := e.1
  let v2 := e.2
  let x1 := (buf.getD v1 (0, 0)).1
  let y1 := (buf.getD v1 (0, 0)).2
  let x2 := (buf.getD v2 (0, 0)).1
  let y2 := (buf.getD v2 (0, 0)).2
  let dx := |x2 - x1|
  let dy := |y2 - y1|
  if dx > SCREEN_WIDTH ∨ dy > SCREEN_HEIGHT then []
  else if y1 = y2 ∧ dx > 0 then
    let startX := if x1 < x2 then x1 else x2
    let width := dx + 1
    [DrawCall.drawFastHLine startX y1 width color]
  else if x1 = x2 ∧ dy > 0 then
    let startY := if y1 < y2 then y1 else y2
    let height := dy + 1
    [DrawCall.drawFastVLine x1 startY height color]
  else if dx > 0 ∨ dy > 0 then
    [DrawCall.drawLine x1 y1 x2 y2 color]
  else []

/-- RenderEnvironment.  The environment vertices are constants; they are
projected in exact rational arithmetic. -/
def RenderEnvironment (color : ℕ) (r : RenderState) : Rendered :=
  let r1 : RenderState :=
    { r with
      g_projected_env_vertices :=
        (g_environment_vertices (K := ℚ)).map
          (fun v => ProjectEnvironmentPoint v.1 v.2.1 v.2.2) }
  let erase : List DrawCall :=
    if !r1.g_first_frame then
      g_cube_edges.flatMap (envEdgeCalls r1.g_prev_projected_env_vertices BLACK)
    else []
  let draw : List DrawCall :=
    g_cube_edges.flatMap (envEdgeCalls r1.g_projected_env_vertices color)
  { st := { r1 with g_prev_projected_env_vertices := r1.g_projected_env_vertices }
    eraseCalls := erase
    drawCalls := draw }

/-- The body of the edge loops of RenderCube (the erase loop and the draw loop
have the same body), for the edge e, reading the vertex array buf and drawing
in the given colour. -/
def cubeEdgeCall (buf : List (ℤ × ℤ)) (color : ℕ) (e : ℕ × ℕ) : DrawCall :=
  let v1 := e.1
  let v2 := e.2
  DrawCall.drawLine (buf.getD v1 (0, 0)).1 (buf.getD v1 (0, 0)).2
    (buf.getD v2 (0, 0)).1 (buf.getD v2 (0, 0)).2 color

/-- RenderCube. -/
def RenderCube (fm : FloatModel K) (m : MathLib K) (color : ℕ) (s : CubeState K)
    (r : RenderState) : Rendered :=
  let r1 : RenderState :=
    { r with
      g_projected_vertices :=
        g_cube_vertices.map (fun v =>
          let p := RotatePoint m s v.1 v.2.1 v.2.2
          ProjectPoint fm s p.1 p.2.1 p.2.2) }
  let erase : List DrawCall :=
    if !r1.g_first_frame then
      g_cube_edges.map (cubeEdgeCall r1.g_prev_projected_vertices BLACK)
    else []
  let r2 : RenderState :=
    if !r1.g_first_frame then r1 else { r1 with g_first_frame := false }
  let draw : List DrawCall :=
    g_cube_edges.map (cubeEdgeCall r2.g_projected_vertices color)
  { st := { r2 with g_prev_projected_vertices := r2.g_projected_vertices }
    eraseCalls := erase
    drawCalls := draw }

/-- Cube3D_Initialize, as far as the rendering variables are concerned. -/
def Cube3D_Initialize (r : RenderState) : RenderState :=
  { r with g_first_frame := true }

/-- The calls made by the rendering part of one Cube3D_RunFrame. -/
structure FrameCalls where
  envErase : List DrawCall
  envDraw : List DrawCall
  cubeErase : List DrawCall
  cubeDraw : List DrawCall

/-- The rendering part of Cube3D_RunFrame: RenderEnvironment(WALL_COLOR),
then RenderCube(WHITE), in the simulation state s left by UpdatePhysics. -/
def renderFrame (fm : FloatModel K) (m : MathLib K) (s : CubeState K) (r : RenderState) :
    RenderState × FrameCalls :=
  let e := RenderEnvironment WALL_COLOR r
  let c := RenderCube fm m WHITE s e.st
  (c.st, ⟨e.eraseCalls, e.drawCalls, c.eraseCalls, c.drawCalls⟩)

/-- Successive rendering frames, one for each simulation state of the list. -/
def runFrames (fm : FloatModel K) (m : MathLib K) :
    List (CubeState K) → RenderState → List FrameCalls
  | [], _ => []
  | s :: rest, r => (renderFrame fm m s r).2 :: runFrames fm m rest (renderFrame fm m s r).1

/-! ### Notions used to state the properties of the renderer -/

/-- The limiting applied by ProjectEnvironmentPoint to projectedX and to
projectedY before truncation. -/
def limitProjected (v : K) : K :=
  let v := if v > 200 then 200 else v
  if v < -200 then -200 else v

/-- The final bounds check applied by ProjectEnvironmentPoint to each screen
coordinate. -/
def clampToScreen (p : ℤ) : ℤ :=
  let p := if p < 0 then 0 else p
  if p ≥ 128 then 127 else p

/-- The same call in another colour. -/
def recolor (color : ℕ) : DrawCall → DrawCall
  | DrawCall.drawFastHLine x y w _ => DrawCall.drawFastHLine x y w color
  | DrawCall.drawFastVLine x y h _ => DrawCall.drawFastVLine x y h color
  | DrawCall.drawLine x0 y0 x1 y1 _ => DrawCall.drawLine x0 y0 x1 y1 color

/-- An edge whose projected endpoints, read from buf, differ by more than
the screen width in x or by more than the screen height in y. -/
def longEdge (buf : List (ℤ × ℤ)) (e : ℕ × ℕ) : Prop :=
  |(buf.getD e.2 (0, 0)).1 - (buf.getD e.1 (0, 0)).1| > SCREEN_WIDTH ∨
  |(buf.getD e.2 (0, 0)).2 - (buf.getD e.1 (0, 0)).2| > SCREEN_HEIGHT

/-- The projected vertex array computed by RenderCube in the state s. -/
def projectedCube (fm : FloatModel K) (m : MathLib K) (s : CubeState K) : List (ℤ × ℤ) :=
  g_cube_vertices.map (fun v =>
    let p := RotatePoint m s v.1 v.2.1 v.2.2
    ProjectPoint fm s p.1 p.2.1 p.2.2)

/-- Rounding to the nearest integer, ties to the even one. -/
def roundHalfEven (x : K) : ℤ :=
  if x - ⌊x⌋ < 1 / 2 then ⌊x⌋
  else if x - ⌊x⌋ > 1 / 2 then ⌊x⌋ + 1
  else if ⌊x⌋ % 2 = 0 then ⌊x⌋ else ⌊x⌋ + 1

/-- Rounding to the nearest IEEE 754 binary32 value, ties to even: 24
significant bits, least exponent -126 with gradual underflow below it.
Overflow to infinity is not modelled. -/
def roundBinary32 (x : K) : K :=
  let e : ℤ := max (Int.log 2 |x|) (-126)
  (roundHalfEven (x / 2 ^ (e - 23)) : K) * 2 ^ (e - 23)

/-- The conversion (int)x with saturation: truncation toward zero for a value
in the range of a 32-bit int, and the nearest end of that range for a value
outside it, where C leaves the conversion undefined. -/
def toIntSaturating (x : K) : ℤ :=
  if x ≥ 2 ^ 31 then 2 ^ 31 - 1
  else if x ≤ -(2 ^ 31) then -(2 ^ 31)
  else truncToInt x

/-- IEEE 754 single precision with a saturating conversion to int. -/
def binary32 : FloatModel K := ⟨roundBinary32, toIntSaturating⟩

/-- A float model at least as accurate as binary32 on the values that
ProjectPoint meets: each rounding is off by at most 2^-24 (|x| + 1), and the
conversion to int truncates toward zero a value of magnitude below 2^31. -/
def accurate (fm : FloatModel K) : Prop :=
  (∀ a : K, |fm.rnd a - a| ≤ (|a| + 1) / 2 ^ 24) ∧
  ∀ a : K, |a| < 2 ^ 31 → fm.toInt a = truncToInt a

end Rendering

end Cube3D

namespace VideoGame

def CHARACTER_RUN_LEFT_WIDTH : ℤ := 13
def CHARACTER_RUN_LEFT_HEIGHT : ℤ := 17

/-- The C conversion `(int)x` of a float: truncation toward zero. -/
def toInt (x : ℚ) : ℤ := if 0 ≤ x then ⌊x⌋ else ⌈x⌉

structure Killbox where
  x : ℤ
  y : ℤ
  width : ℤ
  height : ℤ

structure Door where
  x : ℤ
  y : ℤ
  width : ℤ
  height : ℤ
  targetMap : ℤ

structure Enemy where
  x : ℚ
  y : ℚ
  x1 : ℚ
  x2 : ℚ
  speed : ℚ
  direction : ℤ
  characterFrame : ℚ
  prevX : ℤ
  prevY : ℤ
  firstDraw : Bool

/-- The file-scope variables of video_game.c.  The tables g_killboxes, g_doors
and g_enemies are lists holding the entries in use, so that g_killboxCount,
g_doorCount and g_enemyCount are their lengths. -/
structure GameState where
  g_playerX : ℚ
  g_playerY : ℚ
  g_playerVX : ℚ
  g_playerVY : ℚ
  g_prevPlayerX : ℤ
  g_prevPlayerY : ℤ
  g_firstFrame : Bool
  g_isOnGround : Bool
  g_wasButton1Pressed : Bool
  g_lastJumpTime : ℕ
  character_Frame : ℚ
  playing_jump_animation : Bool
  double_jump_available : Bool
  playing_double_jump_animation : Bool
  g_currentMapFrame : ℤ
  g_killboxes : List Killbox
  g_doors : List Door
  g_enemies : List Enemy

/-- The test `bitmap[byteIndex] & bitMask` of CheckBitmapCollision for row j
and column i; the bitmap is the memory it points to, one byte per offset. -/
def solidPixel (bitmap : ℕ → ℕ) (width : ℤ) (j i : ℕ) : Bool :=
  let byteWidth := Int.tdiv (width + 7) 8
  let byteIndex := (j : ℤ) * byteWidth + Int.tdiv (i : ℤ) 8
  let bitMask := 0x80 >>> (i &&& 7)
  decide (bitmap byteIndex.toNat &&& bitMask ≠ 0)

/-- The collision flags and positions that CheckBitmapCollision keeps across
its pixel loops. -/
structure Contacts where
  collideTop : Bool
  collideBottom : Bool
  collideLeft : Bool
  collideRight : Bool
  topCollisionY : ℤ
  bottomCollisionY : ℤ
  leftCollisionX : ℤ
  rightCollisionX : ℤ

/-- The body of the pixel loops of CheckBitmapCollision for one solid pixel
at row j, column i. -/
def pixelStep (s : GameState) (bitmapX bitmapY height pixelSize : ℤ)
    (c : Contacts) (j i : ℕ) : Contacts :=
  let playerX := toInt s.g_playerX
  let playerY := toInt s.g_playerY
  let playerWidth := CHARACTER_RUN_LEFT_WIDTH
  let playerHeight := CHARACTER_RUN_LEFT_HEIGHT
  let collisionBoxOffset := playerHeight
  let collisionY := playerY - collisionBoxOffset
  let playerBottom := collisionY
  let playerTop := collisionY + playerHeight
  let playerLeft := playerX
  let playerRight := playerX + playerWidth
  let horizontalCollisionHeightThreshold := Int.tdiv playerHeight 3
  let pixelScreenX := bitmapX + (i : ℤ) * pixelSize
  let pixelScreenY := bitmapY + (height - 1 - (j : ℤ)) * pixelSize
  let pixelBottom := pixelScreenY
  let pixelTop := pixelScreenY + pixelSize
  let c1 : Contacts :=
    if s.g_playerVY ≤ 0 ∧ playerBottom ≥ pixelTop - 8 ∧ playerBottom ≤ pixelTop + 5 ∧
        playerRight > pixelScreenX ∧ playerLeft < pixelScreenX + pixelSize then
      { c with
        collideBottom := true
        bottomCollisionY := if pixelTop > c.bottomCollisionY then pixelTop
                            else c.bottomCollisionY }
    else if s.g_playerVY > 0 ∧ playerTop ≥ pixelBottom ∧ playerTop ≤ pixelBottom + 5 ∧
        playerRight > pixelScreenX ∧ playerLeft < pixelScreenX + pixelSize then
      { c with
        collideTop := true
        topCollisionY := if c.topCollisionY = 0 ∨ pixelBottom < c.topCollisionY
                         then pixelBottom else c.topCollisionY }
    else c
  let pixelHeightAbovePlayerFeet := pixelTop - playerBottom
  if s.g_playerVX > 0 ∧ playerRight ≥ pixelScreenX ∧ playerRight ≤ pixelScreenX + 5 ∧
      playerBottom < pixelTop ∧ playerTop > pixelBottom ∧
      pixelHeightAbovePlayerFeet ≥ horizontalCollisionHeightThreshold then
    { c1 with
      collideRight := true
      rightCollisionX := if c1.rightCollisionX = 0 ∨ pixelScreenX < c1.rightCollisionX
                         then pixelScreenX else c1.rightCollisionX }
  else if s.g_playerVX < 0 ∧ playerLeft ≤ pixelScreenX + pixelSize ∧
      playerLeft ≥ pixelScreenX + pixelSize - 5 ∧
      playerBottom < pixelTop ∧ playerTop > pixelBottom ∧
      pixelHeightAbovePlayerFeet ≥ horizontalCollisionHeightThreshold then
    { c1 with
      collideLeft := true
      leftCollisionX := if c1.leftCollisionX = 0 ∨ pixelScreenX + pixelSize > c1.leftCollisionX
                        then pixelScreenX + 2 else c1.leftCollisionX }
  else c1

/-- The inner loop of CheckBitmapCollision: the columns i = 0 .. width-1 of
row j. -/
def rowScan (s : GameState) (bitmapX bitmapY : ℤ) (bitmap : ℕ → ℕ)
    (width height pixelSize : ℤ) (c : Contacts) (j : ℕ) : Contacts :=
  (List.range width.toNat).foldl
    (fun c i =>
      if solidPixel bitmap width j i then pixelStep s bitmapX bitmapY height pixelSize c j i
      else c)
    c

/-- The pixel loops of CheckBitmapCollision: the rows j = 0 .. height-1,
starting with all flags false and all positions 0. -/
def bitmapScan (s : GameState) (bitmapX bitmapY : ℤ) (bitmap : ℕ → ℕ)
    (width height pixelSize : ℤ) : Contacts :=
  (List.range height.toNat).foldl
    (rowScan s bitmapX bitmapY bitmap width height pixelSize)
    { collideTop := false, collideBottom := false, collideLeft := false,
      collideRight := false, topCollisionY := 0, bottomCollisionY := 0,
      leftCollisionX := 0, rightCollisionX := 0 }

/-- The condition of the early exit of CheckBitmapCollision: no intersection
of the bounding boxes of the player and of the bitmap is possible. -/
def boundingBoxMiss (s : GameState) (bitmapX bitmapY width height pixelSize : ℤ) : Bool :=
  let playerX := toInt s.g_playerX
  let playerY := toInt s.g_playerY
  let playerWidth := CHARACTER_RUN_LEFT_WIDTH
  let playerHeight := CHARACTER_RUN_LEFT_HEIGHT
  let collisionY := playerY - playerHeight
  decide (playerX + playerWidth < bitmapX ∨ playerX > bitmapX + width * pixelSize ∨
    collisionY > bitmapY + height * pixelSize ∨ collisionY + playerHeight < bitmapY)

/-- The resolution part of CheckBitmapCollision, after the pixel loops have
left the flags and positions c. -/
def resolveContacts (s : GameState) (c : Contacts) : GameState :=
  let playerWidth := CHARACTER_RUN_LEFT_WIDTH
  let playerHeight := CHARACTER_RUN_LEFT_HEIGHT
  let collisionBoxOffset := playerHeight
  let s1 : GameState :=
    if c.collideBottom then
      { s with
        g_playerY := ((c.bottomCollisionY + collisionBoxOffset : ℤ) : ℚ)
        g_isOnGround := true
        g_playerVY := -0.01 }
    else { s with g_isOnGround := false }
  let s2 : GameState :=
    if c.collideTop then
      { s1 with
        g_playerY := ((c.topCollisionY - playerHeight + collisionBoxOffset : ℤ) : ℚ)
        g_playerVY := 0 }
    else s1
  if c.collideRight then
    { s2 with g_playerX := ((c.rightCollisionX - playerWidth : ℤ) : ℚ), g_playerVX := 0 }
  else if c.collideLeft then
    { s2 with g_playerX := ((c.leftCollisionX : ℤ) : ℚ), g_playerVX := 0 }
  else s2

/-- CheckBitmapCollision: the early exit, then the pixel loops, then the
resolution of the contacts found. -/
def CheckBitmapCollision (s : GameState) (bitmapX bitmapY : ℤ) (bitmap : ℕ → ℕ)
    (width height pixelSize : ℤ) : GameState :=
  if boundingBoxMiss s bitmapX bitmapY width height pixelSize then s
  else resolveContacts s (bitmapScan s bitmapX bitmapY bitmap width height pixelSize)

/-! ### Level tables, reset and the per-frame player update (video_game.c) -/

def GRAVITY : ℚ := -0.5
def JUMP_VELOCITY : ℚ := 6.0
def HORIZONTAL_ACCEL : ℚ := 1.0
def MAX_HORIZONTAL_SPEED : ℚ := 8.0
def HORIZONTAL_DAMPING : ℚ := 0.92
def SCREEN_WIDTH : ℤ := 128
def SCREEN_HEIGHT : ℤ := 128
def MAX_KILLBOXES : ℕ := 10
def MAX_DOORS : ℕ := 5
def MAX_ENEMIES : ℕ := 8

/-- ClearKillboxes: g_killboxCount = 0. -/
def ClearKillboxes (s : GameState) : GameState :=
  { s with g_killboxes := [] }

/-- AddKillbox: stores the record at index g_killboxCount and increments the
count when the count is below MAX_KILLBOXES; does nothing otherwise. -/
def AddKillbox (s : GameState) (x y width height : ℤ) : GameState :=
  if s.g_killboxes.length < MAX_KILLBOXES then
    { s with g_killboxes := s.g_killboxes ++ [{ x := x, y := y, width := width, height := height }] }
  else s

/-- The overlap test of CheckKillboxEntry for one killbox. -/
def killboxOverlap (s : GameState) (killbox : Killbox) : Bool :=
  let playerX := toInt s.g_playerX
  let playerY := toInt s.g_playerY
  let playerWidth := CHARACTER_RUN_LEFT_WIDTH
  let playerHeight := CHARACTER_RUN_LEFT_HEIGHT
  let collisionBoxOffset := playerHeight
  let collisionY := playerY - collisionBoxOffset
  decide (playerX < killbox.x + killbox.width ∧ playerX + playerWidth > killbox.x ∧
    collisionY < killbox.y + killbox.height ∧ collisionY + playerHeight > killbox.y)

/-- CheckKillboxEntry: true at the first killbox in use that passes the overlap
test, false when none does.  The function writes no variable. -/
def CheckKillboxEntry (s : GameState) : Bool :=
  s.g_killboxes.any (killboxOverlap s)

/-- ClearDoors: g_doorCount = 0. -/
def ClearDoors (s : GameState) : GameState :=
  { s with g_doors := [] }

/-- AddDoor: stores the record at index g_doorCount and increments the count
when the count is below MAX_DOORS; does nothing otherwise. -/
def AddDoor (s : GameState) (x y width height targetMap : ℤ) : GameState :=
  if s.g_doors.length < MAX_DOORS then
    { s with g_doors := s.g_doors ++
        [{ x := x, y := y, width := width, height := height, targetMap := targetMap }] }
  else s

/-- The overlap test of CheckDoorEntry for one door. -/
def doorOverlap (s : GameState) (door : Door) : Bool :=
  let playerX := toInt s.g_playerX
  let playerY := toInt s.g_playerY
  let playerWidth := CHARACTER_RUN_LEFT_WIDTH
  let playerHeight := CHARACTER_RUN_LEFT_HEIGHT
  let collisionBoxOffset := playerHeight
  let collisionY := playerY - collisionBoxOffset
  decide (playerX < door.x + door.width ∧ playerX + playerWidth > door.x ∧
    collisionY < door.y + door.height ∧ collisionY + playerHeight > door.y)

/-- The door loop of CheckDoorEntry over the doors not yet examined: the
return value and the state at the return. -/
def doorLoop (s : GameState) : List Door → Bool × GameState
  | [] => (false, s)
  | door :: rest =>
    if doorOverlap s door then
      if s.g_currentMapFrame ≠ door.targetMap then
        (true, { s with g_currentMapFrame := door.targetMap })
      else doorLoop s rest
    else doorLoop s rest

/-- CheckDoorEntry: the return value and the state after the call. -/
def CheckDoorEntry (s : GameState) : Bool × GameState :=
  doorLoop s s.g_doors

/-- ClearEnemies: g_enemyCount = 0. -/
def ClearEnemies (s : GameState) : GameState :=
  { s with g_enemies := [] }

/-- AddEnemy: stores the record at index g_enemyCount and increments the count
when the count is below MAX_ENEMIES; does nothing otherwise. -/
def AddEnemy (s : GameState) (x y x1 x2 speed : ℚ) (initialDirection : ℤ) : GameState :=
  if s.g_enemies.length < MAX_ENEMIES then
    { s with g_enemies := s.g_enemies ++
        [{ x := x, y := y, x1 := x1, x2 := x2, speed := speed, direction := initialDirection,
           characterFrame := 0, prevX := -1, prevY := -1, firstDraw := true }] }
  else s

/-- The overlap test of CheckPlayerEnemyCollision for one enemy. -/
def enemyOverlap (s : GameState) (enemy : Enemy) : Bool :=
  let playerX := toInt s.g_playerX
  let playerY := toInt s.g_playerY
  let playerWidth := CHARACTER_RUN_LEFT_WIDTH
  let playerHeight := CHARACTER_RUN_LEFT_HEIGHT
  let collisionBoxOffset := playerHeight
  let collisionY := playerY - collisionBoxOffset
  let enemyX := toInt enemy.x
  let enemyY := toInt enemy.y
  let enemyCollisionY := enemyY - collisionBoxOffset
  decide (playerX < enemyX + playerWidth ∧ playerX + playerWidth > enemyX ∧
    collisionY < enemyCollisionY + playerHeight ∧ collisionY + playerHeight > enemyCollisionY)

/-- CheckPlayerEnemyCollision: true at the first enemy in use that passes the
overlap test, false when none does. -/
def CheckPlayerEnemyCollision (s : GameState) : Bool :=
  s.g_enemies.any (enemyOverlap s)

/-- The body of the loop of UpdateEnemyPhysics for one enemy. -/
def enemyStep (enemy : Enemy) : Enemy :=
  let moved : Enemy := { enemy with x := enemy.x + (enemy.direction : ℚ) * enemy.speed }
  if moved.x ≤ moved.x1 then { moved with x := moved.x1, direction := 1 }
  else if moved.x ≥ moved.x2 then { moved with x := moved.x2, direction := -1 }
  else moved

/-- UpdateEnemyPhysics: the loop over the enemies in use. -/
def UpdateEnemyPhysics (s : GameState) : GameState :=
  { s with g_enemies := s.g_enemies.map enemyStep }

/-- VideoGame_Initialize, without its calls to the display (fillScreen,
drawBitmap): the tables of the current map frame, the spawn position and the
other player variables. -/
def VideoGame_Initialize (s : GameState) : GameState :=
  let s0 := ClearEnemies (ClearKillboxes (ClearDoors s))
  let s1 : GameState :=
    if s0.g_currentMapFrame = 0 then
      AddDoor s0 100 80 20 30 1
    else if s0.g_currentMapFrame = 1 then
      let t1 := AddDoor s0 10 86 10 24 0
      let t2 := AddDoor t1 118 11 10 24 2
      AddKillbox t2 64 64 10 55
    else if s0.g_currentMapFrame = 2 then
      let t1 := AddDoor s0 0 8 10 24 1
      let t2 := AddDoor t1 101 94 10 24 3
      let t3 := AddKillbox t2 0 70 8 54
      let t4 := AddKillbox t3 93 60 33 8
      AddEnemy t4 63 55 63 79 1.0 1
    else if s0.g_currentMapFrame = 3 then
      let t1 := AddDoor s0 10 93 10 24 2
      let t2 := AddDoor t1 118 11 10 90 4
      let t3 := AddEnemy t2 0 33 0 54 1.0 1
      AddEnemy t3 86 33 86 118 1.0 1
    else if s0.g_currentMapFrame = 4 then
      let t1 := AddDoor s0 0 20 10 24 3
      let t2 := AddDoor t1 118 40 10 50 5
      AddEnemy t2 62 55 62 85 1.0 1
    else if s0.g_currentMapFrame = 5 then
      let t1 := AddDoor s0 0 48 3 50 4
      let t2 := AddKillbox t1 0 95 32 9
      let t3 := AddKillbox t2 95 95 32 9
      let t4 := AddKillbox t3 0 0 127 30
      let t5 := AddDoor t4 123 48 4 50 0
      let t6 := AddEnemy t5 46 95 46 71 1.0 1
      AddEnemy t6 94 67 94 118 1.0 1
    else s0
  let s2 : GameState :=
    if s1.g_currentMapFrame = 0 then { s1 with g_playerX := 60, g_playerY := 80 } else s1
  let s3 : GameState :=
    if s2.g_currentMapFrame = 1 then { s2 with g_playerX := 20, g_playerY := 107 }
    else if s2.g_currentMapFrame = 2 then { s2 with g_playerX := 20, g_playerY := 35 }
    else s2
  let s4 : GameState :=
    if s3.g_currentMapFrame = 3 then { s3 with g_playerX := 26, g_playerY := 112 } else s3
  let s5 : GameState :=
    if s4.g_currentMapFrame = 4 then { s4 with g_playerX := 12, g_playerY := 41 }
    else if s4.g_currentMapFrame = 5 then { s4 with g_playerX := 8, g_playerY := 73 }
    else s4
  { s5 with
    g_playerVX := 0.0
    g_playerVY := 0.0
    g_prevPlayerX := -1
    g_prevPlayerY := -1
    g_isOnGround := false
    g_wasButton1Pressed := false
    g_lastJumpTime := 0
    character_Frame := 1
    playing_jump_animation := false
    playing_double_jump_animation := false
    double_jump_available := true }

/-- What UpdatePlayerPhysics reads from the hardware in one call: the state of
button 1, the value returned by GetCurrentTimeMs (an unsigned long, below
2^32) and the joystick voltage read from ADC channel 2. -/
structure FrameInput where
  jumpButtonPressed : Bool
  currentTime : ℕ
  voltage_59 : ℚ

/-- The first part of UpdatePlayerPhysics: horizontal acceleration and speed
limit, jumping, gravity, damping and the update of the position; everything
before the enemy, killbox and door checks. -/
def integratePlayer (s : GameState) (inp : FrameInput) : GameState :=
  let s1 : GameState :=
    if |inp.voltage_59 / 1.4 - 0.5| ≥ 0.1 then
      { s with g_playerVX := s.g_playerVX - (inp.voltage_59 / 1.4 - 0.5) * HORIZONTAL_ACCEL }
    else s
  let s2 : GameState :=
    if s1.g_playerVX > MAX_HORIZONTAL_SPEED then { s1 with g_playerVX := MAX_HORIZONTAL_SPEED }
    else if s1.g_playerVX < -MAX_HORIZONTAL_SPEED then
      { s1 with g_playerVX := -MAX_HORIZONTAL_SPEED }
    else s1
  let s3 : GameState :=
    if inp.jumpButtonPressed = true ∧ s2.g_wasButton1Pressed = false ∧
        (inp.currentTime + 2 ^ 32 - s2.g_lastJumpTime) % 2 ^ 32 > 50 ∧
        (s2.g_isOnGround = true ∨ s2.double_jump_available = true) then
      let t : GameState :=
        if s2.g_isOnGround = false then
          { s2 with double_jump_available := false, playing_double_jump_animation := true }
        else { s2 with playing_jump_animation := true }
      { t with
        g_isOnGround := false
        g_lastJumpTime := inp.currentTime
        character_Frame := 0
        g_playerVY := JUMP_VELOCITY }
    else s2
  let s4 : GameState :=
    if s3.g_isOnGround = true then { s3 with double_jump_available := true } else s3
  let s5 : GameState := { s4 with g_wasButton1Pressed := inp.jumpButtonPressed }
  let s6 : GameState :=
    if s5.g_isOnGround = false then { s5 with g_playerVY := s5.g_playerVY + GRAVITY } else s5
  let s7 : GameState := { s6 with g_playerVX := s6.g_playerVX * HORIZONTAL_DAMPING }
  { s7 with
    g_playerX := s7.g_playerX + s7.g_playerVX
    g_playerY := s7.g_playerY + s7.g_playerVY }

/-- The part of UpdatePlayerPhysics between the door check and the test for
falling off the screen: the collision with the level bitmap (at (0, 0),
128 x 128, pixel size 1) and the clamp to the left and right screen edges. -/
def resolvePlayer (s : GameState) (levelBitmap : ℕ → ℕ) : GameState :=
  let s1 := CheckBitmapCollision s 0 0 levelBitmap 128 128 1
  if s1.g_playerX < 0 then { s1 with g_playerX := 0, g_playerVX := 0 }
  else if s1.g_playerX > ((SCREEN_WIDTH - CHARACTER_RUN_LEFT_WIDTH : ℤ) : ℚ) then
    { s1 with g_playerX := ((SCREEN_WIDTH - CHARACTER_RUN_LEFT_WIDTH : ℤ) : ℚ), g_playerVX := 0 }
  else s1

/-- UpdatePlayerPhysics for one frame's inputs.  The level bitmap is what
get_map_frame returns (the contents of a file); it is a parameter, indexed by
the map frame. -/
def UpdatePlayerPhysics (get_map_frame : ℤ → ℕ → ℕ) (inp : FrameInput) (s : GameState) :
    GameState :=
  let s1 := integratePlayer s inp
  if CheckPlayerEnemyCollision s1 = true then
    VideoGame_Initialize { s1 with g_firstFrame := true }
  else if CheckKillboxEntry s1 = true then
    VideoGame_Initialize { s1 with g_firstFrame := true }
  else if (CheckDoorEntry s1).1 = true then
    VideoGame_Initialize (CheckDoorEntry s1).2
  else
    let s2 := resolvePlayer (CheckDoorEntry s1).2
      (get_map_frame (CheckDoorEntry s1).2.g_currentMapFrame)
    if s2.g_playerY < 0 then VideoGame_Initialize { s2 with g_firstFrame := true }
    else if s2.g_playerY > (SCREEN_HEIGHT : ℚ) then
      { s2 with g_playerY := (SCREEN_HEIGHT : ℚ), g_playerVY := 0 }
    else s2

/-! ### Level drawing, animation and the frame function (Adafruit_GFX.c, video_game.c) -/

def MAP_FRAME_SIZE : ℕ := 2048

/-- A call of drawPixel made by drawBitmap. -/
structure PixelCall where
  x : ℤ
  y : ℤ
  color : ℕ
  deriving DecidableEq

/-- The drawPixel calls of drawBitmap (Adafruit_GFX.c), in order. -/
def drawBitmap (x y : ℤ) (bitmap : ℕ → ℕ) (width height : ℤ) (color : ℕ) (pixelSize : ℤ)
    (drawBackground : Bool) (backgroundColor : ℕ) : List PixelCall :=
  let byteWidth := Int.tdiv (width + 7) 8
  (List.range height.toNat).flatMap fun (j : ℕ) =>
    (List.range width.toNat).flatMap fun (i : ℕ) =>
      let byteIndex := (j : ℤ) * byteWidth + Int.tdiv (i : ℤ) 8
      let bitMask := 0x80 >>> (i &&& 7)
      if bitmap byteIndex.toNat &&& bitMask ≠ 0 then
        (List.range pixelSize.toNat).flatMap fun (py : ℕ) =>
          (List.range pixelSize.toNat).map fun (px : ℕ) =>
            { x := x + (i : ℤ) * pixelSize + (px : ℤ), y := y + (j : ℤ) * pixelSize + (py : ℤ),
              color := color }
      else if drawBackground then
        (List.range pixelSize.toNat).flatMap fun (py : ℕ) =>
          (List.range pixelSize.toNat).map fun (px : ℕ) =>
            { x := x + (i : ℤ) * pixelSize + (px : ℤ), y := y + (j : ℤ) * pixelSize + (py : ℤ),
              color := backgroundColor }
      else []

def CHARACTER_JUMP_FRAME_COUNT : ℚ := 6
def CHARACTER_RUN_LEFT_FRAME_COUNT : ℚ := 4

/-- The frame counts of the two character animations whose headers are not
part of the repository (CHARACTER_RUN_RIGHT_FRAME_COUNT and
CHARACTER_DOUBLE_JUMP_FRAME_COUNT): a parameter. -/
structure AnimationFrames where
  CHARACTER_RUN_RIGHT_FRAME_COUNT : ℚ
  CHARACTER_DOUBLE_JUMP_FRAME_COUNT : ℚ

/-- The body of the loop of UpdateEnemyAnimations for one enemy. -/
def enemyAnimationStep (k : AnimationFrames) (enemy : Enemy) : Enemy :=
  let animationSpeed := (enemy.speed / MAX_HORIZONTAL_SPEED) * 2.0
  if enemy.direction > 0 then
    let e1 : Enemy := { enemy with characterFrame := enemy.characterFrame + animationSpeed }
    if e1.characterFrame ≥ k.CHARACTER_RUN_RIGHT_FRAME_COUNT then { e1 with characterFrame := 0 }
    else e1
  else
    let e1 : Enemy := { enemy with characterFrame := enemy.characterFrame + animationSpeed }
    if e1.characterFrame ≥ CHARACTER_RUN_LEFT_FRAME_COUNT then { e1 with characterFrame := 0 }
    else e1

/-- UpdateEnemyAnimations: the loop over the enemies in use. -/
def UpdateEnemyAnimations (k : AnimationFrames) (s : GameState) : GameState :=
  { s with g_enemies := s.g_enemies.map (enemyAnimationStep k) }

/-- The body of the loop of DrawEnemies for one enemy, without its calls to
the display: the first-draw flag and the saved position. -/
def drawEnemyStep (enemy : Enemy) : Enemy :=
  let e1 : Enemy := if !enemy.firstDraw then enemy else { enemy with firstDraw := false }
  { e1 with prevX := toInt e1.x, prevY := toInt e1.y }

/-- DrawEnemies, without its calls to the display. -/
def DrawEnemies (s : GameState) : GameState :=
  { s with g_enemies := s.g_enemies.map drawEnemyStep }

/-- UpdateCharacterAnimation, called by VideoGame_RunFrame on g_playerVX,
g_isOnGround and the addresses of playing_jump_animation,
playing_double_jump_animation and character_Frame. -/
def UpdateCharacterAnimation (k : AnimationFrames) (s : GameState) : GameState :=
  let vx := s.g_playerVX
  let isOnGround := s.g_isOnGround
  if s.playing_double_jump_animation then
    let s1 : GameState := { s with character_Frame := s.character_Frame + 0.35 }
    if s1.character_Frame ≥ k.CHARACTER_DOUBLE_JUMP_FRAME_COUNT - 1 then
      let s2 : GameState :=
        { s1 with character_Frame := k.CHARACTER_DOUBLE_JUMP_FRAME_COUNT - 1 }
      if isOnGround then
        { s2 with playing_double_jump_animation := false, character_Frame := 0 }
      else s2
    else s1
  else if s.playing_jump_animation then
    let s1 : GameState :=
      if s.character_Frame < CHARACTER_JUMP_FRAME_COUNT - 1 then
        { s with character_Frame := s.character_Frame + 0.35 }
      else s
    if isOnGround then { s1 with playing_jump_animation := false, character_Frame := 0 }
    else s1
  else if isOnGround then
    if vx < -0.5 then
      let s1 : GameState :=
        { s with character_Frame := s.character_Frame - (2 * vx) / MAX_HORIZONTAL_SPEED }
      if s1.character_Frame > CHARACTER_RUN_LEFT_FRAME_COUNT then { s1 with character_Frame := 0 }
      else s1
    else if vx > 0.5 then
      let s1 : GameState :=
        { s with character_Frame := s.character_Frame + (2 * vx) / MAX_HORIZONTAL_SPEED }
      if s1.character_Frame > k.CHARACTER_RUN_RIGHT_FRAME_COUNT then
        { s1 with character_Frame := 0 }
      else s1
    else { s with character_Frame := 0 }
  else s

/-- VideoGame_RunFrame, without its calls to the display: the return value
and the variables afterwards, for the state of button 2 (shouldExit) and the
inputs read by UpdatePlayerPhysics. -/
def VideoGame_RunFrame (k : AnimationFrames) (get_map_frame : ℤ → ℕ → ℕ) (shouldExit : Bool)
    (inp : FrameInput) (s : GameState) : Bool × GameState :=
  if shouldExit then (false, { s with g_firstFrame := true })
  else
    let s1 : GameState := if s.g_firstFrame then VideoGame_Initialize s else s
    let s2 := UpdatePlayerPhysics get_map_frame inp s1
    let s3 := UpdateEnemyPhysics s2
    if s3.g_firstFrame = true ∧ s3.g_playerY < 0 then (false, s3)
    else
      let s4 := DrawEnemies (UpdateEnemyAnimations k s3)
      let s5 : GameState := if !s4.g_firstFrame then s4 else { s4 with g_firstFrame := false }
      let s6 := UpdateCharacterAnimation k s5
      (true, { s6 with g_prevPlayerX := toInt s6.g_playerX, g_prevPlayerY := toInt s6.g_playerY })

/-- The values of the file-scope variables of video_game.c at start-up. -/
def initialState : GameState :=
  { g_playerX := 64, g_playerY := 64, g_playerVX := 0.0, g_playerVY := 0.0,
    g_prevPlayerX := -1, g_prevPlayerY := -1, g_firstFrame := true, g_isOnGround := false,
    g_wasButton1Pressed := false, g_lastJumpTime := 0, character_Frame := 0,
    playing_jump_animation := false, double_jump_available := true,
    playing_double_jump_animation := false, g_currentMapFrame := 0,
    g_killboxes := [], g_doors := [], g_enemies := [] }

/-! ### Notions used to state the properties of the platformer code -/

/-- The player's feet: `collisionY = (int)g_playerY - playerHeight`. -/
def feetOf (s : GameState) : ℤ := toInt s.g_playerY - CHARACTER_RUN_LEFT_HEIGHT

/-- The value of pixelTop for a pixel of row j. -/
def pixelTopOf (bitmapY height pixelSize : ℤ) (j : ℕ) : ℤ :=
  bitmapY + (height - 1 - (j : ℤ)) * pixelSize + pixelSize

/-- The geometric part of the bottom-contact test for the pixel at row j,
column i: the feet within [pixelTop - 8, pixelTop + 5] and the x-span of the
player strictly overlapping that of the pixel. -/
def bottomContact (s : GameState) (bitmapX bitmapY height pixelSize : ℤ) (j i : ℕ) : Prop :=
  feetOf s ≥ pixelTopOf bitmapY height pixelSize j - 8 ∧
  feetOf s ≤ pixelTopOf bitmapY height pixelSize j + 5 ∧
  toInt s.g_playerX + CHARACTER_RUN_LEFT_WIDTH > bitmapX + (i : ℤ) * pixelSize ∧
  toInt s.g_playerX < bitmapX + (i : ℤ) * pixelSize + pixelSize

instance bottomContactDecidable (s : GameState) (bitmapX bitmapY height pixelSize : ℤ)
    (j i : ℕ) :
    Decidable (bottomContact s bitmapX bitmapY height pixelSize j i) := by
  unfold bottomContact; infer_instance

/-- A state of the platformer with the player at (x, y) with velocity
(vx, vy) and the given on-ground flag; the other variables have their initial
values. -/
def playerAt (x y vx vy : ℚ) (ground : Bool) : GameState :=
  { g_playerX := x, g_playerY := y, g_playerVX := vx, g_playerVY := vy,
    g_prevPlayerX := -1, g_prevPlayerY := -1, g_firstFrame := true, g_isOnGround := ground,
    g_wasButton1Pressed := false, g_lastJumpTime := 0, character_Frame := 0,
    playing_jump_animation := false, double_jump_available := true,
    playing_double_jump_animation := false, g_currentMapFrame := 0,
    g_killboxes := [], g_doors := [], g_enemies := [] }

/-- Two rectangles of unit cells, [ax, ax+aw) x [ay, ay+ah) and
[bx, bx+bw) x [bY, bY+bh), share at least one cell. -/
def sharesCell (ax ay aw ah bx bY bw bh : ℤ) : Prop :=
  ∃ cx cy : ℤ, (ax ≤ cx ∧ cx < ax + aw) ∧ (bx ≤ cx ∧ cx < bx + bw) ∧
    (ay ≤ cy ∧ cy < ay + ah) ∧ (bY ≤ cy ∧ cy < bY + bh)

/-- The overlap test that CheckKillboxEntry, CheckDoorEntry and
CheckPlayerEnemyCollision apply to the player's rectangle and a rectangle with
corner (x, y), width w and height h. -/
def playerRectMeets (s : GameState) (x y w h : ℤ) : Prop :=
  toInt s.g_playerX < x + w ∧ toInt s.g_playerX + CHARACTER_RUN_LEFT_WIDTH > x ∧
  toInt s.g_playerY - CHARACTER_RUN_LEFT_HEIGHT < y + h ∧
  toInt s.g_playerY - CHARACTER_RUN_LEFT_HEIGHT + CHARACTER_RUN_LEFT_HEIGHT > y

instance playerRectMeetsDecidable (s : GameState) (x y w h : ℤ) :
    Decidable (playerRectMeets s x y w h) := by
  unfold playerRectMeets; infer_instance

/-- The spawn position of each level, as the spec lists them. -/
def spawnPosition (L : ℤ) : ℚ × ℚ :=
  if L = 0 then (60, 80)
  else if L = 1 then (20, 107)
  else if L = 2 then (20, 35)
  else if L = 3 then (26, 112)
  else if L = 4 then (12, 41)
  else (8, 73)

/-- The player is in the spawn state of level L: the level index is L, the
position is the spawn position of L, both velocities are 0, the on-ground flag
is false and the double jump is available. -/
def isSpawnState (s : GameState) (L : ℤ) : Prop :=
  s.g_currentMapFrame = L ∧ s.g_playerX = (spawnPosition L).1 ∧
  s.g_playerY = (spawnPosition L).2 ∧ s.g_playerVX = 0 ∧ s.g_playerVY = 0 ∧
  s.g_isOnGround = false ∧ s.double_jump_available = true

/-- A call of one of the six table functions, with its arguments. -/
inductive TableOp
  | clearKillboxes
  | addKillbox (x y width height : ℤ)
  | clearDoors
  | addDoor (x y width height targetMap : ℤ)
  | clearEnemies
  | addEnemy (x y x1 x2 speed : ℚ) (initialDirection : ℤ)

/-- The state after one call of a table function. -/
def applyTableOp (s : GameState) : TableOp → GameState
  | TableOp.clearKillboxes => ClearKillboxes s
  | TableOp.addKillbox x y width height => AddKillbox s x y width height
  | TableOp.clearDoors => ClearDoors s
  | TableOp.addDoor x y width height targetMap => AddDoor s x y width height targetMap
  | TableOp.clearEnemies => ClearEnemies s
  | TableOp.addEnemy x y x1 x2 speed initialDirection =>
    AddEnemy s x y x1 x2 speed initialDirection

/-- The state after a sequence of calls of table functions. -/
def applyTableOps (s : GameState) (ops : List TableOp) : GameState :=
  ops.foldl applyTableOp s

/-- The three counts are within the capacities of their tables. -/
def tablesWithinCapacity (s : GameState) : Prop :=
  s.g_killboxes.length ≤ MAX_KILLBOXES ∧ s.g_doors.length ≤ MAX_DOORS ∧
  s.g_enemies.length ≤ MAX_ENEMIES

/-- The level index and the three tables of a state. -/
def levelData (s : GameState) : ℤ × List Door × List Killbox × List Enemy :=
  (s.g_currentMapFrame, s.g_doors, s.g_killboxes, s.g_enemies)

/-- The number of bytes of one bitmap row as the spec words it: the width
divided by 8, rounded up. -/
def bytesPerRow (width : ℤ) : ℕ := ⌈(width : ℚ) / 8⌉.toNat

/-- The states that the game can be in: the start-up state and every state
obtained from one of them by VideoGame_Initialize, by UpdatePlayerPhysics or by
VideoGame_RunFrame, whatever the inputs. -/
inductive Reachable (k : AnimationFrames) (get_map_frame : ℤ → ℕ → ℕ) : GameState → Prop
  | start : Reachable k get_map_frame initialState
  | reset (s : GameState) :
      Reachable k get_map_frame s → Reachable k get_map_frame (VideoGame_Initialize s)
  | update (s : GameState) (inp : FrameInput) :
      Reachable k get_map_frame s →
      Reachable k get_map_frame (UpdatePlayerPhysics get_map_frame inp s)
  | frame (s : GameState) (shouldExit : Bool) (inp : FrameInput) :
      Reachable k get_map_frame s →
      Reachable k get_map_frame (VideoGame_RunFrame k get_map_frame shouldExit inp s).2

/-- The level index is one of 0..5 and every registered door leads to a level
in 0..5 other than the current one. -/
def levelInvariant (s : GameState) : Prop :=
  0 ≤ s.g_currentMapFrame ∧ s.g_currentMapFrame ≤ 5 ∧
  ∀ d ∈ s.g_doors, 0 ≤ d.targetMap ∧ d.targetMap ≤ 5 ∧ d.targetMap ≠ s.g_currentMapFrame

/-- The conditions under which a jump starts in a step from the state s with
the input inp: a rising edge of the jump button, more than 50 ms between the
previous jump and the current time (a difference of unsigned long values), and
the player on the ground or the double jump available. -/
def jumpStarts (s : GameState) (inp : FrameInput) : Prop :=
  inp.jumpButtonPressed = true ∧ s.g_wasButton1Pressed = false ∧
  (inp.currentTime + 2 ^ 32 - s.g_lastJumpTime) % 2 ^ 32 > 50 ∧
  (s.g_isOnGround = true ∨ s.double_jump_available = true)

instance jumpStartsDecidable (s : GameState) (inp : FrameInput) : Decidable (jumpStarts s inp) := by
  unfold jumpStarts; infer_instance

/-- The step of UpdatePlayerPhysics from s with the input inp calls
VideoGame_Initialize: an enemy or killbox is hit, a door is entered, or the
player has fallen below the screen. -/
def resetOccurs (get_map_frame : ℤ → ℕ → ℕ) (inp : FrameInput) (s : GameState) : Prop :=
  CheckPlayerEnemyCollision (integratePlayer s inp) = true ∨
  CheckKillboxEntry (integratePlayer s inp) = true ∨
  (CheckDoorEntry (integratePlayer s inp)).1 = true ∨
  (resolvePlayer (integratePlayer s inp)
    (get_map_frame (integratePlayer s inp).g_currentMapFrame)).g_playerY < 0

instance resetOccursDecidable (get_map_frame : ℤ → ℕ → ℕ) (inp : FrameInput) (s : GameState) :
    Decidable (resetOccurs get_map_frame inp s) := by
  unfold resetOccurs; infer_instance

end VideoGame

/-! ## Theorems: cube demo -/

namespace Cube3D

section Theorems

variable {K : Type} [LinearOrderedField K]

theorem bestFaceStep_le (m : MathLib K) (s : CubeState K) (gx gy gz : K)
    (b : K × ℤ) (f : ℕ × (K × K × K)) (hb : b.1 ≤ -1) :
    (bestFaceStep m s gx gy gz b f).1 ≤ -1 := by
  unfold bestFaceStep
  dsimp only
  split_ifs with h
  · exact le_trans (le_of_lt h) hb
  · exact hb

theorem bestFace_foldl_le (m : MathLib K) (s : CubeState K) (gx gy gz : K)
    (l : List (ℕ × (K × K × K))) (b : K × ℤ) (hb : b.1 ≤ -1) :
    (l.foldl (bestFaceStep m s gx gy gz) b).1 ≤ -1 := by
  induction l generalizing b with
  | nil => simpa using hb
  | cons f t ih =>
    rw [List.foldl_cons]
    exact ih _ (bestFaceStep_le m s gx gy gz b f hb)

/-- The face loop never leaves bestAlignment above its initial value -1.0. -/
theorem bestFaceScan_le (m : MathLib K) (s : CubeState K) (gx gy gz : K) :
    (bestFaceScan m s gx gy gz).1 ≤ -1 := by
  unfold bestFaceScan
  apply bestFace_foldl_le
  norm_num

/-- CalculateStabilizingTorque returns the zero torque on every input: the
test `bestAlignment > -0.99` cannot succeed after the face loop. -/
theorem torque_always_zero (m : MathLib K) (s : CubeState K) (gx gy gz : K) :
    CalculateStabilizingTorque m s gx gy gz = (0, 0, 0) := by
  have h := bestFaceScan_le m s gx gy gz
  unfold CalculateStabilizingTorque
  dsimp only
  have hn : ¬ ((bestFaceScan m s gx gy gz).2 ≠ -1 ∧ (bestFaceScan m s gx gy gz).1 > -0.99) := by
    rintro ⟨_, h2⟩
    have : (-0.99 : K) > -1 := by norm_num
    linarith
  rw [if_neg hn]
  norm_num

/-- A vertex inside the box (boundary included) leaves every loop variable
as it was. -/
theorem collisionVertexStep_inside (m : MathLib K) (a : Scan K) (v : K × K × K)
    (h : insideBounds m a.st v) : collisionVertexStep m a v = a := by
  obtain ⟨h1, h2, h3, h4, h5, h6⟩ := h
  simp only [worldVertex] at h1 h2 h3 h4 h5 h6
  unfold collisionVertexStep
  simp only [gt_iff_lt, not_lt.mpr h1, not_lt.mpr h2, not_lt.mpr h3, not_lt.mpr h4,
    not_lt.mpr h5, not_lt.mpr h6, if_false]

theorem collisionFold_inside (m : MathLib K) (l : List (K × K × K)) (a : Scan K)
    (h : ∀ v ∈ l, insideBounds m a.st v) : l.foldl (collisionVertexStep m) a = a := by
  induction l with
  | nil => rfl
  | cons v t ih =>
    rw [List.foldl_cons, collisionVertexStep_inside m a v (h v (List.mem_cons_self v t))]
    exact ih fun w hw => h w (List.mem_cons_of_mem v hw)

theorem collisionVertexStep_offPosition (m : MathLib K) (a : Scan K) (v : K × K × K) :
    offPosition (collisionVertexStep m a v).st = offPosition a.st := by
  unfold collisionVertexStep offPosition
  dsimp only
  split_ifs <;> rfl

theorem collisionFold_offPosition (m : MathLib K) (l : List (K × K × K)) (a : Scan K) :
    offPosition (l.foldl (collisionVertexStep m) a).st = offPosition a.st := by
  induction l generalizing a with
  | nil => rfl
  | cons v t ih => rw [List.foldl_cons, ih, collisionVertexStep_offPosition]

theorem collisionScan_offPosition (m : MathLib K) (s : CubeState K) :
    offPosition (collisionScan m s).st = offPosition s := by
  unfold collisionScan
  rw [collisionFold_offPosition]

theorem collisionScan_velocity (m : MathLib K) (s : CubeState K) :
    (collisionScan m s).st.g_velocityX = s.g_velocityX ∧
    (collisionScan m s).st.g_velocityY = s.g_velocityY ∧
    (collisionScan m s).st.g_velocityZ = s.g_velocityZ := by
  have h := collisionScan_offPosition m s
  exact ⟨congrArg (fun x => x.g_velocityX) h, congrArg (fun x => x.g_velocityY) h,
    congrArg (fun x => x.g_velocityZ) h⟩

/-- The collision response writes no position. -/
theorem collisionResponse_position (m : MathLib K) (rand : ℕ → ℕ) (a : Scan K) :
    (collisionResponse m rand a).g_positionX = a.st.g_positionX ∧
    (collisionResponse m rand a).g_positionY = a.st.g_positionY ∧
    (collisionResponse m rand a).g_positionZ = a.st.g_positionZ := by
  unfold collisionResponse
  dsimp only
  split_ifs <;> exact ⟨rfl, rfl, rfl⟩

theorem collisionScan_inside (m : MathLib K) (s : CubeState K)
    (h : ∀ v ∈ g_cube_vertices, insideBounds m s v) :
    collisionScan m s =
      { st := s, collisionDetected := false,
        collisionNormalX := 0, collisionNormalY := 0, collisionNormalZ := 0 } := by
  unfold collisionScan
  exact collisionFold_inside m _ _ h

theorem checkAndResolve_inside (m : MathLib K) (rand : ℕ → ℕ) (s : CubeState K)
    (h : ∀ v ∈ g_cube_vertices, insideBounds m s v) :
    CheckAndResolveCollisions m rand s = s := by
  unfold CheckAndResolveCollisions
  rw [collisionScan_inside m s h]
  simp [collisionResponse]

/-- C3: when all eight rotated and translated vertices satisfy
PHYSICS_MIN <= coordinate <= PHYSICS_MAX on every axis (a vertex exactly on a
boundary plane included), CheckAndResolveCollisions detects no collision and
returns the state it was given: position, linear velocity, angular velocity
and the count of rand calls are unchanged. -/
theorem C3_no_collision_within_bounds (m : MathLib K) (rand : ℕ → ℕ) (s : CubeState K)
    (h : ∀ v ∈ g_cube_vertices, insideBounds m s v) :
    (collisionScan m s).collisionDetected = false ∧
    CheckAndResolveCollisions m rand s = s :=
  ⟨by rw [collisionScan_inside m s h], checkAndResolve_inside m rand s h⟩

/-- C4: reflection law.  When the vertex loop has detected a violation and the
accumulated contact normal has length L > 0.001, let n be that normal divided
by L and v the incoming velocity.  If v.n < 0 the outgoing velocity v2
satisfies v2.n = -RESTITUTION * (v.n) and v2 - (v2.n) n = v - (v.n) n, and a
velocity purely along the normal comes out as -0.5 * v; if v.n >= 0 the
velocity is unchanged. -/
theorem C4_reflection_law (m : MathLib K) (rand : ℕ → ℕ) (s : CubeState K)
    (hsqrt : ∀ x : K, 0 ≤ x → m.sqrtf x * m.sqrtf x = x)
    (hdet : (collisionScan m s).collisionDetected = true)
    (hlen : m.sqrtf ((collisionScan m s).collisionNormalX * (collisionScan m s).collisionNormalX +
                     (collisionScan m s).collisionNormalY * (collisionScan m s).collisionNormalY +
                     (collisionScan m s).collisionNormalZ * (collisionScan m s).collisionNormalZ)
              > 0.001) :
    let a := collisionScan m s
    let L := m.sqrtf (a.collisionNormalX * a.collisionNormalX +
                      a.collisionNormalY * a.collisionNormalY +
                      a.collisionNormalZ * a.collisionNormalZ)
    let nx := a.collisionNormalX / L
    let ny := a.collisionNormalY / L
    let nz := a.collisionNormalZ / L
    let vn := s.g_velocityX * nx + s.g_velocityY * ny + s.g_velocityZ * nz
    let t := CheckAndResolveCollisions m rand s
    let tn := t.g_velocityX * nx + t.g_velocityY * ny + t.g_velocityZ * nz
    (vn < 0 →
      tn = -RESTITUTION * vn ∧
      t.g_velocityX - tn * nx = s.g_velocityX - vn * nx ∧
      t.g_velocityY - tn * ny = s.g_velocityY - vn * ny ∧
      t.g_velocityZ - tn * nz = s.g_velocityZ - vn * nz ∧
      (s.g_velocityX = vn * nx ∧ s.g_velocityY = vn * ny ∧ s.g_velocityZ = vn * nz →
        t.g_velocityX = -0.5 * s.g_velocityX ∧ t.g_velocityY = -0.5 * s.g_velocityY ∧
        t.g_velocityZ = -0.5 * s.g_velocityZ)) ∧
    (0 ≤ vn →
      t.g_velocityX = s.g_velocityX ∧ t.g_velocityY = s.g_velocityY ∧
      t.g_velocityZ = s.g_velocityZ) := by
  intro a L nx ny nz vn t tn
  obtain ⟨hvx, hvy, hvz⟩ := collisionScan_velocity m s
  have hLpos : (0 : K) < L := lt_trans (by norm_num) hlen
  have hLne : L ≠ 0 := ne_of_gt hLpos
  have hsq : L * L = a.collisionNormalX * a.collisionNormalX +
      a.collisionNormalY * a.collisionNormalY + a.collisionNormalZ * a.collisionNormalZ :=
    hsqrt _ (add_nonneg (add_nonneg (mul_self_nonneg _) (mul_self_nonneg _))
      (mul_self_nonneg _))
  have hunit : nx * nx + ny * ny + nz * nz = 1 := by
    simp only [nx, ny, nz]
    field_simp
    linarith
  have hdot : a.st.g_velocityX * nx + a.st.g_velocityY * ny + a.st.g_velocityZ * nz = vn := by
    simp only [vn, a, hvx, hvy, hvz]
  constructor
  · intro hneg
    have ht : t.g_velocityX = s.g_velocityX - (1.0 + RESTITUTION) * vn * nx ∧
        t.g_velocityY = s.g_velocityY - (1.0 + RESTITUTION) * vn * ny ∧
        t.g_velocityZ = s.g_velocityZ - (1.0 + RESTITUTION) * vn * nz := by
      simp only [t, CheckAndResolveCollisions, collisionResponse]
      rw [if_pos hdet, if_pos hlen]
      have hneg2 : a.st.g_velocityX * nx + a.st.g_velocityY * ny + a.st.g_velocityZ * nz < 0 := by
        rw [hdot]; exact hneg
      rw [if_pos hneg2]
      simp only [a] at hdot
      refine ⟨?_, ?_, ?_⟩ <;> simp only [hdot, hvx, hvy, hvz]
    obtain ⟨htx, hty, htz⟩ := ht
    have htn : tn = -RESTITUTION * vn := by
      simp only [tn, htx, hty, htz, RESTITUTION]
      have : (s.g_velocityX - (1.0 + 0.5) * vn * nx) * nx +
          (s.g_velocityY - (1.0 + 0.5) * vn * ny) * ny +
          (s.g_velocityZ - (1.0 + 0.5) * vn * nz) * nz
          = vn - (1.0 + 0.5) * vn * (nx * nx + ny * ny + nz * nz) := by
        simp only [vn]; ring
      rw [this, hunit]
      norm_num
      ring
    refine ⟨htn, ?_, ?_, ?_, ?_⟩
    · rw [htn, htx]; simp only [RESTITUTION]; norm_num; ring
    · rw [htn, hty]; simp only [RESTITUTION]; norm_num; ring
    · rw [htn, htz]; simp only [RESTITUTION]; norm_num; ring
    · rintro ⟨hx, hy, hz⟩
      refine ⟨?_, ?_, ?_⟩
      · rw [htx]; simp only [RESTITUTION]; rw [hx]; norm_num; ring
      · rw [hty]; simp only [RESTITUTION]; rw [hy]; norm_num; ring
      · rw [htz]; simp only [RESTITUTION]; rw [hz]; norm_num; ring
  · intro hnn
    have hnn2 : ¬ (a.st.g_velocityX * nx + a.st.g_velocityY * ny + a.st.g_velocityZ * nz < 0) := by
      rw [hdot]; exact not_lt.mpr hnn
    simp only [t, CheckAndResolveCollisions, collisionResponse]
    rw [if_pos hdet, if_pos hlen, if_neg hnn2]
    exact ⟨hvx, hvy, hvz⟩

/-- C6: for every orientation and every unit gravity direction g, if the
smallest of the six dot products (rotated face normal . g) is <= -0.99, then
CalculateStabilizingTorque returns the zero vector. -/
theorem C6_torque_zero_when_converged (m : MathLib K) (s : CubeState K) (gx gy gz : K)
    (_hunit : gx * gx + gy * gy + gz * gz = 1)
    (a : K) (_ha : a ∈ faceDots m s gx gy gz)
    (_hmin : ∀ d ∈ faceDots m s gx gy gz, a ≤ d) (_hconv : a ≤ -0.99) :
    CalculateStabilizingTorque m s gx gy gz = (0, 0, 0) :=
  torque_always_zero m s gx gy gz

theorem integrateMotion_scenario (m : MathLib K)
    (hsqrt : ∀ x : K, 0 ≤ x → m.sqrtf (x * x) = x)
    (aY : ℤ) (haY : 0 < aY) (k : ℕ) :
    integrateMotion m 0 aY 0 ⟨0, 0, 0, 108.5, 64, 40, 0, 0, 0, 0, 0, 0, k⟩ =
      ⟨0, 0, 0, 109.37318, 64, 40, 0.9702, 0, 0, 0, 0, 0, k⟩ := by
  have h1 : (1 : K) ≤ (aY : K) := by exact_mod_cast haY
  have h0 : (0 : K) ≤ (aY : K) := le_trans zero_le_one h1
  have hne : (aY : K) ≠ 0 := ne_of_gt (lt_of_lt_of_le zero_lt_one h1)
  have hmag : m.sqrtf ((aY : K) * (aY : K) + ((-0 : ℤ) : K) * ((-0 : ℤ) : K) +
      ((-0 : ℤ) : K) * ((-0 : ℤ) : K)) = (aY : K) := by
    have : (aY : K) * (aY : K) + ((-0 : ℤ) : K) * ((-0 : ℤ) : K) +
      ((-0 : ℤ) : K) * ((-0 : ℤ) : K) = (aY : K) * (aY : K) := by simp
    rw [this]; exact hsqrt _ h0
  have hgt : (aY : K) > 0.001 := lt_of_lt_of_le (by norm_num) h1
  unfold integrateMotion
  simp only [hmag, if_pos hgt, torque_always_zero, div_self hne]
  simp only [GRAVITY_STRENGTH, TIME_STEP, DAMPING, ANGULAR_DAMPING]
  norm_num

theorem RotatePoint_zeroAngles (m : MathLib K) (hcos : m.cosf 0 = 1) (hsin : m.sinf 0 = 0)
    (s : CubeState K) (hx : s.g_angleX = 0) (hy : s.g_angleY = 0) (hz : s.g_angleZ = 0)
    (x y z : K) : RotatePoint m s x y z = (x, y, z) := by
  simp [RotatePoint, hx, hy, hz, hcos, hsin]

theorem collisionScanPrefix_scenario (m : MathLib K)
    (hcos : m.cosf 0 = 1) (hsin : m.sinf 0 = 0) (k : ℕ) (n : ℕ) (hn : n ≤ 8) :
    collisionScanPrefix m ⟨0, 0, 0, 109.37318, 64, 40, 0.9702, 0, 0, 0, 0, 0, k⟩ n =
      if n < 2 then
        ⟨⟨0, 0, 0, 109.37318, 64, 40, 0.9702, 0, 0, 0, 0, 0, k⟩, false, 0, 0, 0⟩
      else ⟨⟨0, 0, 0, 109, 64, 40, 0.9702, 0, 0, 0, 0, 0, k⟩, true, -1, 0, 0⟩ := by
  have hr : ∀ (px : K) (x y z : K),
      RotatePoint m ⟨0, 0, 0, px, 64, 40, 0.9702, 0, 0, 0, 0, 0, k⟩ x y z = (x, y, z) :=
    fun px x y z => RotatePoint_zeroAngles m hcos hsin _ rfl rfl rfl x y z
  have e0 : ∀ (y z : K) (hy : y = 15 ∨ y = -15) (hz : z = 15 ∨ z = -15),
      collisionVertexStep m
        ⟨⟨0, 0, 0, 109.37318, 64, 40, 0.9702, 0, 0, 0, 0, 0, k⟩, false, 0, 0, 0⟩ (-15, y, z) =
        ⟨⟨0, 0, 0, 109.37318, 64, 40, 0.9702, 0, 0, 0, 0, 0, k⟩, false, 0, 0, 0⟩ := by
    intro y z hy hz
    apply collisionVertexStep_inside
    simp only [insideBounds, worldVertex, hr, SCREEN_CENTER_X, SCREEN_CENTER_Y, PHYSICS_MIN_X,
      PHYSICS_MAX_X, PHYSICS_MIN_Y, PHYSICS_MAX_Y, PHYSICS_MIN_Z, PHYSICS_MAX_Z, ENV_VISUAL_SIZE,
      ENV_Z_OFFSET]
    rcases hy with rfl | rfl <;> rcases hz with rfl | rfl <;> norm_num
  have e1 : ∀ (x y z : K) (hx : x = 15 ∨ x = -15) (hy : y = 15 ∨ y = -15)
      (hz : z = 15 ∨ z = -15),
      collisionVertexStep m
        ⟨⟨0, 0, 0, 109, 64, 40, 0.9702, 0, 0, 0, 0, 0, k⟩, true, -1, 0, 0⟩ (x, y, z) =
        ⟨⟨0, 0, 0, 109, 64, 40, 0.9702, 0, 0, 0, 0, 0, k⟩, true, -1, 0, 0⟩ := by
    intro x y z hx hy hz
    apply collisionVertexStep_inside
    simp only [insideBounds, worldVertex, hr, SCREEN_CENTER_X, SCREEN_CENTER_Y, PHYSICS_MIN_X,
      PHYSICS_MAX_X, PHYSICS_MIN_Y, PHYSICS_MAX_Y, PHYSICS_MIN_Z, PHYSICS_MAX_Z, ENV_VISUAL_SIZE,
      ENV_Z_OFFSET]
    rcases hx with rfl | rfl <;> rcases hy with rfl | rfl <;> rcases hz with rfl | rfl <;> norm_num
  have e2 : collisionVertexStep m
        ⟨⟨0, 0, 0, 109.37318, 64, 40, 0.9702, 0, 0, 0, 0, 0, k⟩, false, 0, 0, 0⟩ (15, -15, -15) =
        ⟨⟨0, 0, 0, 109, 64, 40, 0.9702, 0, 0, 0, 0, 0, k⟩, true, -1, 0, 0⟩ := by
    simp only [collisionVertexStep, hr, SCREEN_CENTER_X, SCREEN_CENTER_Y, PHYSICS_MIN_X,
      PHYSICS_MAX_X, PHYSICS_MIN_Y, PHYSICS_MAX_Y, PHYSICS_MIN_Z, PHYSICS_MAX_Z, ENV_VISUAL_SIZE,
      ENV_Z_OFFSET]
    norm_num
  interval_cases n <;>
    simp [collisionScanPrefix, g_cube_vertices, CUBE_SIZE, e0, e1, e2]

theorem collisionScan_as_prefixScan (m : MathLib K) (s : CubeState K) :
    collisionScan m s = collisionScanPrefix m s 8 := by
  simp [collisionScan, collisionScanPrefix, g_cube_vertices]

/-- C1: the example scenario of the spec.  Start: all angles 0, linear and
angular velocity 0, position (108.5, 64, 40), so that the +X face is 0.5
inside PHYSICS_MAX_X.  One UpdatePhysics step with g_iAccelY > 0 and
g_iAccelX = g_iAccelZ = 0 reaches the collision check with velocityX = 0.9702;
exactly one loop iteration (the second) finds a violation, the accumulated
contact normal is (-1, 0, 0), the step ends with g_positionX = 109 (the +X
face on PHYSICS_MAX_X) and velocity (-RESTITUTION * 0.9702, 0, 0) =
(-0.4851, 0, 0). -/
theorem C1_example_scenario (m : MathLib K) (rand : ℕ → ℕ)
    (hcos : m.cosf 0 = 1) (hsin : m.sinf 0 = 0)
    (hsqrt : ∀ x : K, 0 ≤ x → m.sqrtf (x * x) = x)
    (aY : ℤ) (haY : 0 < aY) (k : ℕ) :
    let s0 : CubeState K := ⟨0, 0, 0, 108.5, 64, 40, 0, 0, 0, 0, 0, 0, k⟩
    let p := integrateMotion m 0 aY 0 s0
    let t := UpdatePhysics m rand 0 aY 0 s0
    (worldVertex m s0 (CUBE_SIZE, CUBE_SIZE, CUBE_SIZE)).1 = PHYSICS_MAX_X - 0.5 ∧
    p.g_velocityX = 0.9702 ∧
    (∀ n, n ≤ 8 → collisionScanPrefix m p n =
      if n < 2 then ⟨p, false, 0, 0, 0⟩
      else ⟨{ p with g_positionX := 109 }, true, -1, 0, 0⟩) ∧
    (collisionScan m p).collisionDetected = true ∧
    (collisionScan m p).collisionNormalX = -1 ∧
    (collisionScan m p).collisionNormalY = 0 ∧
    (collisionScan m p).collisionNormalZ = 0 ∧
    t.g_positionX = 109 ∧
    (worldVertex m t (CUBE_SIZE, CUBE_SIZE, CUBE_SIZE)).1 = PHYSICS_MAX_X ∧
    t.g_velocityX = -RESTITUTION * p.g_velocityX ∧
    t.g_velocityX = -0.4851 ∧ t.g_velocityY = 0 ∧ t.g_velocityZ = 0 := by
  intro s0 p t
  have hp : p = ⟨0, 0, 0, 109.37318, 64, 40, 0.9702, 0, 0, 0, 0, 0, k⟩ :=
    integrateMotion_scenario m hsqrt aY haY k
  have hpre := collisionScanPrefix_scenario m hcos hsin k
  have hscan : collisionScan m p =
      ⟨⟨0, 0, 0, 109, 64, 40, 0.9702, 0, 0, 0, 0, 0, k⟩, true, -1, 0, 0⟩ := by
    rw [collisionScan_as_prefixScan, hp, hpre 8 le_rfl]
    simp
  have hone : m.sqrtf ((-1 : K) * -1 + 0 * 0 + 0 * 0) = 1 := by
    have h := hsqrt 1 zero_le_one
    have e : ((-1 : K) * -1 + 0 * 0 + 0 * 0) = 1 * 1 := by norm_num
    rw [e]; exact h
  have ht : t = ⟨0, 0, 0, 109, 64, 40, -0.4851, 0, 0,
      0 + randPerturbation rand k, 0 + randPerturbation rand (k + 1),
      0 + randPerturbation rand (k + 2), k + 3⟩ := by
    show CheckAndResolveCollisions m rand p = _
    unfold CheckAndResolveCollisions
    rw [hscan]
    simp only [collisionResponse, hone, RESTITUTION]
    norm_num
  refine ⟨?_, ?_, ?_, ?_, ?_, ?_, ?_, ?_, ?_, ?_, ?_, ?_, ?_⟩
  · simp only [s0, worldVertex, RotatePoint_zeroAngles m hcos hsin, CUBE_SIZE, SCREEN_CENTER_X,
      PHYSICS_MAX_X, ENV_VISUAL_SIZE]
    norm_num
  · rw [hp]
  · intro n hn
    rw [hp, hpre n hn]
  · rw [hscan]
  · rw [hscan]
  · rw [hscan]
  · rw [hscan]
  · rw [ht]
  · rw [ht]
    simp only [worldVertex, RotatePoint_zeroAngles m hcos hsin, CUBE_SIZE, SCREEN_CENTER_X,
      PHYSICS_MAX_X, ENV_VISUAL_SIZE]
    norm_num
  · rw [ht, hp]; simp only [RESTITUTION]; norm_num
  · rw [ht]
  · rw [ht]
  · rw [ht]

/-- A body at rest with a zero accelerometer sample is left as it is by the
integration steps of UpdatePhysics. -/
theorem integrateMotion_rest (m : MathLib K) (s : CubeState K)
    (hvx : s.g_velocityX = 0) (hvy : s.g_velocityY = 0) (hvz : s.g_velocityZ = 0)
    (hax : s.g_angularVelocityX = 0) (hay : s.g_angularVelocityY = 0)
    (haz : s.g_angularVelocityZ = 0) :
    integrateMotion m 0 0 0 s = s := by
  obtain ⟨a1, a2, a3, p1, p2, p3, v1, v2, v3, w1, w2, w3, k⟩ := s
  simp only at hvx hvy hvz hax hay haz
  subst hvx hvy hvz hax hay haz
  unfold integrateMotion
  simp only [torque_always_zero]
  split_ifs <;> simp

/-- C5 (amended): for every position and orientation in which all eight
vertices lie within the physics bounds (boundary included), if linear and
angular velocity are zero and the accelerometer sample is (0,0,0), then any
number of consecutive UpdatePhysics steps returns the state unchanged, so
position and orientation stay as they were. -/
theorem C5_rest_is_fixed_within_bounds (m : MathLib K) (rand : ℕ → ℕ) (s : CubeState K)
    (n : ℕ)
    (hvx : s.g_velocityX = 0) (hvy : s.g_velocityY = 0) (hvz : s.g_velocityZ = 0)
    (hax : s.g_angularVelocityX = 0) (hay : s.g_angularVelocityY = 0)
    (haz : s.g_angularVelocityZ = 0)
    (hin : ∀ v ∈ g_cube_vertices, insideBounds m s v) :
    UpdatePhysicsN m rand 0 0 0 n s = s := by
  have hstep : UpdatePhysics m rand 0 0 0 s = s := by
    unfold UpdatePhysics
    rw [integrateMotion_rest m s hvx hvy hvz hax hay haz]
    exact checkAndResolve_inside m rand s hin
  induction n with
  | zero => rfl
  | succ n ih =>
    show UpdatePhysicsN m rand 0 0 0 n (UpdatePhysics m rand 0 0 0 s) = s
    rw [hstep, ih]

/-- RotatePoint keeps the squared length when cos^2 + sin^2 = 1 holds at the
three angles. -/
theorem RotatePoint_norm (m : MathLib K) (s : CubeState K)
    (hx : m.cosf s.g_angleX * m.cosf s.g_angleX + m.sinf s.g_angleX * m.sinf s.g_angleX = 1)
    (hy : m.cosf s.g_angleY * m.cosf s.g_angleY + m.sinf s.g_angleY * m.sinf s.g_angleY = 1)
    (hz : m.cosf s.g_angleZ * m.cosf s.g_angleZ + m.sinf s.g_angleZ * m.sinf s.g_angleZ = 1)
    (x y z : K) :
    (RotatePoint m s x y z).1 * (RotatePoint m s x y z).1 +
      (RotatePoint m s x y z).2.1 * (RotatePoint m s x y z).2.1 +
      (RotatePoint m s x y z).2.2 * (RotatePoint m s x y z).2.2 = x * x + y * y + z * z := by
  simp only [RotatePoint]
  linear_combination
    ((x * m.cosf s.g_angleY +
        (y * m.sinf s.g_angleX + z * m.cosf s.g_angleX) * m.sinf s.g_angleY) ^ 2 +
      (y * m.cosf s.g_angleX - z * m.sinf s.g_angleX) ^ 2) * hz +
    (x ^ 2 + (y * m.sinf s.g_angleX + z * m.cosf s.g_angleX) ^ 2) * hy +
    (y ^ 2 + z ^ 2) * hx

theorem coordinate_bound (a b c : K) (h : a * a + b * b + c * c = 675) :
    -26 ≤ a ∧ a ≤ 26 := by
  constructor <;> nlinarith [mul_self_nonneg a, mul_self_nonneg b, mul_self_nonneg c]

theorem cube_vertex_norm (v : K × K × K) (hv : v ∈ g_cube_vertices) :
    v.1 * v.1 + v.2.1 * v.2.1 + v.2.2 * v.2.2 = 675 := by
  simp only [g_cube_vertices, CUBE_SIZE, List.mem_cons, List.mem_singleton,
    List.not_mem_nil, or_false] at hv
  rcases hv with h | h | h | h | h | h | h | h <;> rw [h] <;> norm_num

/-- Every coordinate of a rotated cube vertex is within 26 of the centre. -/
theorem RotatePoint_vertex_bound (m : MathLib K) (s : CubeState K)
    (hx : m.cosf s.g_angleX * m.cosf s.g_angleX + m.sinf s.g_angleX * m.sinf s.g_angleX = 1)
    (hy : m.cosf s.g_angleY * m.cosf s.g_angleY + m.sinf s.g_angleY * m.sinf s.g_angleY = 1)
    (hz : m.cosf s.g_angleZ * m.cosf s.g_angleZ + m.sinf s.g_angleZ * m.sinf s.g_angleZ = 1)
    (v : K × K × K) (hv : v ∈ g_cube_vertices) :
    (-26 ≤ (RotatePoint m s v.1 v.2.1 v.2.2).1 ∧ (RotatePoint m s v.1 v.2.1 v.2.2).1 ≤ 26) ∧
    (-26 ≤ (RotatePoint m s v.1 v.2.1 v.2.2).2.1 ∧ (RotatePoint m s v.1 v.2.1 v.2.2).2.1 ≤ 26) ∧
    (-26 ≤ (RotatePoint m s v.1 v.2.1 v.2.2).2.2 ∧
      (RotatePoint m s v.1 v.2.1 v.2.2).2.2 ≤ 26) := by
  have hn := RotatePoint_norm m s hx hy hz v.1 v.2.1 v.2.2
  rw [cube_vertex_norm v hv] at hn
  exact ⟨coordinate_bound _ _ _ hn,
    coordinate_bound (RotatePoint m s v.1 v.2.1 v.2.2).2.1 (RotatePoint m s v.1 v.2.1 v.2.2).1
      (RotatePoint m s v.1 v.2.1 v.2.2).2.2 (by rw [← hn]; ring),
    coordinate_bound (RotatePoint m s v.1 v.2.1 v.2.2).2.2 (RotatePoint m s v.1 v.2.1 v.2.2).1
      (RotatePoint m s v.1 v.2.1 v.2.2).2.1 (by rw [← hn]; ring)⟩

end Theorems

/-! ### Instances at the real numbers, with the real square root, cosine, sine
and arc cosine as the math library -/

/-- C3 instance: zero angles and g_positionX = 109, so that the four +X vertices
lie exactly on PHYSICS_MAX_X; the state comes back unchanged. -/
theorem C3_no_collision_within_bounds_witness :
    (∀ v ∈ (g_cube_vertices : List (ℝ × ℝ × ℝ)),
      insideBounds ⟨Real.sqrt, Real.cos, Real.sin, Real.arccos⟩
        ⟨0, 0, 0, 109, 64, 40, 1, 0, 0, 0, 0, 0, 0⟩ v) ∧
    (collisionScan (⟨Real.sqrt, Real.cos, Real.sin, Real.arccos⟩ : MathLib ℝ)
      ⟨0, 0, 0, 109, 64, 40, 1, 0, 0, 0, 0, 0, 0⟩).collisionDetected = false ∧
    CheckAndResolveCollisions (⟨Real.sqrt, Real.cos, Real.sin, Real.arccos⟩ : MathLib ℝ)
      (fun _ => 0) ⟨0, 0, 0, 109, 64, 40, 1, 0, 0, 0, 0, 0, 0⟩
      = ⟨0, 0, 0, 109, 64, 40, 1, 0, 0, 0, 0, 0, 0⟩ := by
  have h : ∀ v ∈ (g_cube_vertices : List (ℝ × ℝ × ℝ)),
      insideBounds ⟨Real.sqrt, Real.cos, Real.sin, Real.arccos⟩
        ⟨0, 0, 0, 109, 64, 40, 1, 0, 0, 0, 0, 0, 0⟩ v := by
    simp [g_cube_vertices, insideBounds, worldVertex, RotatePoint, CUBE_SIZE, SCREEN_CENTER_X,
      SCREEN_CENTER_Y, PHYSICS_MIN_X, PHYSICS_MAX_X, PHYSICS_MIN_Y, PHYSICS_MAX_Y,
      PHYSICS_MIN_Z, PHYSICS_MAX_Z, ENV_VISUAL_SIZE, ENV_Z_OFFSET]
    norm_num
  exact ⟨h, C3_no_collision_within_bounds _ _ _ h⟩

/-- C6 instance: zero angles and gravity (0, -1, 0); the smallest dot product
is -1, at the +Y face. -/
theorem C6_torque_zero_when_converged_witness :
    ((0 : ℝ) * 0 + (-1) * (-1) + 0 * 0 = 1) ∧
    (-1 : ℝ) ∈ faceDots ⟨Real.sqrt, Real.cos, Real.sin, Real.arccos⟩
      ⟨0, 0, 0, 64, 64, 40, 0, 0, 0, 0, 0, 0, 0⟩ 0 (-1) 0 ∧
    (∀ d ∈ faceDots (⟨Real.sqrt, Real.cos, Real.sin, Real.arccos⟩ : MathLib ℝ)
      ⟨0, 0, 0, 64, 64, 40, 0, 0, 0, 0, 0, 0, 0⟩ 0 (-1) 0, (-1 : ℝ) ≤ d) ∧
    ((-1 : ℝ) ≤ -0.99) ∧
    CalculateStabilizingTorque (⟨Real.sqrt, Real.cos, Real.sin, Real.arccos⟩ : MathLib ℝ)
      ⟨0, 0, 0, 64, 64, 40, 0, 0, 0, 0, 0, 0, 0⟩ 0 (-1) 0 = (0, 0, 0) := by
  have h1 : ((0 : ℝ) * 0 + (-1) * (-1) + 0 * 0 = 1) := by norm_num
  have h2 : (-1 : ℝ) ∈ faceDots ⟨Real.sqrt, Real.cos, Real.sin, Real.arccos⟩
      ⟨0, 0, 0, 64, 64, 40, 0, 0, 0, 0, 0, 0, 0⟩ 0 (-1) 0 := by
    simp [faceDots, g_face_normals, RotateVector]
  have h3 : ∀ d ∈ faceDots (⟨Real.sqrt, Real.cos, Real.sin, Real.arccos⟩ : MathLib ℝ)
      ⟨0, 0, 0, 64, 64, 40, 0, 0, 0, 0, 0, 0, 0⟩ 0 (-1) 0, (-1 : ℝ) ≤ d := by
    simp [faceDots, g_face_normals, RotateVector]
  have h4 : ((-1 : ℝ) ≤ -0.99) := by norm_num
  exact ⟨h1, h2, h3, h4, C6_torque_zero_when_converged _ _ _ _ _ h1 _ h2 h3 h4⟩

/-- C4 instance: zero angles, g_positionX = 110 (one unit beyond PHYSICS_MAX_X)
and velocity (2, 3, 0); the contact normal is (-1, 0, 0) and velocityX comes
out as -0.5 * 2 = -1. -/
theorem C4_reflection_law_witness :
    (collisionScan (⟨Real.sqrt, Real.cos, Real.sin, Real.arccos⟩ : MathLib ℝ)
      ⟨0, 0, 0, 110, 64, 40, 2, 3, 0, 0, 0, 0, 0⟩).collisionDetected = true ∧
    (collisionScan (⟨Real.sqrt, Real.cos, Real.sin, Real.arccos⟩ : MathLib ℝ)
      ⟨0, 0, 0, 110, 64, 40, 2, 3, 0, 0, 0, 0, 0⟩).collisionNormalX = -1 ∧
    (CheckAndResolveCollisions (⟨Real.sqrt, Real.cos, Real.sin, Real.arccos⟩ : MathLib ℝ)
      (fun _ => 0) ⟨0, 0, 0, 110, 64, 40, 2, 3, 0, 0, 0, 0, 0⟩).g_velocityX = -1 := by
  have hscan : collisionScan (⟨Real.sqrt, Real.cos, Real.sin, Real.arccos⟩ : MathLib ℝ)
      ⟨0, 0, 0, 110, 64, 40, 2, 3, 0, 0, 0, 0, 0⟩ =
      ⟨⟨0, 0, 0, 109, 64, 40, 2, 3, 0, 0, 0, 0, 0⟩, true, -1, 0, 0⟩ := by
    simp [collisionScan, g_cube_vertices, collisionVertexStep, RotatePoint, CUBE_SIZE,
      SCREEN_CENTER_X, SCREEN_CENTER_Y, PHYSICS_MIN_X, PHYSICS_MAX_X, PHYSICS_MIN_Y,
      PHYSICS_MAX_Y, PHYSICS_MIN_Z, PHYSICS_MAX_Z, ENV_VISUAL_SIZE, ENV_Z_OFFSET]
    norm_num
  have hdet : (collisionScan (⟨Real.sqrt, Real.cos, Real.sin, Real.arccos⟩ : MathLib ℝ)
      ⟨0, 0, 0, 110, 64, 40, 2, 3, 0, 0, 0, 0, 0⟩).collisionDetected = true := by
    rw [hscan]
  have hlen : Real.sqrt
      ((collisionScan (⟨Real.sqrt, Real.cos, Real.sin, Real.arccos⟩ : MathLib ℝ)
          ⟨0, 0, 0, 110, 64, 40, 2, 3, 0, 0, 0, 0, 0⟩).collisionNormalX *
        (collisionScan (⟨Real.sqrt, Real.cos, Real.sin, Real.arccos⟩ : MathLib ℝ)
          ⟨0, 0, 0, 110, 64, 40, 2, 3, 0, 0, 0, 0, 0⟩).collisionNormalX +
       (collisionScan (⟨Real.sqrt, Real.cos, Real.sin, Real.arccos⟩ : MathLib ℝ)
          ⟨0, 0, 0, 110, 64, 40, 2, 3, 0, 0, 0, 0, 0⟩).collisionNormalY *
        (collisionScan (⟨Real.sqrt, Real.cos, Real.sin, Real.arccos⟩ : MathLib ℝ)
          ⟨0, 0, 0, 110, 64, 40, 2, 3, 0, 0, 0, 0, 0⟩).collisionNormalY +
       (collisionScan (⟨Real.sqrt, Real.cos, Real.sin, Real.arccos⟩ : MathLib ℝ)
          ⟨0, 0, 0, 110, 64, 40, 2, 3, 0, 0, 0, 0, 0⟩).collisionNormalZ *
        (collisionScan (⟨Real.sqrt, Real.cos, Real.sin, Real.arccos⟩ : MathLib ℝ)
          ⟨0, 0, 0, 110, 64, 40, 2, 3, 0, 0, 0, 0, 0⟩).collisionNormalZ) > 0.001 := by
    rw [hscan]
    norm_num
  refine ⟨hdet, by rw [hscan], ?_⟩
  have h := (C4_reflection_law (⟨Real.sqrt, Real.cos, Real.sin, Real.arccos⟩ : MathLib ℝ)
    (fun _ => 0) ⟨0, 0, 0, 110, 64, 40, 2, 3, 0, 0, 0, 0, 0⟩
    (fun x hx => Real.mul_self_sqrt hx) hdet hlen).1
  simp only [hscan] at h
  norm_num at h
  have h1 := h.1
  simp only [RESTITUTION] at h1
  norm_num at h1
  linarith

/-- C1 instance: the scenario with g_iAccelY = 1 and the real math functions. -/
theorem C1_example_scenario_witness :
    ((0 : ℤ) < 1) ∧
    (UpdatePhysics (⟨Real.sqrt, Real.cos, Real.sin, Real.arccos⟩ : MathLib ℝ) (fun _ => 0)
      0 1 0 ⟨0, 0, 0, 108.5, 64, 40, 0, 0, 0, 0, 0, 0, 0⟩).g_positionX = 109 ∧
    (UpdatePhysics (⟨Real.sqrt, Real.cos, Real.sin, Real.arccos⟩ : MathLib ℝ) (fun _ => 0)
      0 1 0 ⟨0, 0, 0, 108.5, 64, 40, 0, 0, 0, 0, 0, 0, 0⟩).g_velocityX = -0.4851 := by
  have h := C1_example_scenario (⟨Real.sqrt, Real.cos, Real.sin, Real.arccos⟩ : MathLib ℝ)
    (fun _ => 0) Real.cos_zero Real.sin_zero (fun x hx => Real.sqrt_mul_self hx) 1
    (by decide) 0
  exact ⟨by decide, h.2.2.2.2.2.2.2.1, h.2.2.2.2.2.2.2.2.2.2.1⟩

/-- C5 instance: the start state of the demo, position (64, 64, 40) at rest,
is unchanged by five steps. -/
theorem C5_rest_is_fixed_within_bounds_witness :
    (∀ v ∈ (g_cube_vertices : List (ℝ × ℝ × ℝ)),
      insideBounds ⟨Real.sqrt, Real.cos, Real.sin, Real.arccos⟩
        ⟨0, 0, 0, 64, 64, 40, 0, 0, 0, 0, 0, 0, 0⟩ v) ∧
    UpdatePhysicsN (⟨Real.sqrt, Real.cos, Real.sin, Real.arccos⟩ : MathLib ℝ) (fun _ => 0)
      0 0 0 5 ⟨0, 0, 0, 64, 64, 40, 0, 0, 0, 0, 0, 0, 0⟩
      = ⟨0, 0, 0, 64, 64, 40, 0, 0, 0, 0, 0, 0, 0⟩ := by
  have h : ∀ v ∈ (g_cube_vertices : List (ℝ × ℝ × ℝ)),
      insideBounds ⟨Real.sqrt, Real.cos, Real.sin, Real.arccos⟩
        ⟨0, 0, 0, 64, 64, 40, 0, 0, 0, 0, 0, 0, 0⟩ v := by
    simp [g_cube_vertices, insideBounds, worldVertex, RotatePoint, CUBE_SIZE, SCREEN_CENTER_X,
      SCREEN_CENTER_Y, PHYSICS_MIN_X, PHYSICS_MAX_X, PHYSICS_MIN_Y, PHYSICS_MAX_Y,
      PHYSICS_MIN_Z, PHYSICS_MAX_Z, ENV_VISUAL_SIZE, ENV_Z_OFFSET]
    norm_num
  exact ⟨h, C5_rest_is_fixed_within_bounds _ _ _ 5 rfl rfl rfl rfl rfl rfl h⟩

/-- C5 as stated fails: a body at rest at g_positionX = 200, outside the
physics box, with a zero accelerometer sample, is moved to g_positionX = 109
by one UpdatePhysics step. -/
theorem C5_rest_outside_bounds_moves :
    (UpdatePhysicsN (⟨Real.sqrt, Real.cos, Real.sin, Real.arccos⟩ : MathLib ℝ) (fun _ => 0)
      0 0 0 1 ⟨0, 0, 0, 200, 64, 40, 0, 0, 0, 0, 0, 0, 0⟩).g_positionX = 109 ∧
    (UpdatePhysicsN (⟨Real.sqrt, Real.cos, Real.sin, Real.arccos⟩ : MathLib ℝ) (fun _ => 0)
      0 0 0 1 ⟨0, 0, 0, 200, 64, 40, 0, 0, 0, 0, 0, 0, 0⟩).g_positionX ≠
      (⟨0, 0, 0, 200, 64, 40, 0, 0, 0, 0, 0, 0, 0⟩ : CubeState ℝ).g_positionX := by
  have hscan : collisionScan (⟨Real.sqrt, Real.cos, Real.sin, Real.arccos⟩ : MathLib ℝ)
      ⟨0, 0, 0, 200, 64, 40, 0, 0, 0, 0, 0, 0, 0⟩ =
      ⟨⟨0, 0, 0, 109, 64, 40, 0, 0, 0, 0, 0, 0, 0⟩, true, -2, 0, 0⟩ := by
    simp [collisionScan, g_cube_vertices, collisionVertexStep, RotatePoint, CUBE_SIZE,
      SCREEN_CENTER_X, SCREEN_CENTER_Y, PHYSICS_MIN_X, PHYSICS_MAX_X, PHYSICS_MIN_Y,
      PHYSICS_MAX_Y, PHYSICS_MIN_Z, PHYSICS_MAX_Z, ENV_VISUAL_SIZE, ENV_Z_OFFSET]
    norm_num
  have h : (UpdatePhysicsN (⟨Real.sqrt, Real.cos, Real.sin, Real.arccos⟩ : MathLib ℝ)
      (fun _ => 0) 0 0 0 1 ⟨0, 0, 0, 200, 64, 40, 0, 0, 0, 0, 0, 0, 0⟩).g_positionX = 109 := by
    show (UpdatePhysics (⟨Real.sqrt, Real.cos, Real.sin, Real.arccos⟩ : MathLib ℝ)
      (fun _ => 0) 0 0 0 ⟨0, 0, 0, 200, 64, 40, 0, 0, 0, 0, 0, 0, 0⟩).g_positionX = 109
    unfold UpdatePhysics
    rw [integrateMotion_rest _ _ rfl rfl rfl rfl rfl rfl]
    unfold CheckAndResolveCollisions
    rw [(collisionResponse_position _ _ _).1, hscan]
  refine ⟨h, ?_⟩
  rw [h]
  norm_num

/-- C7 (code defect): at zero angles and the unit gravity direction
(0.6, -0.8, 0) the six dot products are 0, 0, 0.8, -0.8, -0.6, 0.6, so the best
face is +Y with a = -0.8 > -0.99, and the torque the claim describes is
(0, 0, -(acos 0.8 * 0.02)), which is not zero; CalculateStabilizingTorque
returns (0, 0, 0). -/
theorem C7_righting_torque_is_zero_in_code :
    faceDots (⟨Real.sqrt, Real.cos, Real.sin, Real.arccos⟩ : MathLib ℝ)
      ⟨0, 0, 0, 64, 64, 40, 0, 0, 0, 0, 0, 0, 0⟩ 0.6 (-0.8) 0 = [0, 0, 0.8, -0.8, -0.6, 0.6] ∧
    specStabilizingTorque (⟨Real.sqrt, Real.cos, Real.sin, Real.arccos⟩ : MathLib ℝ)
      ⟨0, 0, 0, 64, 64, 40, 0, 0, 0, 0, 0, 0, 0⟩ 0.6 (-0.8) 0
      = (0, 0, -(Real.arccos 0.8 * 0.02)) ∧
    Real.arccos 0.8 * 0.02 ≠ 0 ∧
    CalculateStabilizingTorque (⟨Real.sqrt, Real.cos, Real.sin, Real.arccos⟩ : MathLib ℝ)
      ⟨0, 0, 0, 64, 64, 40, 0, 0, 0, 0, 0, 0, 0⟩ 0.6 (-0.8) 0 = (0, 0, 0) := by
  have h9 : Real.sqrt 9 = 3 := by
    rw [show (9 : ℝ) = 3 * 3 by norm_num]
    exact Real.sqrt_mul_self (by norm_num)
  have h25 : Real.sqrt 25 = 5 := by
    rw [show (25 : ℝ) = 5 * 5 by norm_num]
    exact Real.sqrt_mul_self (by norm_num)
  have hpos : 0 < Real.arccos 0.8 := Real.arccos_pos.mpr (by norm_num)
  refine ⟨?_, ?_, ?_, torque_always_zero _ _ _ _ _⟩
  · simp [faceDots, g_face_normals, RotateVector]
  · simp [specStabilizingTorque, g_face_normals, RotateVector, STABILIZATION_STRENGTH]
    norm_num
    rw [h9, h25]
    norm_num
  · exact ne_of_gt (mul_pos hpos (by norm_num))

theorem limitProjected_bounds {K : Type} [LinearOrderedField K] (v : K) :
    -200 ≤ limitProjected v ∧ limitProjected v ≤ 200 := by
  unfold limitProjected
  dsimp only
  split_ifs <;> constructor <;> linarith

theorem clampToScreen_bounds (p : ℤ) :
    0 ≤ clampToScreen p ∧ clampToScreen p ≤ 127 := by
  unfold clampToScreen
  dsimp only
  split_ifs <;> constructor <;> omega

section RenderingTheorems

variable {K : Type} [LinearOrderedField K] [FloorRing K]

theorem ProjectEnvironmentPoint_as_clamp (x y z : K) :
    ProjectEnvironmentPoint x y z =
      if |z + 100| > 0.001 then
        (clampToScreen (64 + truncToInt (limitProjected (x * (200 / (z + 100))))),
         clampToScreen (64 - truncToInt (limitProjected (y * (200 / (z + 100))))))
      else
        (clampToScreen (64 + truncToInt x), clampToScreen (64 - truncToInt y)) := by
  have h200 : (200.0 : K) = 200 := by norm_num
  have h100 : (100.0 : K) = 100 := by norm_num
  have hw : SCREEN_WIDTH / 2 = 64 := by decide
  have hh : SCREEN_HEIGHT / 2 = 64 := by decide
  have hw1 : SCREEN_WIDTH - 1 = 127 := by decide
  have hh1 : SCREEN_HEIGHT - 1 = 127 := by decide
  have hw2 : SCREEN_WIDTH = 128 := rfl
  have hh2 : SCREEN_HEIGHT = 128 := rfl
  unfold ProjectEnvironmentPoint clampToScreen limitProjected
  simp only [h200, h100, hw, hh, hw1, hh1]
  simp only [hw2, hh2]
  by_cases h : |z + 100| > 0.001
  · simp only [if_pos h]
  · simp only [if_neg h]

/-- C19: ProjectEnvironmentPoint returns, for every input point, screen
coordinates with 0 <= px <= 127 and 0 <= py <= 127; the limiting it applies
to the projected x and y keeps them in [-200, 200]; and in the perspective
branch (|z + 100| > 0.001) the result is the framebuffer clamp of
64 + trunc(limited x * 200/(z + 100)) and 64 - trunc(limited y * 200/(z + 100)). -/
theorem C19_environment_projection_clamped (x y z : K) :
    (0 ≤ (ProjectEnvironmentPoint x y z).1 ∧ (ProjectEnvironmentPoint x y z).1 ≤ 127 ∧
     0 ≤ (ProjectEnvironmentPoint x y z).2 ∧ (ProjectEnvironmentPoint x y z).2 ≤ 127) ∧
    (∀ v : K, -200 ≤ limitProjected v ∧ limitProjected v ≤ 200) ∧
    (|z + 100| > 0.001 →
      ProjectEnvironmentPoint x y z =
        (clampToScreen (64 + truncToInt (limitProjected (x * (200 / (z + 100))))),
         clampToScreen (64 - truncToInt (limitProjected (y * (200 / (z + 100))))))) := by
  refine ⟨?_, limitProjected_bounds, ?_⟩
  · rw [ProjectEnvironmentPoint_as_clamp]
    split_ifs
    · exact ⟨(clampToScreen_bounds _).1, (clampToScreen_bounds _).2,
        (clampToScreen_bounds _).1, (clampToScreen_bounds _).2⟩
    · exact ⟨(clampToScreen_bounds _).1, (clampToScreen_bounds _).2,
        (clampToScreen_bounds _).1, (clampToScreen_bounds _).2⟩
  · intro h
    rw [ProjectEnvironmentPoint_as_clamp, if_pos h]

theorem truncToInt_intCast (n : ℤ) : truncToInt (n : K) = n := by
  unfold truncToInt
  split_ifs <;> simp

theorem roundHalfEven_eq (x : K) (n : ℤ) (h : |x - n| < 1 / 2) : roundHalfEven x = n := by
  have h1 := (abs_lt.mp h).1
  have h2 := (abs_lt.mp h).2
  unfold roundHalfEven
  rcases le_or_lt (n : K) x with hle | hlt
  · have hf : ⌊x⌋ = n := by
      rw [Int.floor_eq_iff]
      constructor
      · exact hle
      · linarith
    rw [hf, if_pos (by linarith)]
  · have hf : ⌊x⌋ = n - 1 := by
      rw [Int.floor_eq_iff]
      push_cast
      constructor
      · linarith
      · linarith
    rw [hf]
    push_cast
    rw [if_neg (by linarith), if_pos (by linarith)]
    ring

/-- The binary32 value nearest x, from the binade of x and the integer
nearest x in units of the last place. -/
theorem roundBinary32_eq (x : K) (e n : ℤ) (he : -126 ≤ e) (hlo : (2 : K) ^ e ≤ |x|)
    (hhi : |x| < (2 : K) ^ (e + 1)) (hn : |x / 2 ^ (e - 23) - n| < 1 / 2) :
    roundBinary32 x = n * 2 ^ (e - 23) := by
  have hpos : (0 : K) < |x| := lt_of_lt_of_le (zpow_pos (by norm_num) e) hlo
  have hlog : Int.log 2 |x| = e := by
    apply le_antisymm
    · have := (Int.lt_zpow_iff_log_lt (b := 2) (by norm_num) hpos).mp
        (by exact_mod_cast hhi : |x| < ((2 : ℕ) : K) ^ (e + 1))
      omega
    · exact (Int.zpow_le_iff_le_log (b := 2) (by norm_num) hpos).mp
        (by exact_mod_cast hlo : ((2 : ℕ) : K) ^ e ≤ |x|)
  unfold roundBinary32
  dsimp only
  rw [hlog, max_eq_left he, roundHalfEven_eq _ n hn]

theorem roundBinary32_zero : roundBinary32 (0 : K) = 0 := by
  unfold roundBinary32 roundHalfEven
  simp

theorem truncToInt_of_nonneg (x : K) (n : ℤ) (h0 : 0 ≤ x) (h1 : (n : K) ≤ x)
    (h2 : x < n + 1) : truncToInt x = n := by
  unfold truncToInt
  rw [if_pos h0, Int.floor_eq_iff]
  exact ⟨h1, h2⟩

theorem toIntSaturating_of_lt (x : K) (h1 : -(2 : K) ^ 31 < x) (h2 : x < (2 : K) ^ 31) :
    toIntSaturating x = truncToInt x := by
  unfold toIntSaturating
  rw [if_neg (not_le.mpr h2), if_neg (not_le.mpr h1)]

end RenderingTheorems

section ProjectionTheorems

variable {K : Type} [LinearOrderedField K]

/-- ProjectPoint in its perspective branch, from the value of each rounded
operation. -/
theorem ProjectPoint_perspective (fm : FloatModel K) (s : CubeState K)
    (x y z a b x1 y1 z1 d p u v : K)
    (ha : fm.rnd (s.g_positionX - 64) = a) (hx : fm.rnd (x + a) = x1)
    (hb : fm.rnd (s.g_positionY - 64) = b) (hy : fm.rnd (y + b) = y1)
    (hz : fm.rnd (z + s.g_positionZ) = z1) (hd : fm.rnd (z1 + 100) = d)
    (hg : |d| > fm.rnd 0.001) (hp : fm.rnd (200 / d) = p)
    (hu : fm.rnd (x1 * p) = u) (hv : fm.rnd (y1 * p) = v) :
    ProjectPoint fm s x y z = (wrapInt32 (64 + fm.toInt u), wrapInt32 (64 - fm.toInt v)) := by
  have h200 : (200.0 : K) = 200 := by norm_num
  have h100 : (100.0 : K) = 100 := by norm_num
  have hw : SCREEN_WIDTH / 2 = 64 := by decide
  have hh : SCREEN_HEIGHT / 2 = 64 := by decide
  unfold ProjectPoint
  simp only [h200, h100, hw, hh, SCREEN_CENTER_X, SCREEN_CENTER_Y, ha, hx, hb, hy, hz, hd,
    if_pos hg, hp, hu, hv]

/-- ProjectPoint in its fallback branch, from the value of each rounded
operation. -/
theorem ProjectPoint_fallback (fm : FloatModel K) (s : CubeState K)
    (x y z a b x1 y1 z1 d : K)
    (ha : fm.rnd (s.g_positionX - 64) = a) (hx : fm.rnd (x + a) = x1)
    (hb : fm.rnd (s.g_positionY - 64) = b) (hy : fm.rnd (y + b) = y1)
    (hz : fm.rnd (z + s.g_positionZ) = z1) (hd : fm.rnd (z1 + 100) = d)
    (hg : |d| ≤ fm.rnd 0.001) :
    ProjectPoint fm s x y z = (wrapInt32 (64 + fm.toInt x1), wrapInt32 (64 - fm.toInt y1)) := by
  have h200 : (200.0 : K) = 200 := by norm_num
  have h100 : (100.0 : K) = 100 := by norm_num
  have hw : SCREEN_WIDTH / 2 = 64 := by decide
  have hh : SCREEN_HEIGHT / 2 = 64 := by decide
  unfold ProjectPoint
  simp only [h200, h100, hw, hh, SCREEN_CENTER_X, SCREEN_CENTER_Y, ha, hx, hb, hy, hz, hd,
    if_neg (not_lt.mpr hg)]

/-- C20: with every float operation rounded (fl) and the int sums taken in
32 bits, x' = fl(x + fl(positionX - 64)), y' = fl(y + fl(positionY - 64)),
z' = fl(z + positionZ) and d = fl(z' + 100), ProjectPoint returns
(64 + (int)fl(x' * fl(200/d)), 64 - (int)fl(y' * fl(200/d))) when
|d| > 0.001f, in which case the divisor d is not zero, and returns the
orthographic fallback (64 + (int)x', 64 - (int)y'), an expression without
division, when |d| <= 0.001f.  The float 0.001f is assumed not negative. -/
theorem C20_projection_division_guard (fm : FloatModel K) (s : CubeState K) (x y z : K)
    (h0 : 0 ≤ fm.rnd 0.001) :
    (|fm.rnd (fm.rnd (z + s.g_positionZ) + 100)| > fm.rnd 0.001 →
      fm.rnd (fm.rnd (z + s.g_positionZ) + 100) ≠ 0 ∧
      ProjectPoint fm s x y z =
        (wrapInt32 (64 + fm.toInt (fm.rnd (fm.rnd (x + fm.rnd (s.g_positionX - 64)) *
            fm.rnd (200 / fm.rnd (fm.rnd (z + s.g_positionZ) + 100))))),
         wrapInt32 (64 - fm.toInt (fm.rnd (fm.rnd (y + fm.rnd (s.g_positionY - 64)) *
            fm.rnd (200 / fm.rnd (fm.rnd (z + s.g_positionZ) + 100))))))) ∧
    (|fm.rnd (fm.rnd (z + s.g_positionZ) + 100)| ≤ fm.rnd 0.001 →
      ProjectPoint fm s x y z =
        (wrapInt32 (64 + fm.toInt (fm.rnd (x + fm.rnd (s.g_positionX - 64)))),
         wrapInt32 (64 - fm.toInt (fm.rnd (y + fm.rnd (s.g_positionY - 64)))))) := by
  constructor
  · intro h
    constructor
    · intro hd
      rw [hd, abs_zero] at h
      exact absurd h (not_lt.mpr h0)
    · exact ProjectPoint_perspective fm s x y z _ _ _ _ _ _ _ _ _ rfl rfl rfl rfl rfl rfl h
        rfl rfl rfl
  · intro h
    exact ProjectPoint_fallback fm s x y z _ _ _ _ _ _ rfl rfl rfl rfl rfl rfl h

end ProjectionTheorems

theorem binary32_threshold :
    roundBinary32 (0.001 : ℚ) = 8589935 / 8589934592 := by
  rw [roundBinary32_eq (0.001 : ℚ) (-10) 8589935 (by norm_num) (by norm_num [abs_of_pos])
    (by norm_num [abs_of_pos]) (by norm_num [abs_lt])]
  norm_num

/-- The rounding error of ProjectPoint at the local point (60, 60, -15) of a
body at (64, 64, 11): every operation but the division and the products is
exact, 200/96 rounds down to 8738133/2^22 and 60 times that rounds to
125 - 2^-17, which truncates to 124. -/
theorem ProjectPoint_binary32_rounds :
    ProjectPoint (binary32 : FloatModel ℚ) ⟨0, 0, 0, 64, 64, 11, 0, 0, 0, 0, 0, 0, 0⟩
      60 60 (-15) = (188, -60) := by
  have e0 : (binary32 : FloatModel ℚ).rnd (64 - 64) = 0 := by
    show roundBinary32 ((64 : ℚ) - 64) = 0
    rw [sub_self, roundBinary32_zero]
  have e60 : (binary32 : FloatModel ℚ).rnd (60 + 0) = 60 := by
    show roundBinary32 ((60 : ℚ) + 0) = 60
    rw [roundBinary32_eq ((60 : ℚ) + 0) 5 15728640 (by norm_num) (by norm_num [abs_of_pos])
      (by norm_num [abs_of_pos]) (by norm_num [abs_lt])]
    norm_num
  have ez : (binary32 : FloatModel ℚ).rnd (-15 + 11) = -4 := by
    show roundBinary32 ((-15 : ℚ) + 11) = -4
    rw [roundBinary32_eq ((-15 : ℚ) + 11) 2 (-8388608) (by norm_num) (by norm_num [abs_of_neg])
      (by norm_num [abs_of_neg]) (by norm_num [abs_lt])]
    norm_num
  have ed : (binary32 : FloatModel ℚ).rnd (-4 + 100) = 96 := by
    show roundBinary32 ((-4 : ℚ) + 100) = 96
    rw [roundBinary32_eq ((-4 : ℚ) + 100) 6 12582912 (by norm_num) (by norm_num [abs_of_pos])
      (by norm_num [abs_of_pos]) (by norm_num [abs_lt])]
    norm_num
  have ep : (binary32 : FloatModel ℚ).rnd (200 / 96) = 8738133 / 4194304 := by
    show roundBinary32 ((200 : ℚ) / 96) = 8738133 / 4194304
    rw [roundBinary32_eq ((200 : ℚ) / 96) 1 8738133 (by norm_num) (by norm_num [abs_of_pos])
      (by norm_num [abs_of_pos]) (by norm_num [abs_lt])]
    norm_num
  have eu : (binary32 : FloatModel ℚ).rnd (60 * (8738133 / 4194304)) = 16383999 / 131072 := by
    show roundBinary32 ((60 : ℚ) * (8738133 / 4194304)) = 16383999 / 131072
    rw [roundBinary32_eq ((60 : ℚ) * (8738133 / 4194304)) 6 16383999 (by norm_num)
      (by norm_num [abs_of_pos]) (by norm_num [abs_of_pos]) (by norm_num [abs_lt])]
    norm_num
  have eg : |(96 : ℚ)| > (binary32 : FloatModel ℚ).rnd 0.001 := by
    show |(96 : ℚ)| > roundBinary32 0.001
    rw [binary32_threshold]
    norm_num [abs_of_pos]
  have et : (binary32 : FloatModel ℚ).toInt (16383999 / 131072) = 124 := by
    show toIntSaturating ((16383999 : ℚ) / 131072) = 124
    rw [toIntSaturating_of_lt _ (by norm_num) (by norm_num)]
    exact truncToInt_of_nonneg _ 124 (by norm_num) (by norm_num) (by norm_num)
  rw [ProjectPoint_perspective (binary32 : FloatModel ℚ)
    ⟨0, 0, 0, 64, 64, 11, 0, 0, 0, 0, 0, 0, 0⟩
    60 60 (-15) 0 0 60 60 (-4) 96 (8738133 / 4194304) (16383999 / 131072) (16383999 / 131072)
    e0 e60 e0 e60 ez ed eg ep eu eu, et]
  decide



/-- The guard of ProjectPoint at the local point (1, 1, 525/2^19) of a body at
(64, 64, -100): the sum z + positionZ rounds to -100 + 131/2^17, so the
divisor is 131/2^17, below 0.001f, and the fallback branch is taken. -/
theorem ProjectPoint_binary32_guard :
    ProjectPoint (binary32 : FloatModel ℚ) ⟨0, 0, 0, 64, 64, -100, 0, 0, 0, 0, 0, 0, 0⟩
      1 1 (525 / 524288) = (65, 63) := by
  have e0 : (binary32 : FloatModel ℚ).rnd (64 - 64) = 0 := by
    show roundBinary32 ((64 : ℚ) - 64) = 0
    rw [sub_self, roundBinary32_zero]
  have e1 : (binary32 : FloatModel ℚ).rnd (1 + 0) = 1 := by
    show roundBinary32 ((1 : ℚ) + 0) = 1
    rw [roundBinary32_eq ((1 : ℚ) + 0) 0 8388608 (by norm_num) (by norm_num [abs_of_pos])
      (by norm_num [abs_of_pos]) (by norm_num [abs_lt])]
    norm_num
  have ez : (binary32 : FloatModel ℚ).rnd (525 / 524288 + -100) = -13107069 / 131072 := by
    show roundBinary32 ((525 : ℚ) / 524288 + -100) = -13107069 / 131072
    rw [roundBinary32_eq ((525 : ℚ) / 524288 + -100) 6 (-13107069) (by norm_num)
      (by norm_num [abs_of_neg]) (by norm_num [abs_of_neg]) (by norm_num [abs_lt])]
    norm_num
  have ed : (binary32 : FloatModel ℚ).rnd (-13107069 / 131072 + 100) = 131 / 131072 := by
    show roundBinary32 ((-13107069 : ℚ) / 131072 + 100) = 131 / 131072
    rw [roundBinary32_eq ((-13107069 : ℚ) / 131072 + 100) (-10) 8585216 (by norm_num)
      (by norm_num [abs_of_pos]) (by norm_num [abs_of_pos]) (by norm_num [abs_lt])]
    norm_num
  have eg : |(131 : ℚ) / 131072| ≤ (binary32 : FloatModel ℚ).rnd 0.001 := by
    show |(131 : ℚ) / 131072| ≤ roundBinary32 0.001
    rw [binary32_threshold]
    norm_num [abs_of_pos]
  have et : (binary32 : FloatModel ℚ).toInt 1 = 1 := by
    show toIntSaturating (1 : ℚ) = 1
    rw [toIntSaturating_of_lt _ (by norm_num) (by norm_num)]
    exact truncToInt_of_nonneg _ 1 (by norm_num) (by norm_num) (by norm_num)
  rw [ProjectPoint_fallback (binary32 : FloatModel ℚ)
    ⟨0, 0, 0, 64, 64, -100, 0, 0, 0, 0, 0, 0, 0⟩
    1 1 (525 / 524288) 0 0 1 1 (-13107069 / 131072) (131 / 131072)
    e0 e1 e0 e1 ez ed eg, et]
  decide

/-- C20 (counterexample): in binary32 the pixel differs from the one given by
the formulas in exact arithmetic.  For the local point (60, 60, -15) of a body
at (64, 64, 11), ProjectPoint returns (188, -60), while
64 + trunc(x' * 200/(z' + 100)) = 189 and 64 - trunc(y' * 200/(z' + 100)) = -61.
For the local point (1, 1, 525/2^19) of a body at (64, 64, -100),
|z' + 100| = 525/2^19 > 0.001, yet ProjectPoint returns the fallback (65, 63)
and not (64 + trunc(x' * 200/(z' + 100)), 64 - trunc(y' * 200/(z' + 100))) =
(199792, -199664). -/
theorem C20_binary32_pixel_differs :
    (ProjectPoint (binary32 : FloatModel ℚ) ⟨0, 0, 0, 64, 64, 11, 0, 0, 0, 0, 0, 0, 0⟩
        60 60 (-15) = (188, -60) ∧
      (64 + truncToInt (((60 : ℚ) + 64 - 64) * (200 / (-15 + 11 + 100))),
       64 - truncToInt (((60 : ℚ) + 64 - 64) * (200 / (-15 + 11 + 100)))) = (189, -61)) ∧
    (|(525 : ℚ) / 524288 + -100 + 100| > 0.001 ∧
      ProjectPoint (binary32 : FloatModel ℚ) ⟨0, 0, 0, 64, 64, -100, 0, 0, 0, 0, 0, 0, 0⟩
        1 1 (525 / 524288) = (65, 63) ∧
      (64 + truncToInt (((1 : ℚ) + 64 - 64) * (200 / (525 / 524288 + -100 + 100))),
       64 - truncToInt (((1 : ℚ) + 64 - 64) * (200 / (525 / 524288 + -100 + 100)))) =
        (199792, -199664)) := by
  refine ⟨⟨ProjectPoint_binary32_rounds, ?_⟩, ?_, ProjectPoint_binary32_guard, ?_⟩
  · have h : truncToInt (((60 : ℚ) + 64 - 64) * (200 / (-15 + 11 + 100))) = 125 :=
      truncToInt_of_nonneg _ 125 (by norm_num) (by norm_num) (by norm_num)
    rw [h]
    decide
  · norm_num [abs_of_pos]
  · have h : truncToInt (((1 : ℚ) + 64 - 64) * (200 / (525 / 524288 + -100 + 100))) = 199728 :=
      truncToInt_of_nonneg _ 199728 (by norm_num) (by norm_num) (by norm_num)
    rw [h]
    decide

/-- C20 instance: in binary32, for the local point (15, 15, 0) of a body at
(64, 64, 0) the divisor is 100, the perspective 2, and the pixel (94, 34). -/
theorem C20_projection_division_guard_witness :
    0 ≤ (binary32 : FloatModel ℚ).rnd 0.001 ∧
    (binary32 : FloatModel ℚ).rnd ((binary32 : FloatModel ℚ).rnd (0 + 0) + 100) ≠ 0 ∧
    ProjectPoint (binary32 : FloatModel ℚ) ⟨0, 0, 0, 64, 64, 0, 0, 0, 0, 0, 0, 0, 0⟩
      15 15 0 = (94, 34) := by
  have h0 : 0 ≤ (binary32 : FloatModel ℚ).rnd 0.001 := by
    show 0 ≤ roundBinary32 (0.001 : ℚ)
    rw [binary32_threshold]
    norm_num
  have e0 : (binary32 : FloatModel ℚ).rnd (64 - 64) = 0 := by
    show roundBinary32 ((64 : ℚ) - 64) = 0
    rw [sub_self, roundBinary32_zero]
  have ez : (binary32 : FloatModel ℚ).rnd (0 + 0) = 0 := by
    show roundBinary32 ((0 : ℚ) + 0) = 0
    rw [add_zero, roundBinary32_zero]
  have e15 : (binary32 : FloatModel ℚ).rnd (15 + 0) = 15 := by
    show roundBinary32 ((15 : ℚ) + 0) = 15
    rw [roundBinary32_eq ((15 : ℚ) + 0) 3 15728640 (by norm_num) (by norm_num [abs_of_pos])
      (by norm_num [abs_of_pos]) (by norm_num [abs_lt])]
    norm_num
  have ed : (binary32 : FloatModel ℚ).rnd (0 + 100) = 100 := by
    show roundBinary32 ((0 : ℚ) + 100) = 100
    rw [roundBinary32_eq ((0 : ℚ) + 100) 6 13107200 (by norm_num) (by norm_num [abs_of_pos])
      (by norm_num [abs_of_pos]) (by norm_num [abs_lt])]
    norm_num
  have ep : (binary32 : FloatModel ℚ).rnd (200 / 100) = 2 := by
    show roundBinary32 ((200 : ℚ) / 100) = 2
    rw [roundBinary32_eq ((200 : ℚ) / 100) 1 8388608 (by norm_num) (by norm_num [abs_of_pos])
      (by norm_num [abs_of_pos]) (by norm_num [abs_lt])]
    norm_num
  have eu : (binary32 : FloatModel ℚ).rnd (15 * 2) = 30 := by
    show roundBinary32 ((15 : ℚ) * 2) = 30
    rw [roundBinary32_eq ((15 : ℚ) * 2) 4 15728640 (by norm_num) (by norm_num [abs_of_pos])
      (by norm_num [abs_of_pos]) (by norm_num [abs_lt])]
    norm_num
  have et : (binary32 : FloatModel ℚ).toInt 30 = 30 := by
    show toIntSaturating (30 : ℚ) = 30
    rw [toIntSaturating_of_lt _ (by norm_num) (by norm_num)]
    exact truncToInt_of_nonneg _ 30 (by norm_num) (by norm_num) (by norm_num)
  have hg : |(binary32 : FloatModel ℚ).rnd ((binary32 : FloatModel ℚ).rnd (0 + 0) + 100)| >
      (binary32 : FloatModel ℚ).rnd 0.001 := by
    rw [ez, ed]
    show |(100 : ℚ)| > roundBinary32 0.001
    rw [binary32_threshold]
    norm_num [abs_of_pos]
  have h := (C20_projection_division_guard (binary32 : FloatModel ℚ)
    ⟨0, 0, 0, 64, 64, 0, 0, 0, 0, 0, 0, 0, 0⟩ 15 15 0 h0).1 hg
  refine ⟨h0, h.1, ?_⟩
  rw [h.2]
  dsimp only
  rw [e0, e15, ez, ed, ep, eu, et]
  decide

theorem recolor_envEdgeCalls (buf : List (ℤ × ℤ)) (c c2 : ℕ) (e : ℕ × ℕ) :
    (envEdgeCalls buf c e).map (recolor c2) = envEdgeCalls buf c2 e := by
  unfold envEdgeCalls
  dsimp only
  split_ifs <;> rfl

theorem recolor_envPass (buf : List (ℤ × ℤ)) (c c2 : ℕ) (es : List (ℕ × ℕ)) :
    (es.flatMap (envEdgeCalls buf c)).map (recolor c2) =
      es.flatMap (envEdgeCalls buf c2) := by
  induction es with
  | nil => rfl
  | cons e es ih =>
    simp only [List.flatMap_cons, List.map_append, ih, recolor_envEdgeCalls]

theorem recolor_cubePass (buf : List (ℤ × ℤ)) (c c2 : ℕ) (es : List (ℕ × ℕ)) :
    (es.map (cubeEdgeCall buf c)).map (recolor c2) = es.map (cubeEdgeCall buf c2) := by
  rw [List.map_map]
  rfl

theorem envEdgeCalls_long (buf : List (ℤ × ℤ)) (c : ℕ) (e : ℕ × ℕ)
    (h : longEdge buf e) : envEdgeCalls buf c e = [] := by
  unfold longEdge at h
  unfold envEdgeCalls
  dsimp only
  rw [if_pos h]

section RenderingFrames

variable {K : Type} [LinearOrderedField K]

theorem renderFrame_first_flag (fm : FloatModel K) (m : MathLib K) (s : CubeState K)
    (r : RenderState) :
    (renderFrame fm m s r).1.g_first_frame = false := by
  unfold renderFrame RenderCube RenderEnvironment
  dsimp only
  cases r.g_first_frame <;> rfl

theorem renderFrame_first_erase (fm : FloatModel K) (m : MathLib K) (s : CubeState K)
    (r : RenderState)
    (h : r.g_first_frame = true) :
    (renderFrame fm m s r).2.envErase = [] ∧ (renderFrame fm m s r).2.cubeErase = [] := by
  unfold renderFrame RenderCube RenderEnvironment
  dsimp only
  rw [h]
  exact ⟨rfl, rfl⟩

theorem renderFrame_next_erase (fm : FloatModel K) (m : MathLib K) (s s2 : CubeState K)
    (r : RenderState) :
    (renderFrame fm m s2 (renderFrame fm m s r).1).2.envErase =
        (renderFrame fm m s r).2.envDraw.map (recolor BLACK) ∧
    (renderFrame fm m s2 (renderFrame fm m s r).1).2.cubeErase =
        (renderFrame fm m s r).2.cubeDraw.map (recolor BLACK) := by
  have hf := renderFrame_first_flag fm m s r
  constructor
  · have h1 : (renderFrame fm m s2 (renderFrame fm m s r).1).2.envErase =
        g_cube_edges.flatMap
          (envEdgeCalls (renderFrame fm m s r).1.g_prev_projected_env_vertices BLACK) := by
      generalize renderFrame fm m s r = q at hf
      unfold renderFrame RenderEnvironment
      dsimp only
      rw [hf]
      rfl
    rw [h1]
    have h2 : (renderFrame fm m s r).2.envDraw =
        g_cube_edges.flatMap
          (envEdgeCalls (renderFrame fm m s r).1.g_prev_projected_env_vertices WALL_COLOR) := by
      unfold renderFrame RenderCube RenderEnvironment
      dsimp only
      cases r.g_first_frame <;> rfl
    rw [h2, recolor_envPass]
  · have h1 : (renderFrame fm m s2 (renderFrame fm m s r).1).2.cubeErase =
        g_cube_edges.map
          (cubeEdgeCall (renderFrame fm m s r).1.g_prev_projected_vertices BLACK) := by
      generalize renderFrame fm m s r = q at hf
      unfold renderFrame RenderCube RenderEnvironment
      dsimp only
      rw [hf]
      rfl
    rw [h1]
    have h2 : (renderFrame fm m s r).2.cubeDraw =
        g_cube_edges.map
          (cubeEdgeCall (renderFrame fm m s r).1.g_prev_projected_vertices WHITE) := by
      unfold renderFrame RenderCube RenderEnvironment
      dsimp only
    rw [h2, recolor_cubePass]

theorem runFrames_consecutive (fm : FloatModel K) (m : MathLib K) (states : List (CubeState K)) :
    ∀ (r : RenderState) (k : ℕ) (f g : FrameCalls),
      (runFrames fm m states r)[k]? = some f → (runFrames fm m states r)[k + 1]? = some g →
      g.envErase = f.envDraw.map (recolor BLACK) ∧
      g.cubeErase = f.cubeDraw.map (recolor BLACK) := by
  induction states with
  | nil =>
    intro r k f g hf
    simp [runFrames] at hf
  | cons s rest ih =>
    intro r k f g hf hg
    cases k with
    | zero =>
      cases rest with
      | nil => simp [runFrames] at hg
      | cons s2 rest2 =>
        simp only [runFrames, List.getElem?_cons_zero, List.getElem?_cons_succ,
          Option.some.injEq, zero_add] at hf hg
        rw [← hf, ← hg]
        exact renderFrame_next_erase fm m s s2 r
    | succ k =>
      simp only [runFrames, List.getElem?_cons_succ] at hf hg
      exact ih _ k f g hf hg

theorem runFrames_length (fm : FloatModel K) (m : MathLib K) (states : List (CubeState K)) :
    ∀ r : RenderState, (runFrames fm m states r).length = states.length := by
  induction states with
  | nil => intro r; rfl
  | cons s rest ih => intro r; simp [runFrames, ih]

/-- C17: in the frames rendered after Cube3D_Initialize, one for each
simulation state of any list, the first frame makes no erase call for the
environment and none for the cube; every later frame makes as its erase calls
exactly the draw calls of the frame before it, in the same order and recoloured
BLACK, so as many of them; there are as many frames as states; and after each
render call the previous-vertex buffer of the entity equals its current
projected-vertex buffer. -/
theorem C17_erase_then_draw (fm : FloatModel K) (m : MathLib K) (states : List (CubeState K))
    (r0 : RenderState) :
    (runFrames fm m states (Cube3D_Initialize r0)).length = states.length ∧
    (∀ f, (runFrames fm m states (Cube3D_Initialize r0))[0]? = some f →
      f.envErase = [] ∧ f.cubeErase = []) ∧
    (∀ (k : ℕ) (f g : FrameCalls),
      (runFrames fm m states (Cube3D_Initialize r0))[k]? = some f →
      (runFrames fm m states (Cube3D_Initialize r0))[k + 1]? = some g →
      g.envErase = f.envDraw.map (recolor BLACK) ∧
      g.cubeErase = f.cubeDraw.map (recolor BLACK) ∧
      g.envErase.length = f.envDraw.length ∧
      g.cubeErase.length = f.cubeDraw.length) ∧
    (∀ (color : ℕ) (r : RenderState),
      (RenderEnvironment color r).st.g_prev_projected_env_vertices =
        (RenderEnvironment color r).st.g_projected_env_vertices) ∧
    (∀ (color : ℕ) (s : CubeState K) (r : RenderState),
      (RenderCube fm m color s r).st.g_prev_projected_vertices =
        (RenderCube fm m color s r).st.g_projected_vertices) := by
  refine ⟨runFrames_length fm m states _, ?_, ?_, ?_, ?_⟩
  · intro f hf
    cases states with
    | nil => simp [runFrames] at hf
    | cons s rest =>
      simp only [runFrames, List.getElem?_cons_zero, Option.some.injEq] at hf
      rw [← hf]
      exact renderFrame_first_erase fm m s _ rfl
  · intro k f g hf hg
    have h := runFrames_consecutive fm m states _ k f g hf hg
    refine ⟨h.1, h.2, ?_, ?_⟩
    · rw [h.1, List.length_map]
    · rw [h.2, List.length_map]
  · intro color r
    rfl
  · intro color s r
    unfold RenderCube
    dsimp only

end RenderingFrames

section RenderingCube

variable {K : Type} [LinearOrderedField K]

theorem RenderCube_drawCalls (fm : FloatModel K) (m : MathLib K) (c : ℕ) (s : CubeState K)
    (r : RenderState) :
    (RenderCube fm m c s r).drawCalls =
      g_cube_edges.map (cubeEdgeCall (projectedCube fm m s) c) := by
  unfold RenderCube projectedCube
  dsimp only
  cases r.g_first_frame <;> rfl

theorem RenderCube_st (fm : FloatModel K) (m : MathLib K) (c : ℕ) (s : CubeState K)
    (r : RenderState) :
    (RenderCube fm m c s r).st.g_prev_projected_vertices = projectedCube fm m s ∧
    (RenderCube fm m c s r).st.g_first_frame = false := by
  unfold RenderCube projectedCube
  dsimp only
  cases r.g_first_frame <;> exact ⟨rfl, rfl⟩

theorem RenderCube_eraseCalls (fm : FloatModel K) (m : MathLib K) (c : ℕ) (s : CubeState K)
    (r : RenderState)
    (h : r.g_first_frame = false) :
    (RenderCube fm m c s r).eraseCalls =
      g_cube_edges.map (cubeEdgeCall r.g_prev_projected_vertices BLACK) := by
  unfold RenderCube
  dsimp only
  rw [h]
  rfl

end RenderingCube

/-! ### Length of the projected edges of the cube -/

theorem wrapInt32_of_small (n : ℤ) (h1 : -1000 ≤ n) (h2 : n ≤ 1000) : wrapInt32 n = n := by
  unfold wrapInt32
  norm_num
  omega

section EdgeArithmetic

variable {K : Type} [LinearOrderedField K]

theorem mul_close (a b a1 b1 ea eb Ba Bb : K) (ha : |a - a1| ≤ ea) (hb : |b - b1| ≤ eb)
    (hBb : |b| ≤ Bb) (hBa : |a1| ≤ Ba) : |a * b - a1 * b1| ≤ ea * Bb + Ba * eb := by
  have e : a * b - a1 * b1 = (a - a1) * b + a1 * (b - b1) := by ring
  rw [e]
  refine le_trans (abs_add _ _) ?_
  rw [abs_mul, abs_mul]
  have h1 : |a - a1| * |b| ≤ ea * Bb :=
    mul_le_mul ha hBb (abs_nonneg _) (le_trans (abs_nonneg _) ha)
  have h2 : |a1| * |b - b1| ≤ Ba * eb :=
    mul_le_mul hBa hb (abs_nonneg _) (le_trans (abs_nonneg _) hBa)
  linarith

theorem perspective_close (d D : K) (hd : 99 ≤ d) (hD : 100 ≤ D) (h : |d - D| ≤ 2 / 50000) :
    |200 / d - 200 / D| ≤ 1 / 50000 := by
  have hd0 : (0 : K) < d := by linarith
  have hD0 : (0 : K) < D := by linarith
  have e : 200 / d - 200 / D = 200 * (D - d) / (d * D) := by
    field_simp
    ring
  rw [e, abs_div, abs_mul, abs_of_pos (mul_pos hd0 hD0), div_le_iff₀ (mul_pos hd0 hD0)]
  have h3 : |D - d| ≤ 2 / 50000 := by rw [abs_sub_comm]; exact h
  have h4 : |(200 : K)| = 200 := abs_of_pos (by norm_num)
  rw [h4]
  nlinarith [abs_nonneg (D - d)]

/-- The exact perspective images of two points of the physics box whose x
and z differ by at most 30 are at most 96 apart. -/
theorem perspective_spread (X1 X2 D1 D2 : K) (hX2 : |X2| ≤ 60)
    (hD1 : 100 ≤ D1) (hD2 : 100 ≤ D2) (hX : |X1 - X2| ≤ 30) (hD : |D1 - D2| ≤ 30) :
    |X1 * (200 / D1) - X2 * (200 / D2)| ≤ 96 := by
  have hd1 : (0 : K) < D1 := by linarith
  have hd2 : (0 : K) < D2 := by linarith
  have e : X1 * (200 / D1) - X2 * (200 / D2) =
      200 * ((X1 - X2) * D2 + X2 * (D2 - D1)) / (D1 * D2) := by
    field_simp
    ring
  rw [e, abs_div, abs_mul, abs_of_pos (mul_pos hd1 hd2), div_le_iff₀ (mul_pos hd1 hd2)]
  have h4 : |(200 : K)| = 200 := abs_of_pos (by norm_num)
  rw [h4]
  have h5 : |(X1 - X2) * D2 + X2 * (D2 - D1)| ≤ 30 * D2 + 60 * 30 := by
    refine le_trans (abs_add _ _) ?_
    rw [abs_mul, abs_mul, abs_of_pos hd2]
    have h6 : |X1 - X2| * D2 ≤ 30 * D2 := mul_le_mul_of_nonneg_right hX hd2.le
    have h7 : |X2| * |D2 - D1| ≤ 60 * 30 :=
      mul_le_mul hX2 (by rw [abs_sub_comm]; exact hD) (abs_nonneg _) (by norm_num)
    linarith
  nlinarith [mul_nonneg (sub_nonneg.mpr hD1) (sub_nonneg.mpr hD2)]


theorem RotatePoint_sub (m : MathLib K) (s : CubeState K) (x1 y1 z1 x2 y2 z2 : K) :
    (RotatePoint m s x1 y1 z1).1 - (RotatePoint m s x2 y2 z2).1 =
      (RotatePoint m s (x1 - x2) (y1 - y2) (z1 - z2)).1 ∧
    (RotatePoint m s x1 y1 z1).2.1 - (RotatePoint m s x2 y2 z2).2.1 =
      (RotatePoint m s (x1 - x2) (y1 - y2) (z1 - z2)).2.1 ∧
    (RotatePoint m s x1 y1 z1).2.2 - (RotatePoint m s x2 y2 z2).2.2 =
      (RotatePoint m s (x1 - x2) (y1 - y2) (z1 - z2)).2.2 := by
  simp only [RotatePoint]
  refine ⟨?_, ?_, ?_⟩ <;> ring

theorem coordinate_bound_edge (a b c : K) (h : a * a + b * b + c * c = 900) : |a| ≤ 30 := by
  rw [abs_le]
  constructor <;> nlinarith [mul_self_nonneg a, mul_self_nonneg b, mul_self_nonneg c]

end EdgeArithmetic

section EdgeLength

variable {K : Type} [LinearOrderedField K] [FloorRing K]

theorem rnd_close (fm : FloatModel K) (h : accurate fm) (t : K) (ht : |t| ≤ 300) :
    |fm.rnd t - t| ≤ 1 / 50000 := by
  refine le_trans (h.1 t) ?_
  rw [div_le_iff₀ (by positivity)]
  norm_num
  linarith

theorem truncToInt_near (x : K) : |(truncToInt x : K) - x| < 1 := by
  unfold truncToInt
  rw [abs_lt]
  split_ifs with h
  · constructor
    · linarith [Int.lt_floor_add_one x]
    · linarith [Int.floor_le x]
  · constructor
    · linarith [Int.le_ceil x]
    · linarith [Int.ceil_lt_add_one x]

/-- The divisor of ProjectPoint at a point whose depth is within the physics
box: it is at least 99, above the threshold, and the rounded perspective is
within 2/50000 of the exact one. -/
theorem rounded_perspective_close (fm : FloatModel K) (h : accurate fm) (z pz : K)
    (hZ0 : 0 ≤ z + pz) (hZ1 : z + pz ≤ 120) :
    |fm.rnd (fm.rnd (z + pz) + 100)| > fm.rnd 0.001 ∧
    |fm.rnd (200 / fm.rnd (fm.rnd (z + pz) + 100)) - 200 / (z + pz + 100)| ≤ 2 / 50000 := by
  have b2 : |z + pz| ≤ 300 := by
    rw [abs_le]
    constructor <;> linarith only [hZ0, hZ1]
  have hz1 := abs_le.mp (rnd_close fm h (z + pz) b2)
  generalize fm.rnd (z + pz) = z1 at hz1 ⊢
  have b3 : |z1 + 100| ≤ 300 := by
    rw [abs_le]
    constructor <;> linarith only [hz1.1, hz1.2, hZ0, hZ1]
  have hd := abs_le.mp (rnd_close fm h (z1 + 100) b3)
  generalize fm.rnd (z1 + 100) = d at hd ⊢
  have b4 : |(0.001 : K)| ≤ 300 := by
    rw [abs_of_pos (by norm_num)]
    norm_num
  have ht := abs_le.mp (rnd_close fm h 0.001 b4)
  generalize fm.rnd 0.001 = t at ht ⊢
  have hd99 : 99 ≤ d := by linarith only [hz1.1, hd.1, hZ0]
  have hd0 : (0 : K) < d := by linarith only [hd99]
  have hdD : |d - (z + pz + 100)| ≤ 2 / 50000 := by
    rw [abs_le]
    constructor <;> linarith only [hz1.1, hz1.2, hd.1, hd.2]
  have hq1 : 0 < 200 / d := div_pos (by norm_num) hd0
  have hq2 : 200 / d ≤ 3 := by
    rw [div_le_iff₀ hd0]
    linarith only [hd99]
  have b5 : |200 / d| ≤ 300 := by
    rw [abs_of_pos hq1]
    linarith only [hq2]
  have hp := abs_le.mp (rnd_close fm h (200 / d) b5)
  have hpc := abs_le.mp (perspective_close d (z + pz + 100) hd99 (by linarith only [hZ0]) hdD)
  generalize fm.rnd (200 / d) = p at hp ⊢
  constructor
  · rw [abs_of_pos hd0]
    have e1 : (0.001 : K) + 1 / 50000 < 99 := by norm_num
    linarith only [ht.2, hd99, e1]
  · rw [abs_le]
    constructor <;> linarith only [hp.1, hp.2, hpc.1, hpc.2]

/-- The rounded product of ProjectPoint for one coordinate is within 1/100 of
the exact product, when the rounded perspective p is within 2/50000 of the
exact one P, which is at most 2. -/
theorem rounded_product_close (fm : FloatModel K) (h : accurate fm) (x A p P : K)
    (hA : |A| ≤ 90) (hX : |x + A| ≤ 60) (hp : |p - P| ≤ 2 / 50000) (hP0 : 0 ≤ P)
    (hP : P ≤ 2) :
    |fm.rnd (fm.rnd (x + fm.rnd A) * p) - (x + A) * P| ≤ 1 / 100 := by
  have ha := abs_le.mp (rnd_close fm h A (le_trans hA (by norm_num)))
  generalize fm.rnd A = a at ha ⊢
  have hX2 := abs_le.mp hX
  have hp2 := abs_le.mp hp
  have b1 : |x + a| ≤ 300 := by
    rw [abs_le]
    constructor <;> linarith only [ha.1, ha.2, hX2.1, hX2.2]
  have hx1 := abs_le.mp (rnd_close fm h (x + a) b1)
  generalize fm.rnd (x + a) = x1 at hx1 ⊢
  have hpB : |p| ≤ 4 := by
    rw [abs_le]
    constructor <;> linarith only [hp2.1, hp2.2, hP0, hP]
  have hxX : |x1 - (x + A)| ≤ 2 / 50000 := by
    rw [abs_le]
    constructor <;> linarith only [hx1.1, hx1.2, ha.1, ha.2]
  have hxB : |x1| ≤ 61 := by
    rw [abs_le]
    constructor <;> linarith only [hx1.1, hx1.2, ha.1, ha.2, hX2.1, hX2.2]
  have hprod := abs_le.mp (mul_close x1 p (x + A) P (2 / 50000) (2 / 50000) 60 4 hxX hp hpB hX)
  have hxp : |x1 * p| ≤ 300 := by
    rw [abs_mul]
    calc |x1| * |p| ≤ 61 * 4 := mul_le_mul hxB hpB (abs_nonneg _) (by norm_num)
      _ ≤ 300 := by norm_num
  have hu := abs_le.mp (rnd_close fm h _ hxp)
  generalize fm.rnd (x1 * p) = u at hu ⊢
  have e1 : (2 : K) / 50000 * 4 + 60 * (2 / 50000) + 1 / 50000 ≤ 1 / 100 := by norm_num
  rw [abs_le]
  constructor <;> linarith only [hu.1, hu.2, hprod.1, hprod.2, e1]

/-- The pixel component 64 + (int)u or 64 - (int)u for a rounded product u
within 1/100 of an exact value w of magnitude at most 120: the conversion
truncates, the 32-bit sum is exact, and the pixel is within 1 + 1/100 of
64 + w or 64 - w. -/
theorem pixel_close (fm : FloatModel K) (h : accurate fm) (u w : K) (hu : |u - w| ≤ 1 / 100)
    (hw : |w| ≤ 120) :
    |((wrapInt32 (64 + fm.toInt u) : ℤ) : K) - (64 + w)| ≤ 1 + 1 / 100 ∧
    |((wrapInt32 (64 - fm.toInt u) : ℤ) : K) - (64 - w)| ≤ 1 + 1 / 100 := by
  have hu2 := abs_le.mp hu
  have hw2 := abs_le.mp hw
  have hub : |u| < 2 ^ 31 := by
    rw [abs_lt]
    constructor
    · have : (-(2 : K) ^ 31) < -121 := by norm_num
      linarith only [hu2.1, hw2.1, this]
    · have : (121 : K) < 2 ^ 31 := by norm_num
      linarith only [hu2.2, hw2.2, this]
  rw [h.2 u hub]
  have ht := abs_lt.mp (truncToInt_near u)
  have ht1 : ((-123 : ℤ) : K) < (truncToInt u : K) := by
    push_cast
    linarith only [ht.1, hu2.1, hw2.1]
  have ht2 : (truncToInt u : K) < ((123 : ℤ) : K) := by
    push_cast
    linarith only [ht.2, hu2.2, hw2.2]
  have ht3 : -123 < truncToInt u := Int.cast_lt.mp ht1
  have ht4 : truncToInt u < 123 := Int.cast_lt.mp ht2
  rw [wrapInt32_of_small _ (by omega) (by omega), wrapInt32_of_small _ (by omega) (by omega)]
  push_cast
  constructor
  · rw [abs_le]
    constructor <;> linarith only [ht.1, ht.2, hu2.1, hu2.2]
  · rw [abs_le]
    constructor <;> linarith only [ht.1, ht.2, hu2.1, hu2.2]

/-- ProjectPoint at a point within the physics box, for a body whose centre is
within 90 of the screen centre: each pixel coordinate is within 1 + 1/100 of
the exact perspective image. -/
theorem ProjectPoint_near (fm : FloatModel K) (h : accurate fm) (s : CubeState K) (x y z : K)
    (hAx : |s.g_positionX - 64| ≤ 90) (hAy : |s.g_positionY - 64| ≤ 90)
    (hX : |x + (s.g_positionX - 64)| ≤ 60) (hY : |y + (s.g_positionY - 64)| ≤ 60)
    (hZ0 : 0 ≤ z + s.g_positionZ) (hZ1 : z + s.g_positionZ ≤ 120) :
    |(((ProjectPoint fm s x y z).1 : ℤ) : K) -
      (64 + (x + (s.g_positionX - 64)) * (200 / (z + s.g_positionZ + 100)))| ≤ 1 + 1 / 100 ∧
    |(((ProjectPoint fm s x y z).2 : ℤ) : K) -
      (64 - (y + (s.g_positionY - 64)) * (200 / (z + s.g_positionZ + 100)))| ≤ 1 + 1 / 100 := by
  obtain ⟨hg, hp⟩ := rounded_perspective_close fm h z s.g_positionZ hZ0 hZ1
  have hD : (0 : K) < z + s.g_positionZ + 100 := by linarith only [hZ0]
  have hP0 : 0 ≤ 200 / (z + s.g_positionZ + 100) := (div_pos (by norm_num) hD).le
  have hP2 : 200 / (z + s.g_positionZ + 100) ≤ 2 := by
    rw [div_le_iff₀ hD]
    linarith only [hZ0]
  have hu := rounded_product_close fm h x (s.g_positionX - 64) _ _ hAx hX hp hP0 hP2
  have hv := rounded_product_close fm h y (s.g_positionY - 64) _ _ hAy hY hp hP0 hP2
  have hwx : |(x + (s.g_positionX - 64)) * (200 / (z + s.g_positionZ + 100))| ≤ 120 := by
    rw [abs_mul, abs_of_nonneg hP0]
    calc |x + (s.g_positionX - 64)| * (200 / (z + s.g_positionZ + 100))
        ≤ 60 * 2 := mul_le_mul hX hP2 hP0 (by norm_num)
      _ = 120 := by norm_num
  have hwy : |(y + (s.g_positionY - 64)) * (200 / (z + s.g_positionZ + 100))| ≤ 120 := by
    rw [abs_mul, abs_of_nonneg hP0]
    calc |y + (s.g_positionY - 64)| * (200 / (z + s.g_positionZ + 100))
        ≤ 60 * 2 := mul_le_mul hY hP2 hP0 (by norm_num)
      _ = 120 := by norm_num
  rw [ProjectPoint_perspective fm s x y z _ _ _ _ _ _ _ _ _ rfl rfl rfl rfl rfl rfl hg
    rfl rfl rfl]
  exact ⟨(pixel_close fm h _ _ hu hwx).1, (pixel_close fm h _ _ hv hwy).2⟩

/-- Two points of the physics box whose coordinates differ by at most 30:
their pixels differ by at most 128 in x and in y. -/
theorem pixels_not_far (fm : FloatModel K) (h : accurate fm) (s : CubeState K)
    (x1 y1 z1 x2 y2 z2 : K)
    (hAx : |s.g_positionX - 64| ≤ 90) (hAy : |s.g_positionY - 64| ≤ 90)
    (hX1 : |x1 + (s.g_positionX - 64)| ≤ 60) (hY1 : |y1 + (s.g_positionY - 64)| ≤ 60)
    (hZ1l : 0 ≤ z1 + s.g_positionZ) (hZ1u : z1 + s.g_positionZ ≤ 120)
    (hX2 : |x2 + (s.g_positionX - 64)| ≤ 60) (hY2 : |y2 + (s.g_positionY - 64)| ≤ 60)
    (hZ2l : 0 ≤ z2 + s.g_positionZ) (hZ2u : z2 + s.g_positionZ ≤ 120)
    (hdx : |x2 - x1| ≤ 30) (hdy : |y2 - y1| ≤ 30) (hdz : |z2 - z1| ≤ 30) :
    |(ProjectPoint fm s x2 y2 z2).1 - (ProjectPoint fm s x1 y1 z1).1| ≤ 128 ∧
    |(ProjectPoint fm s x2 y2 z2).2 - (ProjectPoint fm s x1 y1 z1).2| ≤ 128 := by
  obtain ⟨a1, b1⟩ := ProjectPoint_near fm h s x1 y1 z1 hAx hAy hX1 hY1 hZ1l hZ1u
  obtain ⟨a2, b2⟩ := ProjectPoint_near fm h s x2 y2 z2 hAx hAy hX2 hY2 hZ2l hZ2u
  have ex : x2 + (s.g_positionX - 64) - (x1 + (s.g_positionX - 64)) = x2 - x1 := by ring
  have ey : y2 + (s.g_positionY - 64) - (y1 + (s.g_positionY - 64)) = y2 - y1 := by ring
  have ez : z2 + s.g_positionZ + 100 - (z1 + s.g_positionZ + 100) = z2 - z1 := by ring
  have sx := abs_le.mp (perspective_spread (x2 + (s.g_positionX - 64))
    (x1 + (s.g_positionX - 64)) (z2 + s.g_positionZ + 100) (z1 + s.g_positionZ + 100)
    hX1 (by linarith only [hZ2l]) (by linarith only [hZ1l]) (by rw [ex]; exact hdx)
    (by rw [ez]; exact hdz))
  have sy := abs_le.mp (perspective_spread (y2 + (s.g_positionY - 64))
    (y1 + (s.g_positionY - 64)) (z2 + s.g_positionZ + 100) (z1 + s.g_positionZ + 100)
    hY1 (by linarith only [hZ2l]) (by linarith only [hZ1l]) (by rw [ey]; exact hdy)
    (by rw [ez]; exact hdz))
  have a1 := abs_le.mp a1
  have a2 := abs_le.mp a2
  have b1 := abs_le.mp b1
  have b2 := abs_le.mp b2
  generalize (ProjectPoint fm s x1 y1 z1).1 = p1 at a1 ⊢
  generalize (ProjectPoint fm s x1 y1 z1).2 = q1 at b1 ⊢
  generalize (ProjectPoint fm s x2 y2 z2).1 = p2 at a2 ⊢
  generalize (ProjectPoint fm s x2 y2 z2).2 = q2 at b2 ⊢
  constructor
  · rw [abs_le]
    constructor
    · have : ((-128 : ℤ) : K) ≤ ((p2 - p1 : ℤ) : K) := by
        push_cast
        linarith only [a1.1, a1.2, a2.1, a2.2, sx.1, sx.2]
      exact Int.cast_le.mp this
    · have : ((p2 - p1 : ℤ) : K) ≤ ((128 : ℤ) : K) := by
        push_cast
        linarith only [a1.1, a1.2, a2.1, a2.2, sx.1, sx.2]
      exact Int.cast_le.mp this
  · rw [abs_le]
    constructor
    · have : ((-128 : ℤ) : K) ≤ ((q2 - q1 : ℤ) : K) := by
        push_cast
        linarith only [b1.1, b1.2, b2.1, b2.2, sy.1, sy.2]
      exact Int.cast_le.mp this
    · have : ((q2 - q1 : ℤ) : K) ≤ ((128 : ℤ) : K) := by
        push_cast
        linarith only [b1.1, b1.2, b2.1, b2.2, sy.1, sy.2]
      exact Int.cast_le.mp this

/-- The pixels of two cube vertices joined by an edge (their local
coordinates differ by 30 along one axis), in a state in which both lie within
the physics box, differ by at most 128 in x and in y. -/
theorem vertex_pixels_not_far (fm : FloatModel K) (h : accurate fm) (m : MathLib K)
    (s : CubeState K)
    (hx : m.cosf s.g_angleX * m.cosf s.g_angleX + m.sinf s.g_angleX * m.sinf s.g_angleX = 1)
    (hy : m.cosf s.g_angleY * m.cosf s.g_angleY + m.sinf s.g_angleY * m.sinf s.g_angleY = 1)
    (hz : m.cosf s.g_angleZ * m.cosf s.g_angleZ + m.sinf s.g_angleZ * m.sinf s.g_angleZ = 1)
    (v w : K × K × K) (hv : v ∈ g_cube_vertices) (hiv : insideBounds m s v)
    (hiw : insideBounds m s w)
    (hvw : (w.1 - v.1) * (w.1 - v.1) + (w.2.1 - v.2.1) * (w.2.1 - v.2.1) +
      (w.2.2 - v.2.2) * (w.2.2 - v.2.2) = 900) :
    |(ProjectPoint fm s (RotatePoint m s w.1 w.2.1 w.2.2).1 (RotatePoint m s w.1 w.2.1 w.2.2).2.1
        (RotatePoint m s w.1 w.2.1 w.2.2).2.2).1 -
      (ProjectPoint fm s (RotatePoint m s v.1 v.2.1 v.2.2).1 (RotatePoint m s v.1 v.2.1 v.2.2).2.1
        (RotatePoint m s v.1 v.2.1 v.2.2).2.2).1| ≤ 128 ∧
    |(ProjectPoint fm s (RotatePoint m s w.1 w.2.1 w.2.2).1 (RotatePoint m s w.1 w.2.1 w.2.2).2.1
        (RotatePoint m s w.1 w.2.1 w.2.2).2.2).2 -
      (ProjectPoint fm s (RotatePoint m s v.1 v.2.1 v.2.2).1 (RotatePoint m s v.1 v.2.1 v.2.2).2.1
        (RotatePoint m s v.1 v.2.1 v.2.2).2.2).2| ≤ 128 := by
  have hb := RotatePoint_vertex_bound m s hx hy hz v hv
  have hsub := RotatePoint_sub m s w.1 w.2.1 w.2.2 v.1 v.2.1 v.2.2
  have hn := RotatePoint_norm m s hx hy hz (w.1 - v.1) (w.2.1 - v.2.1) (w.2.2 - v.2.2)
  rw [hvw] at hn
  have d1 := coordinate_bound_edge _ _ _ hn
  have d2 := coordinate_bound_edge
    (RotatePoint m s (w.1 - v.1) (w.2.1 - v.2.1) (w.2.2 - v.2.2)).2.1
    (RotatePoint m s (w.1 - v.1) (w.2.1 - v.2.1) (w.2.2 - v.2.2)).1
    (RotatePoint m s (w.1 - v.1) (w.2.1 - v.2.1) (w.2.2 - v.2.2)).2.2
    (by linarith only [hn])
  have d3 := coordinate_bound_edge
    (RotatePoint m s (w.1 - v.1) (w.2.1 - v.2.1) (w.2.2 - v.2.2)).2.2
    (RotatePoint m s (w.1 - v.1) (w.2.1 - v.2.1) (w.2.2 - v.2.2)).1
    (RotatePoint m s (w.1 - v.1) (w.2.1 - v.2.1) (w.2.2 - v.2.2)).2.1
    (by linarith only [hn])
  rw [← hsub.1] at d1
  rw [← hsub.2.1] at d2
  rw [← hsub.2.2] at d3
  unfold insideBounds worldVertex at hiv hiw
  simp only [PHYSICS_MIN_X, PHYSICS_MAX_X, PHYSICS_MIN_Y, PHYSICS_MAX_Y, PHYSICS_MIN_Z,
    PHYSICS_MAX_Z, ENV_VISUAL_SIZE, ENV_Z_OFFSET, SCREEN_CENTER_X, SCREEN_CENTER_Y] at hiv hiw
  obtain ⟨v1, v2, v3, v4, v5, v6⟩ := hiv
  obtain ⟨w1, w2, w3, w4, w5, w6⟩ := hiw
  obtain ⟨⟨r1, r2⟩, ⟨r3, r4⟩, _⟩ := hb
  generalize RotatePoint m s v.1 v.2.1 v.2.2 = pv at *
  generalize RotatePoint m s w.1 w.2.1 w.2.2 = pw at *
  refine pixels_not_far fm h s pv.1 pv.2.1 pv.2.2 pw.1 pw.2.1 pw.2.2 ?_ ?_ ?_ ?_ ?_ ?_ ?_ ?_ ?_
    ?_ d1 d2 d3
  · rw [abs_le]
    constructor <;> linarith only [v1, v2, r1, r2]
  · rw [abs_le]
    constructor <;> linarith only [v3, v4, r3, r4]
  · rw [abs_le]
    constructor <;> linarith only [v1, v2]
  · rw [abs_le]
    constructor <;> linarith only [v3, v4]
  · linarith only [v5]
  · linarith only [v6]
  · rw [abs_le]
    constructor <;> linarith only [w1, w2]
  · rw [abs_le]
    constructor <;> linarith only [w3, w4]
  · linarith only [w5]
  · linarith only [w6]

/-- In a state in which the eight vertices of the cube lie within the physics
box, no edge of the cube is long in the projected vertex array. -/
theorem cube_edges_not_long (fm : FloatModel K) (h : accurate fm) (m : MathLib K)
    (s : CubeState K)
    (hx : m.cosf s.g_angleX * m.cosf s.g_angleX + m.sinf s.g_angleX * m.sinf s.g_angleX = 1)
    (hy : m.cosf s.g_angleY * m.cosf s.g_angleY + m.sinf s.g_angleY * m.sinf s.g_angleY = 1)
    (hz : m.cosf s.g_angleZ * m.cosf s.g_angleZ + m.sinf s.g_angleZ * m.sinf s.g_angleZ = 1)
    (hin : ∀ v ∈ g_cube_vertices, insideBounds m s v) :
    ∀ e ∈ g_cube_edges, ¬ longEdge (projectedCube fm m s) e := by
  have key : ∀ v ∈ (g_cube_vertices : List (K × K × K)),
      ∀ w ∈ (g_cube_vertices : List (K × K × K)),
      (w.1 - v.1) * (w.1 - v.1) + (w.2.1 - v.2.1) * (w.2.1 - v.2.1) +
        (w.2.2 - v.2.2) * (w.2.2 - v.2.2) = 900 →
      ¬ (|(ProjectPoint fm s (RotatePoint m s w.1 w.2.1 w.2.2).1
            (RotatePoint m s w.1 w.2.1 w.2.2).2.1 (RotatePoint m s w.1 w.2.1 w.2.2).2.2).1 -
          (ProjectPoint fm s (RotatePoint m s v.1 v.2.1 v.2.2).1
            (RotatePoint m s v.1 v.2.1 v.2.2).2.1 (RotatePoint m s v.1 v.2.1 v.2.2).2.2).1| >
            SCREEN_WIDTH ∨
        |(ProjectPoint fm s (RotatePoint m s w.1 w.2.1 w.2.2).1
            (RotatePoint m s w.1 w.2.1 w.2.2).2.1 (RotatePoint m s w.1 w.2.1 w.2.2).2.2).2 -
          (ProjectPoint fm s (RotatePoint m s v.1 v.2.1 v.2.2).1
            (RotatePoint m s v.1 v.2.1 v.2.2).2.1 (RotatePoint m s v.1 v.2.1 v.2.2).2.2).2| >
            SCREEN_HEIGHT) := by
    intro v hv w hw hvw
    have := vertex_pixels_not_far fm h m s hx hy hz v w hv (hin v hv) (hin w hw) hvw
    have e1 : SCREEN_WIDTH = 128 := rfl
    have e2 : SCREEN_HEIGHT = 128 := rfl
    rw [e1, e2]
    rintro (h1 | h1)
    · exact absurd this.1 (not_le.mpr h1)
    · exact absurd this.2 (not_le.mpr h1)
  intro e he
  simp only [g_cube_edges, List.mem_cons, List.mem_singleton, List.not_mem_nil, or_false] at he
  have m0 : ((-CUBE_SIZE, -CUBE_SIZE, -CUBE_SIZE) : K × K × K) ∈ g_cube_vertices := by
    simp [g_cube_vertices]
  have m1 : ((CUBE_SIZE, -CUBE_SIZE, -CUBE_SIZE) : K × K × K) ∈ g_cube_vertices := by
    simp [g_cube_vertices]
  have m2 : ((CUBE_SIZE, CUBE_SIZE, -CUBE_SIZE) : K × K × K) ∈ g_cube_vertices := by
    simp [g_cube_vertices]
  have m3 : ((-CUBE_SIZE, CUBE_SIZE, -CUBE_SIZE) : K × K × K) ∈ g_cube_vertices := by
    simp [g_cube_vertices]
  have m4 : ((-CUBE_SIZE, -CUBE_SIZE, CUBE_SIZE) : K × K × K) ∈ g_cube_vertices := by
    simp [g_cube_vertices]
  have m5 : ((CUBE_SIZE, -CUBE_SIZE, CUBE_SIZE) : K × K × K) ∈ g_cube_vertices := by
    simp [g_cube_vertices]
  have m6 : ((CUBE_SIZE, CUBE_SIZE, CUBE_SIZE) : K × K × K) ∈ g_cube_vertices := by
    simp [g_cube_vertices]
  have m7 : ((-CUBE_SIZE, CUBE_SIZE, CUBE_SIZE) : K × K × K) ∈ g_cube_vertices := by
    simp [g_cube_vertices]
  rcases he with rfl | rfl | rfl | rfl | rfl | rfl | rfl | rfl | rfl | rfl | rfl | rfl
  · exact key _ m0 _ m1 (by norm_num [CUBE_SIZE])
  · exact key _ m1 _ m2 (by norm_num [CUBE_SIZE])
  · exact key _ m2 _ m3 (by norm_num [CUBE_SIZE])
  · exact key _ m3 _ m0 (by norm_num [CUBE_SIZE])
  · exact key _ m4 _ m5 (by norm_num [CUBE_SIZE])
  · exact key _ m5 _ m6 (by norm_num [CUBE_SIZE])
  · exact key _ m6 _ m7 (by norm_num [CUBE_SIZE])
  · exact key _ m7 _ m4 (by norm_num [CUBE_SIZE])
  · exact key _ m0 _ m4 (by norm_num [CUBE_SIZE])
  · exact key _ m1 _ m5 (by norm_num [CUBE_SIZE])
  · exact key _ m2 _ m6 (by norm_num [CUBE_SIZE])
  · exact key _ m3 _ m7 (by norm_num [CUBE_SIZE])

theorem roundHalfEven_near (x : K) : |(roundHalfEven x : K) - x| ≤ 1 / 2 := by
  have h1 := Int.floor_le x
  have h2 := Int.lt_floor_add_one x
  unfold roundHalfEven
  rw [abs_le]
  split_ifs with c1 c2 c3
  · constructor <;> linarith
  · push_cast
    constructor <;> linarith
  · constructor <;> linarith
  · push_cast
    constructor <;> linarith

theorem binade_le (a : K) : (2 : K) ^ max (Int.log 2 |a|) (-126) ≤ |a| + 1 := by
  rcases le_total (Int.log 2 |a|) (-126) with hle | hle
  · rw [max_eq_right hle]
    have : (2 : K) ^ (-126 : ℤ) ≤ 1 := zpow_le_one_of_nonpos₀ (by norm_num) (by norm_num)
    linarith [abs_nonneg a]
  · rw [max_eq_left hle]
    rcases eq_or_lt_of_le (abs_nonneg a) with h0 | hpos
    · rw [← h0, Int.log_of_right_le_zero 2 (le_refl (0 : K))]
      norm_num
    · have := Int.zpow_log_le_self (b := 2) (by norm_num) hpos
      have h2 : (2 : K) ^ Int.log 2 |a| ≤ |a| := by exact_mod_cast this
      linarith

/-- The accuracy of binary32: a rounding is off by at most half a unit in the
last place, which is at most 2^-24 (|x| + 1), and the saturating conversion
truncates a value of magnitude below 2^31. -/
theorem binary32_accurate : accurate (binary32 : FloatModel K) := by
  constructor
  · intro a
    show |roundBinary32 a - a| ≤ (|a| + 1) / 2 ^ 24
    unfold roundBinary32
    dsimp only
    have hb := binade_le a
    generalize max (Int.log 2 |a|) (-126) = e at hb ⊢
    have hu : (0 : K) < 2 ^ (e - 23) := zpow_pos (by norm_num) _
    have hr := roundHalfEven_near (a / 2 ^ (e - 23))
    have e1 : (roundHalfEven (a / 2 ^ (e - 23)) : K) * 2 ^ (e - 23) - a =
        ((roundHalfEven (a / 2 ^ (e - 23)) : K) - a / 2 ^ (e - 23)) * 2 ^ (e - 23) := by
      field_simp
    rw [e1, abs_mul, abs_of_pos hu]
    have e2 : (2 : K) ^ (e - 23) = 2 ^ e / 2 ^ 23 := by
      rw [zpow_sub₀ (by norm_num)]
      norm_num
    have h3 : |(roundHalfEven (a / 2 ^ (e - 23)) : K) - a / 2 ^ (e - 23)| * 2 ^ (e - 23) ≤
        1 / 2 * 2 ^ (e - 23) := mul_le_mul_of_nonneg_right hr hu.le
    refine le_trans h3 ?_
    rw [e2, le_div_iff₀ (by norm_num)]
    have : (1 : K) / 2 * (2 ^ e / 2 ^ 23) * 2 ^ 24 = 2 ^ e := by
      generalize (2 : K) ^ e = t
      norm_num
      ring
    rw [this]
    exact hb
  · intro a ha
    exact toIntSaturating_of_lt a (abs_lt.mp ha).1 (abs_lt.mp ha).2

/-- C18: the long-edge test is part of RenderEnvironment only.  Both passes of
RenderEnvironment run the same loop body over the twelve edges, the draw pass
on the projected environment array and the erase pass (absent in the first
frame) on its copy from the previous frame, and that body makes no call for an
edge whose endpoints differ by more than SCREEN_WIDTH in x or by more than
SCREEN_HEIGHT in y.  RenderCube has no such test: its draw pass makes one
drawLine call for each of the twelve edges of the projected cube array, its
erase pass (absent in the first frame) one for each edge of the previous
array, and it leaves the projected array as the previous array.  But in every
state in which the eight vertices of the cube lie within the physics box no
edge of the projected cube array is long, for a float model as accurate as
binary32 and a math library with cos^2 + sin^2 = 1 at the three angles; so a
long edge of the cube is emitted in neither pass as long as the states stay
within the box. -/
theorem C18_long_edge_filter (fm : FloatModel K) (m : MathLib K) :
    (∀ (color : ℕ) (r : RenderState),
      (RenderEnvironment color r).drawCalls =
        g_cube_edges.flatMap
          (envEdgeCalls (RenderEnvironment color r).st.g_projected_env_vertices color) ∧
      (RenderEnvironment color r).eraseCalls =
        if r.g_first_frame = true then []
        else g_cube_edges.flatMap (envEdgeCalls r.g_prev_projected_env_vertices BLACK)) ∧
    (∀ (buf : List (ℤ × ℤ)) (color : ℕ) (e : ℕ × ℕ),
      longEdge buf e → envEdgeCalls buf color e = []) ∧
    (∀ (color : ℕ) (s : CubeState K) (r : RenderState),
      (RenderCube fm m color s r).drawCalls =
        g_cube_edges.map (cubeEdgeCall (projectedCube fm m s) color) ∧
      (RenderCube fm m color s r).eraseCalls =
        (if r.g_first_frame = true then []
         else g_cube_edges.map (cubeEdgeCall r.g_prev_projected_vertices BLACK)) ∧
      (RenderCube fm m color s r).st.g_prev_projected_vertices = projectedCube fm m s) ∧
    (∀ s : CubeState K, accurate fm →
      m.cosf s.g_angleX * m.cosf s.g_angleX + m.sinf s.g_angleX * m.sinf s.g_angleX = 1 →
      m.cosf s.g_angleY * m.cosf s.g_angleY + m.sinf s.g_angleY * m.sinf s.g_angleY = 1 →
      m.cosf s.g_angleZ * m.cosf s.g_angleZ + m.sinf s.g_angleZ * m.sinf s.g_angleZ = 1 →
      (∀ v ∈ g_cube_vertices, insideBounds m s v) →
      ∀ e ∈ g_cube_edges, ¬ longEdge (projectedCube fm m s) e) := by
  refine ⟨?_, envEdgeCalls_long, ?_, ?_⟩
  · intro color r
    unfold RenderEnvironment
    dsimp only
    cases r.g_first_frame <;> exact ⟨rfl, rfl⟩
  · intro color s r
    refine ⟨RenderCube_drawCalls fm m color s r, ?_, (RenderCube_st fm m color s r).1⟩
    unfold RenderCube
    dsimp only
    cases r.g_first_frame <;> rfl
  · intro s hacc hx hy hz hin
    exact cube_edges_not_long fm hacc m s hx hy hz hin

end EdgeLength

/-- C18 instance: binary32, the real cosine and sine, and the unrotated cube
at (64, 64, 40), whose vertices lie within the physics box. -/
theorem C18_long_edge_filter_witness :
    accurate (binary32 : FloatModel ℝ) ∧
    (∀ v ∈ g_cube_vertices,
      insideBounds (⟨Real.sqrt, Real.cos, Real.sin, Real.arccos⟩ : MathLib ℝ)
        ⟨0, 0, 0, 64, 64, 40, 0, 0, 0, 0, 0, 0, 0⟩ v) ∧
    (∀ e ∈ g_cube_edges,
      ¬ longEdge (projectedCube (binary32 : FloatModel ℝ)
        (⟨Real.sqrt, Real.cos, Real.sin, Real.arccos⟩ : MathLib ℝ)
        ⟨0, 0, 0, 64, 64, 40, 0, 0, 0, 0, 0, 0, 0⟩) e) := by
  have hin : ∀ v ∈ g_cube_vertices,
      insideBounds (⟨Real.sqrt, Real.cos, Real.sin, Real.arccos⟩ : MathLib ℝ)
        ⟨0, 0, 0, 64, 64, 40, 0, 0, 0, 0, 0, 0, 0⟩ v := by
    intro v hv
    simp only [g_cube_vertices, CUBE_SIZE, List.mem_cons, List.mem_singleton,
      List.not_mem_nil, or_false] at hv
    rcases hv with h | h | h | h | h | h | h | h <;> rw [h] <;>
      simp [insideBounds, worldVertex, RotatePoint, PHYSICS_MAX_X, PHYSICS_MIN_X,
        PHYSICS_MAX_Y, PHYSICS_MIN_Y, PHYSICS_MAX_Z, PHYSICS_MIN_Z, ENV_VISUAL_SIZE,
        ENV_Z_OFFSET, SCREEN_CENTER_X, SCREEN_CENTER_Y] <;>
      norm_num
  exact ⟨binary32_accurate, hin,
    (C18_long_edge_filter (binary32 : FloatModel ℝ)
      (⟨Real.sqrt, Real.cos, Real.sin, Real.arccos⟩ : MathLib ℝ)).2.2.2
      ⟨0, 0, 0, 64, 64, 40, 0, 0, 0, 0, 0, 0, 0⟩ binary32_accurate (by simp) (by simp) (by simp)
      hin⟩

/-- In binary32, for a body at (64, 64, -75) and a local point (x, -15, -15)
with x = 15 or x = -15, every operation of ProjectPoint is exact: the divisor
is 10, the perspective 20 and the pixel (64 + 20 x, 364). -/
theorem ProjectPoint_far_behind (x : ℝ) (hx : x = 15 ∨ x = -15) :
    ProjectPoint (binary32 : FloatModel ℝ) ⟨0, 0, 0, 64, 64, -75, 0, 0, 0, 0, 0, 0, 0⟩
      x (-15) (-15) = (64 + truncToInt (x * 20), 364) := by
  have e0 : (binary32 : FloatModel ℝ).rnd (64 - 64) = 0 := by
    show roundBinary32 ((64 : ℝ) - 64) = 0
    rw [sub_self, roundBinary32_zero]
  have ex : (binary32 : FloatModel ℝ).rnd (x + 0) = x := by
    show roundBinary32 (x + 0) = x
    rcases hx with h | h
    · rw [h, roundBinary32_eq ((15 : ℝ) + 0) 3 15728640 (by norm_num) (by norm_num [abs_of_pos])
        (by norm_num [abs_of_pos]) (by norm_num [abs_lt])]
      norm_num
    · rw [h, roundBinary32_eq ((-15 : ℝ) + 0) 3 (-15728640) (by norm_num)
        (by norm_num [abs_of_neg]) (by norm_num [abs_of_neg]) (by norm_num [abs_lt])]
      norm_num
  have ey : (binary32 : FloatModel ℝ).rnd (-15 + 0) = -15 := by
    show roundBinary32 ((-15 : ℝ) + 0) = -15
    rw [roundBinary32_eq ((-15 : ℝ) + 0) 3 (-15728640) (by norm_num)
      (by norm_num [abs_of_neg]) (by norm_num [abs_of_neg]) (by norm_num [abs_lt])]
    norm_num
  have ez : (binary32 : FloatModel ℝ).rnd (-15 + -75) = -90 := by
    show roundBinary32 ((-15 : ℝ) + -75) = -90
    rw [roundBinary32_eq ((-15 : ℝ) + -75) 6 (-11796480) (by norm_num)
      (by norm_num [abs_of_neg]) (by norm_num [abs_of_neg]) (by norm_num [abs_lt])]
    norm_num
  have ed : (binary32 : FloatModel ℝ).rnd (-90 + 100) = 10 := by
    show roundBinary32 ((-90 : ℝ) + 100) = 10
    rw [roundBinary32_eq ((-90 : ℝ) + 100) 3 10485760 (by norm_num) (by norm_num [abs_of_pos])
      (by norm_num [abs_of_pos]) (by norm_num [abs_lt])]
    norm_num
  have et : roundBinary32 (0.001 : ℝ) = 8589935 / 8589934592 := by
    rw [roundBinary32_eq (0.001 : ℝ) (-10) 8589935 (by norm_num) (by norm_num [abs_of_pos])
      (by norm_num [abs_of_pos]) (by norm_num [abs_lt])]
    norm_num
  have eg : |(10 : ℝ)| > (binary32 : FloatModel ℝ).rnd 0.001 := by
    show |(10 : ℝ)| > roundBinary32 0.001
    rw [et]
    norm_num [abs_of_pos]
  have ep : (binary32 : FloatModel ℝ).rnd (200 / 10) = 20 := by
    show roundBinary32 ((200 : ℝ) / 10) = 20
    rw [roundBinary32_eq ((200 : ℝ) / 10) 4 10485760 (by norm_num) (by norm_num [abs_of_pos])
      (by norm_num [abs_of_pos]) (by norm_num [abs_lt])]
    norm_num
  have eu : (binary32 : FloatModel ℝ).rnd (x * 20) = x * 20 := by
    show roundBinary32 (x * 20) = x * 20
    rcases hx with h | h
    · rw [h, roundBinary32_eq ((15 : ℝ) * 20) 8 9830400 (by norm_num) (by norm_num [abs_of_pos])
        (by norm_num [abs_of_pos]) (by norm_num [abs_lt])]
      norm_num
    · rw [h, roundBinary32_eq ((-15 : ℝ) * 20) 8 (-9830400) (by norm_num)
        (by norm_num [abs_of_neg]) (by norm_num [abs_of_neg]) (by norm_num [abs_lt])]
      norm_num
  have ev : (binary32 : FloatModel ℝ).rnd (-15 * 20) = -300 := by
    show roundBinary32 ((-15 : ℝ) * 20) = -300
    rw [roundBinary32_eq ((-15 : ℝ) * 20) 8 (-9830400) (by norm_num)
      (by norm_num [abs_of_neg]) (by norm_num [abs_of_neg]) (by norm_num [abs_lt])]
    norm_num
  have hxb : -(2 : ℝ) ^ 31 < x * 20 ∧ x * 20 < (2 : ℝ) ^ 31 := by
    rcases hx with h | h <;> rw [h] <;> norm_num
  have tu : (binary32 : FloatModel ℝ).toInt (x * 20) = truncToInt (x * 20) :=
    toIntSaturating_of_lt _ hxb.1 hxb.2
  have tv : (binary32 : FloatModel ℝ).toInt (-300) = -300 := by
    show toIntSaturating (-300 : ℝ) = -300
    rw [toIntSaturating_of_lt _ (by norm_num) (by norm_num)]
    have := truncToInt_intCast (K := ℝ) (-300)
    simpa using this
  have hwrap : wrapInt32 (64 + truncToInt (x * 20)) = 64 + truncToInt (x * 20) := by
    rcases hx with h | h
    · have h1 : truncToInt (x * 20) = 300 := by
        rw [h]
        have := truncToInt_intCast (K := ℝ) 300
        norm_num at this ⊢
        exact this
      rw [h1]
      decide
    · have h1 : truncToInt (x * 20) = -300 := by
        rw [h]
        have := truncToInt_intCast (K := ℝ) (-300)
        norm_num at this ⊢
        exact this
      rw [h1]
      decide
  rw [ProjectPoint_perspective (binary32 : FloatModel ℝ)
    ⟨0, 0, 0, 64, 64, -75, 0, 0, 0, 0, 0, 0, 0⟩
    x (-15) (-15) 0 0 x (-15) (-90) 10 20 (x * 20) (-300)
    e0 ex e0 ey ez ed eg ep eu ev, tu, tv, hwrap]
  rfl

theorem projectedCube_far_behind :
    (projectedCube (binary32 : FloatModel ℝ)
      (⟨Real.sqrt, Real.cos, Real.sin, Real.arccos⟩ : MathLib ℝ)
      ⟨0, 0, 0, 64, 64, -75, 0, 0, 0, 0, 0, 0, 0⟩).getD 0 (0, 0) = (-236, 364) ∧
    (projectedCube (binary32 : FloatModel ℝ)
      (⟨Real.sqrt, Real.cos, Real.sin, Real.arccos⟩ : MathLib ℝ)
      ⟨0, 0, 0, 64, 64, -75, 0, 0, 0, 0, 0, 0, 0⟩).getD 1 (0, 0) = (364, 364) := by
  have hr : ∀ x y z : ℝ,
      RotatePoint (⟨Real.sqrt, Real.cos, Real.sin, Real.arccos⟩ : MathLib ℝ)
        ⟨0, 0, 0, 64, 64, -75, 0, 0, 0, 0, 0, 0, 0⟩ x y z = (x, y, z) :=
    RotatePoint_zeroAngles _ (by simp) (by simp) _ rfl rfl rfl
  have t1 : truncToInt ((-15 : ℝ) * 20) = -300 := by
    have := truncToInt_intCast (K := ℝ) (-300)
    norm_num at this ⊢
    exact this
  have t2 : truncToInt ((15 : ℝ) * 20) = 300 := by
    have := truncToInt_intCast (K := ℝ) 300
    norm_num at this ⊢
    exact this
  constructor
  · show ProjectPoint _ _ (RotatePoint _ _ (-CUBE_SIZE) (-CUBE_SIZE) (-CUBE_SIZE)).1
      (RotatePoint _ _ (-CUBE_SIZE) (-CUBE_SIZE) (-CUBE_SIZE)).2.1
      (RotatePoint _ _ (-CUBE_SIZE) (-CUBE_SIZE) (-CUBE_SIZE)).2.2 = (-236, 364)
    rw [hr]
    show ProjectPoint _ _ (-15) (-15) (-15) = (-236, 364)
    rw [ProjectPoint_far_behind (-15) (Or.inr rfl), t1]
    rfl
  · show ProjectPoint _ _ (RotatePoint _ _ CUBE_SIZE (-CUBE_SIZE) (-CUBE_SIZE)).1
      (RotatePoint _ _ CUBE_SIZE (-CUBE_SIZE) (-CUBE_SIZE)).2.1
      (RotatePoint _ _ CUBE_SIZE (-CUBE_SIZE) (-CUBE_SIZE)).2.2 = (364, 364)
    rw [hr]
    show ProjectPoint _ _ 15 (-15) (-15) = (364, 364)
    rw [ProjectPoint_far_behind 15 (Or.inl rfl), t2]
    rfl

/-- C18 (counterexample): in binary32, with zero angles and the body at
(64, 64, -75), vertex 0 projects to (-236, 364) and vertex 1 to (364, 364), so
edge (0, 1) spans 600 columns, more than SCREEN_WIDTH; RenderCube nevertheless
draws it, drawLine(-236, 364, 364, 364, WHITE), and the next RenderCube call
erases it with the same call in BLACK, whatever the rendering variables were
and whatever the next state is. -/
theorem C18_cube_long_edge_is_drawn :
    longEdge (projectedCube (binary32 : FloatModel ℝ)
      (⟨Real.sqrt, Real.cos, Real.sin, Real.arccos⟩ : MathLib ℝ)
      ⟨0, 0, 0, 64, 64, -75, 0, 0, 0, 0, 0, 0, 0⟩) (0, 1) ∧
    (∀ r : RenderState,
      DrawCall.drawLine (-236) 364 364 364 WHITE ∈
        (RenderCube (binary32 : FloatModel ℝ)
          (⟨Real.sqrt, Real.cos, Real.sin, Real.arccos⟩ : MathLib ℝ) WHITE
          ⟨0, 0, 0, 64, 64, -75, 0, 0, 0, 0, 0, 0, 0⟩ r).drawCalls ∧
      ∀ s2 : CubeState ℝ,
        DrawCall.drawLine (-236) 364 364 364 BLACK ∈
          (RenderCube (binary32 : FloatModel ℝ)
            (⟨Real.sqrt, Real.cos, Real.sin, Real.arccos⟩ : MathLib ℝ) WHITE s2
            (RenderCube (binary32 : FloatModel ℝ)
              (⟨Real.sqrt, Real.cos, Real.sin, Real.arccos⟩ : MathLib ℝ) WHITE
              ⟨0, 0, 0, 64, 64, -75, 0, 0, 0, 0, 0, 0, 0⟩ r).st).eraseCalls) := by
  obtain ⟨h0, h1⟩ := projectedCube_far_behind
  have hcall : ∀ c : ℕ, cubeEdgeCall (projectedCube (binary32 : FloatModel ℝ)
      (⟨Real.sqrt, Real.cos, Real.sin, Real.arccos⟩ : MathLib ℝ)
      ⟨0, 0, 0, 64, 64, -75, 0, 0, 0, 0, 0, 0, 0⟩) c (0, 1) =
      DrawCall.drawLine (-236) 364 364 364 c := by
    intro c
    unfold cubeEdgeCall
    dsimp only
    rw [h0, h1]
  have hmem : ((0, 1) : ℕ × ℕ) ∈ g_cube_edges := by simp [g_cube_edges]
  refine ⟨?_, ?_⟩
  · unfold longEdge
    dsimp only
    rw [h0, h1]
    decide
  · intro r
    refine ⟨?_, ?_⟩
    · rw [RenderCube_drawCalls, ← hcall WHITE]
      exact List.mem_map_of_mem _ hmem
    · intro s2
      rw [RenderCube_eraseCalls _ _ _ _ _ (RenderCube_st _ _ _ _ _).2,
        (RenderCube_st _ _ _ _ _).1, ← hcall BLACK]
      exact List.mem_map_of_mem _ hmem

/-! ### Collision resolver: corrections, containment and the contact normal -/

section AngularVelocity

variable {K : Type} [LinearOrderedField K]

/-- The integration part of UpdatePhysics multiplies the angular velocity by
ANGULAR_DAMPING and adds nothing to it. -/
theorem integrateMotion_angularVelocity (m : MathLib K) (ax ay az : ℤ) (s : CubeState K) :
    (integrateMotion m ax ay az s).g_angularVelocityX = s.g_angularVelocityX * ANGULAR_DAMPING ∧
    (integrateMotion m ax ay az s).g_angularVelocityY = s.g_angularVelocityY * ANGULAR_DAMPING ∧
    (integrateMotion m ax ay az s).g_angularVelocityZ =
      s.g_angularVelocityZ * ANGULAR_DAMPING := by
  unfold integrateMotion
  simp only [torque_always_zero]
  split_ifs <;> simp

/-- A call of CheckAndResolveCollisions whose vertex loop detects no collision
leaves the angular velocity as it was. -/
theorem checkAndResolve_angularVelocity (m : MathLib K) (rand : ℕ → ℕ) (s : CubeState K)
    (h : (collisionScan m s).collisionDetected = false) :
    (CheckAndResolveCollisions m rand s).g_angularVelocityX = s.g_angularVelocityX ∧
    (CheckAndResolveCollisions m rand s).g_angularVelocityY = s.g_angularVelocityY ∧
    (CheckAndResolveCollisions m rand s).g_angularVelocityZ = s.g_angularVelocityZ := by
  have ho := collisionScan_offPosition m s
  unfold CheckAndResolveCollisions collisionResponse
  rw [h]
  simp only [Bool.false_eq_true, if_false]
  exact ⟨congrArg (fun x => x.g_angularVelocityX) ho, congrArg (fun x => x.g_angularVelocityY) ho,
    congrArg (fun x => x.g_angularVelocityZ) ho⟩

theorem runPhysics_angularVelocity (m : MathLib K) (rand : ℕ → ℕ)
    (samples : List (ℤ × ℤ × ℤ)) :
    ∀ s : CubeState K, collisionFree m rand samples s →
      (runPhysics m rand samples s).g_angularVelocityX =
        0.25 ^ samples.length * s.g_angularVelocityX ∧
      (runPhysics m rand samples s).g_angularVelocityY =
        0.25 ^ samples.length * s.g_angularVelocityY ∧
      (runPhysics m rand samples s).g_angularVelocityZ =
        0.25 ^ samples.length * s.g_angularVelocityZ := by
  induction samples with
  | nil => intro s _; simp [runPhysics]
  | cons a rest ih =>
    intro s h
    obtain ⟨h1, h2⟩ := h
    obtain ⟨i1, i2, i3⟩ := integrateMotion_angularVelocity m a.1 a.2.1 a.2.2 s
    obtain ⟨c1, c2, c3⟩ := checkAndResolve_angularVelocity m rand _ h1
    obtain ⟨r1, r2, r3⟩ := ih _ h2
    have e1 : (UpdatePhysics m rand a.1 a.2.1 a.2.2 s).g_angularVelocityX =
        s.g_angularVelocityX * ANGULAR_DAMPING := by
      unfold UpdatePhysics; rw [c1, i1]
    have e2 : (UpdatePhysics m rand a.1 a.2.1 a.2.2 s).g_angularVelocityY =
        s.g_angularVelocityY * ANGULAR_DAMPING := by
      unfold UpdatePhysics; rw [c2, i2]
    have e3 : (UpdatePhysics m rand a.1 a.2.1 a.2.2 s).g_angularVelocityZ =
        s.g_angularVelocityZ * ANGULAR_DAMPING := by
      unfold UpdatePhysics; rw [c3, i3]
    simp only [runPhysics, List.length_cons, pow_succ]
    rw [r1, r2, r3, e1, e2, e3]
    unfold ANGULAR_DAMPING
    refine ⟨by ring, by ring, by ring⟩

/-- C24: CalculateStabilizingTorque returns the zero vector for all orientation
angles and all gravity vectors: the face loop leaves bestAlignment at most
-1.0, so the test bestAlignment > -0.99 fails.  Hence the integration part of
UpdatePhysics only multiplies the angular velocity by ANGULAR_DAMPING = 0.25,
and after a run of n steps none of which detects a collision the angular
velocity is exactly 0.25^n times its initial value. -/
theorem C24_torque_is_always_zero (m : MathLib K) (rand : ℕ → ℕ) (s : CubeState K)
    (gx gy gz : K) (samples : List (ℤ × ℤ × ℤ)) :
    CalculateStabilizingTorque m s gx gy gz = (0, 0, 0) ∧
    (bestFaceScan m s gx gy gz).1 ≤ -1 ∧
    (∀ ax ay az : ℤ,
      (integrateMotion m ax ay az s).g_angularVelocityX = s.g_angularVelocityX * 0.25 ∧
      (integrateMotion m ax ay az s).g_angularVelocityY = s.g_angularVelocityY * 0.25 ∧
      (integrateMotion m ax ay az s).g_angularVelocityZ = s.g_angularVelocityZ * 0.25) ∧
    (collisionFree m rand samples s →
      (runPhysics m rand samples s).g_angularVelocityX =
        0.25 ^ samples.length * s.g_angularVelocityX ∧
      (runPhysics m rand samples s).g_angularVelocityY =
        0.25 ^ samples.length * s.g_angularVelocityY ∧
      (runPhysics m rand samples s).g_angularVelocityZ =
        0.25 ^ samples.length * s.g_angularVelocityZ) :=
  ⟨torque_always_zero m s gx gy gz, bestFaceScan_le m s gx gy gz,
    fun ax ay az => integrateMotion_angularVelocity m ax ay az s,
    runPhysics_angularVelocity m rand samples s⟩

end AngularVelocity

section AxisCorrection

variable {K : Type} [LinearOrderedField K]

end AxisCorrection

section Containment

variable {K : Type} [LinearOrderedField K]

end Containment

section ContactNormal

variable {K : Type} [LinearOrderedField K]

end ContactNormal

/-! ### Instances at the real numbers -/

end Cube3D

/-! ## Theorems: platformer -/

namespace VideoGame

theorem toInt_intCast (n : ℤ) : toInt (n : ℚ) = n := by
  unfold toInt
  split_ifs <;> simp

/-- A property kept by every step of a fold holds at its end. -/
theorem foldl_keeps {α β : Type} (f : β → α → β) (P : β → Prop) (l : List α)
    (h : ∀ c, ∀ x ∈ l, P c → P (f c x)) : ∀ c, P c → P (l.foldl f c) := by
  induction l with
  | nil => intro c hc; exact hc
  | cons x t ih =>
    intro c hc
    rw [List.foldl_cons]
    exact ih (fun c y hy => h c y (List.mem_cons_of_mem x hy)) _
      (h c x (List.mem_cons_self x t) hc)

/-- If every step keeps A and keeps B, and the step at x0 takes A to B, then a
fold over a list containing x0 takes A to B. -/
theorem foldl_reaches {α β : Type} (f : β → α → β) (A B : β → Prop) (l : List α) (x0 : α)
    (hx0 : x0 ∈ l)
    (hA : ∀ c, ∀ x ∈ l, A c → A (f c x)) (hB : ∀ c, ∀ x ∈ l, B c → B (f c x))
    (hAB : ∀ c, A c → B (f c x0)) : ∀ c, A c → B (l.foldl f c) := by
  induction l with
  | nil => simp at hx0
  | cons x t ih =>
    intro c hc
    rw [List.foldl_cons]
    rcases List.mem_cons.mp hx0 with rfl | hmem
    · exact foldl_keeps f B t (fun c y hy => hB c y (List.mem_cons_of_mem _ hy)) _ (hAB c hc)
    · exact ih hmem (fun c y hy => hA c y (List.mem_cons_of_mem x hy))
        (fun c y hy => hB c y (List.mem_cons_of_mem x hy)) _
        (hA c x (List.mem_cons_self x t) hc)

/-- The bottom-contact fields after one pixel that passes the bottom test. -/
theorem pixelStep_bottom_hit (s : GameState) (bitmapX bitmapY height pixelSize : ℤ)
    (c : Contacts) (j i : ℕ) (hvy : s.g_playerVY ≤ 0)
    (h : bottomContact s bitmapX bitmapY height pixelSize j i) :
    (pixelStep s bitmapX bitmapY height pixelSize c j i).collideBottom = true ∧
    (pixelStep s bitmapX bitmapY height pixelSize c j i).bottomCollisionY =
      (if pixelTopOf bitmapY height pixelSize j > c.bottomCollisionY
       then pixelTopOf bitmapY height pixelSize j else c.bottomCollisionY) := by
  have h2 : s.g_playerVY ≤ 0 ∧
      toInt s.g_playerY - CHARACTER_RUN_LEFT_HEIGHT ≥
        bitmapY + (height - 1 - (j : ℤ)) * pixelSize + pixelSize - 8 ∧
      toInt s.g_playerY - CHARACTER_RUN_LEFT_HEIGHT ≤
        bitmapY + (height - 1 - (j : ℤ)) * pixelSize + pixelSize + 5 ∧
      toInt s.g_playerX + CHARACTER_RUN_LEFT_WIDTH > bitmapX + (i : ℤ) * pixelSize ∧
      toInt s.g_playerX < bitmapX + (i : ℤ) * pixelSize + pixelSize := ⟨hvy, h⟩
  unfold pixelStep
  dsimp only
  rw [if_pos h2]
  unfold pixelTopOf
  split_ifs <;> exact ⟨rfl, rfl⟩

/-- The bottom-contact fields are untouched by a pixel that fails the bottom
test. -/
theorem pixelStep_bottom_miss (s : GameState) (bitmapX bitmapY height pixelSize : ℤ)
    (c : Contacts) (j i : ℕ)
    (h : ¬ (s.g_playerVY ≤ 0 ∧ bottomContact s bitmapX bitmapY height pixelSize j i)) :
    (pixelStep s bitmapX bitmapY height pixelSize c j i).collideBottom = c.collideBottom ∧
    (pixelStep s bitmapX bitmapY height pixelSize c j i).bottomCollisionY =
      c.bottomCollisionY := by
  have h2 : ¬ (s.g_playerVY ≤ 0 ∧
      toInt s.g_playerY - CHARACTER_RUN_LEFT_HEIGHT ≥
        bitmapY + (height - 1 - (j : ℤ)) * pixelSize + pixelSize - 8 ∧
      toInt s.g_playerY - CHARACTER_RUN_LEFT_HEIGHT ≤
        bitmapY + (height - 1 - (j : ℤ)) * pixelSize + pixelSize + 5 ∧
      toInt s.g_playerX + CHARACTER_RUN_LEFT_WIDTH > bitmapX + (i : ℤ) * pixelSize ∧
      toInt s.g_playerX < bitmapX + (i : ℤ) * pixelSize + pixelSize) := h
  unfold pixelStep
  dsimp only
  rw [if_neg h2]
  split_ifs <;> exact ⟨rfl, rfl⟩

/-- With a vertical velocity <= 0 no pixel sets the top-contact flag. -/
theorem pixelStep_top (s : GameState) (bitmapX bitmapY height pixelSize : ℤ)
    (c : Contacts) (j i : ℕ) (hvy : s.g_playerVY ≤ 0) :
    (pixelStep s bitmapX bitmapY height pixelSize c j i).collideTop = c.collideTop := by
  have hn : ¬ (s.g_playerVY > 0) := not_lt.mpr hvy
  unfold pixelStep
  dsimp only
  simp only [hn, false_and, if_false]
  split_ifs <;> rfl

/-- A pixel whose top is fewer than playerHeight / 3 = 5 above the feet
produces neither a right nor a left contact. -/
theorem pixelStep_low (s : GameState) (bitmapX bitmapY height pixelSize : ℤ)
    (c : Contacts) (j i : ℕ)
    (h : pixelTopOf bitmapY height pixelSize j - feetOf s < 5) :
    (pixelStep s bitmapX bitmapY height pixelSize c j i).collideRight = c.collideRight ∧
    (pixelStep s bitmapX bitmapY height pixelSize c j i).collideLeft = c.collideLeft ∧
    (pixelStep s bitmapX bitmapY height pixelSize c j i).rightCollisionX = c.rightCollisionX ∧
    (pixelStep s bitmapX bitmapY height pixelSize c j i).leftCollisionX = c.leftCollisionX := by
  have h3 : Int.tdiv CHARACTER_RUN_LEFT_HEIGHT 3 = 5 := by decide
  have h2 : ¬ (bitmapY + (height - 1 - (j : ℤ)) * pixelSize + pixelSize -
      (toInt s.g_playerY - CHARACTER_RUN_LEFT_HEIGHT) ≥ Int.tdiv CHARACTER_RUN_LEFT_HEIGHT 3) := by
    rw [h3]
    unfold pixelTopOf feetOf at h
    omega
  unfold pixelStep
  dsimp only
  simp only [h2, and_false, if_false]
  split_ifs <;> exact ⟨rfl, rfl, rfl, rfl⟩

/-- A property kept by pixelStep at every solid pixel of row j is kept by the
scan of that row. -/
theorem rowScan_keeps (s : GameState) (bitmapX bitmapY : ℤ) (bitmap : ℕ → ℕ)
    (width height pixelSize : ℤ) (P : Contacts → Prop) (j : ℕ)
    (h : ∀ c, ∀ i < width.toNat, solidPixel bitmap width j i = true → P c →
      P (pixelStep s bitmapX bitmapY height pixelSize c j i)) :
    ∀ c, P c → P (rowScan s bitmapX bitmapY bitmap width height pixelSize c j) := by
  unfold rowScan
  apply foldl_keeps
  intro c i hi hc
  split_ifs with hs
  · exact h c i (List.mem_range.mp hi) hs hc
  · exact hc

/-- A property kept by pixelStep at every solid pixel is kept by the pixel
loops; it holds at their end if it holds for the initial flags. -/
theorem bitmapScan_keeps (s : GameState) (bitmapX bitmapY : ℤ) (bitmap : ℕ → ℕ)
    (width height pixelSize : ℤ) (P : Contacts → Prop)
    (h : ∀ c, ∀ j < height.toNat, ∀ i < width.toNat, solidPixel bitmap width j i = true →
      P c → P (pixelStep s bitmapX bitmapY height pixelSize c j i))
    (h0 : P { collideTop := false, collideBottom := false, collideLeft := false,
              collideRight := false, topCollisionY := 0, bottomCollisionY := 0,
              leftCollisionX := 0, rightCollisionX := 0 }) :
    P (bitmapScan s bitmapX bitmapY bitmap width height pixelSize) := by
  unfold bitmapScan
  apply foldl_keeps _ P _ _ _ h0
  intro c j hj hc
  exact rowScan_keeps s bitmapX bitmapY bitmap width height pixelSize P j
    (fun c i hi hs hc => h c j (List.mem_range.mp hj) i hi hs hc) c hc

/-- If pixelStep keeps A and keeps B at every solid pixel and takes A to B at
the solid pixel (j0, i0), the pixel loops take A to B. -/
theorem bitmapScan_reaches (s : GameState) (bitmapX bitmapY : ℤ) (bitmap : ℕ → ℕ)
    (width height pixelSize : ℤ) (A B : Contacts → Prop) (j0 i0 : ℕ)
    (hj0 : j0 < height.toNat) (hi0 : i0 < width.toNat)
    (hs0 : solidPixel bitmap width j0 i0 = true)
    (hA : ∀ c, ∀ j < height.toNat, ∀ i < width.toNat, solidPixel bitmap width j i = true →
      A c → A (pixelStep s bitmapX bitmapY height pixelSize c j i))
    (hB : ∀ c, ∀ j < height.toNat, ∀ i < width.toNat, solidPixel bitmap width j i = true →
      B c → B (pixelStep s bitmapX bitmapY height pixelSize c j i))
    (hAB : ∀ c, A c → B (pixelStep s bitmapX bitmapY height pixelSize c j0 i0))
    (h0 : A { collideTop := false, collideBottom := false, collideLeft := false,
              collideRight := false, topCollisionY := 0, bottomCollisionY := 0,
              leftCollisionX := 0, rightCollisionX := 0 }) :
    B (bitmapScan s bitmapX bitmapY bitmap width height pixelSize) := by
  unfold bitmapScan
  refine foldl_reaches _ A B _ j0 (List.mem_range.mpr hj0) ?_ ?_ ?_ _ h0
  · intro c j hj hc
    exact rowScan_keeps s bitmapX bitmapY bitmap width height pixelSize A j
      (fun c i hi hs hc => hA c j (List.mem_range.mp hj) i hi hs hc) c hc
  · intro c j hj hc
    exact rowScan_keeps s bitmapX bitmapY bitmap width height pixelSize B j
      (fun c i hi hs hc => hB c j (List.mem_range.mp hj) i hi hs hc) c hc
  · intro c hc
    unfold rowScan
    refine foldl_reaches _ A B _ i0 (List.mem_range.mpr hi0) ?_ ?_ ?_ c hc
    · intro c i hi hc
      split_ifs with hs
      · exact hA c j0 hj0 i (List.mem_range.mp hi) hs hc
      · exact hc
    · intro c i hi hc
      split_ifs with hs
      · exact hB c j0 hj0 i (List.mem_range.mp hi) hs hc
      · exact hc
    · intro c hc
      rw [if_pos hs0]
      exact hAB c hc

/-- C8 (amended): landing.  For a call of CheckBitmapCollision that is not cut
short by the bounding-box early exit, with vertical velocity <= 0, in which
the solid pixel (j0, i0) meets the bottom-contact test and has the greatest
pixelTop among the solid pixels that meet it, that pixelTop being >= 0: the
call ends with g_playerY = pixelTop + 17 (the feet exactly at that pixelTop),
the on-ground flag true and vertical velocity -0.01. -/
theorem C8_landing (s : GameState) (bitmapX bitmapY : ℤ) (bitmap : ℕ → ℕ)
    (width height pixelSize : ℤ) (j0 i0 : ℕ)
    (hvy : s.g_playerVY ≤ 0)
    (hmiss : boundingBoxMiss s bitmapX bitmapY width height pixelSize = false)
    (hj0 : j0 < height.toNat) (hi0 : i0 < width.toNat)
    (hs0 : solidPixel bitmap width j0 i0 = true)
    (hc0 : bottomContact s bitmapX bitmapY height pixelSize j0 i0)
    (hmax : ∀ j < height.toNat, ∀ i < width.toNat, solidPixel bitmap width j i = true →
      bottomContact s bitmapX bitmapY height pixelSize j i →
      pixelTopOf bitmapY height pixelSize j ≤ pixelTopOf bitmapY height pixelSize j0)
    (hpos : 0 ≤ pixelTopOf bitmapY height pixelSize j0) :
    (CheckBitmapCollision s bitmapX bitmapY bitmap width height pixelSize).g_playerY =
      ((pixelTopOf bitmapY height pixelSize j0 + 17 : ℤ) : ℚ) ∧
    feetOf (CheckBitmapCollision s bitmapX bitmapY bitmap width height pixelSize) =
      pixelTopOf bitmapY height pixelSize j0 ∧
    (CheckBitmapCollision s bitmapX bitmapY bitmap width height pixelSize).g_isOnGround = true ∧
    (CheckBitmapCollision s bitmapX bitmapY bitmap width height pixelSize).g_playerVY = -0.01 := by
  have hB := bitmapScan_reaches s bitmapX bitmapY bitmap width height pixelSize
    (fun c => c.bottomCollisionY ≤ pixelTopOf bitmapY height pixelSize j0)
    (fun c => c.collideBottom = true ∧
      c.bottomCollisionY = pixelTopOf bitmapY height pixelSize j0)
    j0 i0 hj0 hi0 hs0
    (by
      intro c j hj i hi hs hc
      by_cases hq : s.g_playerVY ≤ 0 ∧ bottomContact s bitmapX bitmapY height pixelSize j i
      · rw [(pixelStep_bottom_hit s bitmapX bitmapY height pixelSize c j i hq.1 hq.2).2]
        split_ifs
        · exact hmax j hj i hi hs hq.2
        · exact hc
      · rw [(pixelStep_bottom_miss s bitmapX bitmapY height pixelSize c j i hq).2]
        exact hc)
    (by
      intro c j hj i hi hs hc
      by_cases hq : s.g_playerVY ≤ 0 ∧ bottomContact s bitmapX bitmapY height pixelSize j i
      · obtain ⟨e1, e2⟩ := pixelStep_bottom_hit s bitmapX bitmapY height pixelSize c j i hq.1 hq.2
        refine ⟨e1, ?_⟩
        rw [e2, hc.2, if_neg (not_lt.mpr (hmax j hj i hi hs hq.2))]
      · obtain ⟨e1, e2⟩ := pixelStep_bottom_miss s bitmapX bitmapY height pixelSize c j i hq
        exact ⟨e1.trans hc.1, e2.trans hc.2⟩)
    (by
      intro c hc
      obtain ⟨e1, e2⟩ := pixelStep_bottom_hit s bitmapX bitmapY height pixelSize c j0 i0 hvy hc0
      refine ⟨e1, ?_⟩
      rw [e2]
      split_ifs with hlt
      · rfl
      · exact le_antisymm hc (not_lt.mp hlt))
    hpos
  have hT := bitmapScan_keeps s bitmapX bitmapY bitmap width height pixelSize
    (fun c => c.collideTop = false)
    (fun c j _ i _ _ hc =>
      (pixelStep_top s bitmapX bitmapY height pixelSize c j i hvy).trans hc)
    rfl
  have hres : (CheckBitmapCollision s bitmapX bitmapY bitmap width height pixelSize).g_playerY =
        ((pixelTopOf bitmapY height pixelSize j0 + 17 : ℤ) : ℚ) ∧
      (CheckBitmapCollision s bitmapX bitmapY bitmap width height pixelSize).g_isOnGround = true ∧
      (CheckBitmapCollision s bitmapX bitmapY bitmap width height pixelSize).g_playerVY
        = -0.01 := by
    unfold CheckBitmapCollision
    rw [hmiss]
    simp only [Bool.false_eq_true, if_false]
    unfold resolveContacts
    dsimp only
    rw [hB.1, hT, hB.2]
    simp only [if_true, Bool.false_eq_true, if_false, CHARACTER_RUN_LEFT_HEIGHT]
    split_ifs <;> exact ⟨rfl, rfl, rfl⟩
  refine ⟨hres.1, ?_, hres.2.1, hres.2.2⟩
  unfold feetOf
  rw [hres.1, toInt_intCast]
  unfold CHARACTER_RUN_LEFT_HEIGHT
  omega

/-- C9 (amended): for a call of CheckBitmapCollision that is not cut short by
the bounding-box early exit and in which no solid pixel meets the
bottom-contact test (vertical velocity <= 0, feet within the window, x-spans
overlapping), the on-ground flag is false when the call returns, whatever it
was before. -/
theorem C9_ground_flag_cleared (s : GameState) (bitmapX bitmapY : ℤ) (bitmap : ℕ → ℕ)
    (width height pixelSize : ℤ)
    (hmiss : boundingBoxMiss s bitmapX bitmapY width height pixelSize = false)
    (hnone : ∀ j < height.toNat, ∀ i < width.toNat, solidPixel bitmap width j i = true →
      ¬ (s.g_playerVY ≤ 0 ∧ bottomContact s bitmapX bitmapY height pixelSize j i)) :
    (CheckBitmapCollision s bitmapX bitmapY bitmap width height pixelSize).g_isOnGround
      = false := by
  have hB := bitmapScan_keeps s bitmapX bitmapY bitmap width height pixelSize
    (fun c => c.collideBottom = false)
    (fun c j hj i hi hs hc =>
      (pixelStep_bottom_miss s bitmapX bitmapY height pixelSize c j i
        (hnone j hj i hi hs)).1.trans hc)
    rfl
  unfold CheckBitmapCollision
  rw [hmiss]
  simp only [Bool.false_eq_true, if_false]
  unfold resolveContacts
  dsimp only
  rw [hB]
  simp only [Bool.false_eq_true, if_false]
  split_ifs <;> rfl

/-- C10: low bumps do not block.  When every solid pixel of the bitmap has its
top fewer than playerHeight / 3 = 5 pixels above the player's feet,
CheckBitmapCollision leaves g_playerX and the horizontal velocity unchanged. -/
theorem C10_low_bumps_do_not_block (s : GameState) (bitmapX bitmapY : ℤ) (bitmap : ℕ → ℕ)
    (width height pixelSize : ℤ)
    (hlow : ∀ j < height.toNat, ∀ i < width.toNat, solidPixel bitmap width j i = true →
      pixelTopOf bitmapY height pixelSize j - feetOf s < 5) :
    (CheckBitmapCollision s bitmapX bitmapY bitmap width height pixelSize).g_playerX
      = s.g_playerX ∧
    (CheckBitmapCollision s bitmapX bitmapY bitmap width height pixelSize).g_playerVX
      = s.g_playerVX := by
  have hS := bitmapScan_keeps s bitmapX bitmapY bitmap width height pixelSize
    (fun c => c.collideRight = false ∧ c.collideLeft = false)
    (fun c j hj i hi hs hc => by
      obtain ⟨e1, e2, _, _⟩ := pixelStep_low s bitmapX bitmapY height pixelSize c j i
        (hlow j hj i hi hs)
      exact ⟨e1.trans hc.1, e2.trans hc.2⟩)
    ⟨rfl, rfl⟩
  unfold CheckBitmapCollision
  split_ifs
  · exact ⟨rfl, rfl⟩
  · unfold resolveContacts
    dsimp only
    rw [hS.1, hS.2]
    simp only [Bool.false_eq_true, if_false]
    split_ifs <;> exact ⟨rfl, rfl⟩

/-- C8 instance: a player one pixel above a solid bottom row, falling, lands on it. -/
theorem C8_landing_witness :
    (playerAt 1 19 0 (-2) false).g_playerVY ≤ 0 ∧
    bottomContact (playerAt 1 19 0 (-2) false) 0 0 2 1 1 1 ∧
    (CheckBitmapCollision (playerAt 1 19 0 (-2) false) 0 0
      (fun k => if k = 2 ∨ k = 3 then 255 else 0) 16 2 1).g_playerY = 18 ∧
    (CheckBitmapCollision (playerAt 1 19 0 (-2) false) 0 0
      (fun k => if k = 2 ∨ k = 3 then 255 else 0) 16 2 1).g_isOnGround = true := by
  have hvy : (playerAt 1 19 0 (-2) false).g_playerVY ≤ 0 := by decide
  have hc0 : bottomContact (playerAt 1 19 0 (-2) false) 0 0 2 1 1 1 := by decide
  have h := C8_landing (playerAt 1 19 0 (-2) false) 0 0
    (fun k => if k = 2 ∨ k = 3 then 255 else 0) 16 2 1 1 1 hvy (by decide) (by decide)
    (by decide) (by decide) hc0 (by decide) (by decide)
  refine ⟨hvy, hc0, ?_, h.2.2.1⟩
  rw [h.1]
  norm_num [pixelTopOf]

/-- C8 as stated fails: a solid pixel in the top row of the 128 x 128 bitmap
meets the bottom-contact test for a player whose feet are 2 above it, yet the
call takes the early exit and returns the state unchanged: on-ground flag
false, vertical velocity 0. -/
theorem C8_early_exit_skips_landing :
    (playerAt 0 147 0 0 false).g_playerVY ≤ 0 ∧
    solidPixel (fun k => if k = 0 then 128 else 0) 128 0 0 = true ∧
    bottomContact (playerAt 0 147 0 0 false) 0 0 128 1 0 0 ∧
    CheckBitmapCollision (playerAt 0 147 0 0 false) 0 0
      (fun k => if k = 0 then 128 else 0) 128 128 1 = playerAt 0 147 0 0 false ∧
    (CheckBitmapCollision (playerAt 0 147 0 0 false) 0 0
      (fun k => if k = 0 then 128 else 0) 128 128 1).g_isOnGround = false := by
  have hm : boundingBoxMiss (playerAt 0 147 0 0 false) 0 0 128 128 1 = true := by decide
  have hr : CheckBitmapCollision (playerAt 0 147 0 0 false) 0 0
      (fun k => if k = 0 then 128 else 0) 128 128 1 = playerAt 0 147 0 0 false := by
    unfold CheckBitmapCollision
    rw [hm]
    rfl
  refine ⟨by decide, by decide, by decide, hr, ?_⟩
  rw [hr]
  rfl

/-- C9 instance: a player moving upward inside the bitmap loses the flag. -/
theorem C9_ground_flag_cleared_witness :
    boundingBoxMiss (playerAt 60 80 0 6 true) 0 0 128 128 1 = false ∧
    (CheckBitmapCollision (playerAt 60 80 0 6 true) 0 0 (fun _ => 255) 128 128 1).g_isOnGround
      = false := by
  have hm : boundingBoxMiss (playerAt 60 80 0 6 true) 0 0 128 128 1 = false := by decide
  refine ⟨hm, C9_ground_flag_cleared _ 0 0 (fun _ => 255) 128 128 1 hm ?_⟩
  intro j _ i _ _ h
  have : ¬ ((playerAt 60 80 0 6 true).g_playerVY ≤ 0) := by decide
  exact this h.1

/-- C9 as stated fails: for a player to the right of the 128 x 128 bitmap no
pixel meets the bottom-contact test, yet the call takes the early exit and the
on-ground flag keeps its prior value true. -/
theorem C9_early_exit_keeps_ground_flag :
    (∀ j i : ℕ, i < 128 → ¬ bottomContact (playerAt 200 64 0 0 true) 0 0 128 1 j i) ∧
    (CheckBitmapCollision (playerAt 200 64 0 0 true) 0 0 (fun _ => 255) 128 128 1).g_isOnGround
      = true := by
  have hx : toInt (playerAt 200 64 0 0 true).g_playerX = 200 := by decide
  have hm : boundingBoxMiss (playerAt 200 64 0 0 true) 0 0 128 128 1 = true := by decide
  constructor
  · intro j i hi h
    have h4 := h.2.2.2
    rw [hx] at h4
    omega
  · unfold CheckBitmapCollision
    rw [hm]
    rfl

/-- C10 instance: a player standing on a solid row and moving right into a
one-pixel bump at its right edge keeps position and horizontal velocity. -/
theorem C10_low_bumps_do_not_block_witness :
    solidPixel (fun k => if k = 1 then 2 else if k = 2 ∨ k = 3 then 255 else 0) 16 0 14 = true ∧
    (CheckBitmapCollision (playerAt 1 18 2 0 true) 0 0
      (fun k => if k = 1 then 2 else if k = 2 ∨ k = 3 then 255 else 0) 16 2 1).g_playerX = 1 ∧
    (CheckBitmapCollision (playerAt 1 18 2 0 true) 0 0
      (fun k => if k = 1 then 2 else if k = 2 ∨ k = 3 then 255 else 0) 16 2 1).g_playerVX = 2 :=
  ⟨by decide,
   C10_low_bumps_do_not_block (playerAt 1 18 2 0 true) 0 0
    (fun k => if k = 1 then 2 else if k = 2 ∨ k = 3 then 255 else 0) 16 2 1 (by decide)⟩

/-! ### Level tables, reset and the per-frame player update -/

theorem overlap_iff_cell (a aw b bw : ℤ) (haw : 0 < aw) (hbw : 0 < bw) :
    (a < b + bw ∧ a + aw > b) ↔ ∃ c : ℤ, (a ≤ c ∧ c < a + aw) ∧ (b ≤ c ∧ c < b + bw) := by
  constructor
  · rintro ⟨h1, h2⟩
    refine ⟨max a b, ⟨le_max_left a b, ?_⟩, ⟨le_max_right a b, ?_⟩⟩
    · rcases max_cases a b with ⟨h, _⟩ | ⟨h, _⟩ <;> omega
    · rcases max_cases a b with ⟨h, _⟩ | ⟨h, _⟩ <;> omega
  · rintro ⟨c, ⟨h1, h2⟩, ⟨h3, h4⟩⟩
    omega

theorem killboxOverlap_iff (s : GameState) (k : Killbox) :
    killboxOverlap s k = true ↔ playerRectMeets s k.x k.y k.width k.height := by
  unfold killboxOverlap playerRectMeets
  simp only [decide_eq_true_eq]

theorem doorOverlap_iff (s : GameState) (d : Door) :
    doorOverlap s d = true ↔ playerRectMeets s d.x d.y d.width d.height := by
  unfold doorOverlap playerRectMeets
  simp only [decide_eq_true_eq]

theorem enemyOverlap_iff (s : GameState) (e : Enemy) :
    enemyOverlap s e = true ↔
      playerRectMeets s (toInt e.x) (toInt e.y - CHARACTER_RUN_LEFT_HEIGHT)
        CHARACTER_RUN_LEFT_WIDTH CHARACTER_RUN_LEFT_HEIGHT := by
  unfold enemyOverlap playerRectMeets
  simp only [decide_eq_true_eq]

theorem playerRectMeets_iff_sharesCell (s : GameState) (x y w h : ℤ) (hw : 0 < w) (hh : 0 < h) :
    playerRectMeets s x y w h ↔
      sharesCell (toInt s.g_playerX) (toInt s.g_playerY - 17) 13 17 x y w h := by
  unfold playerRectMeets sharesCell CHARACTER_RUN_LEFT_WIDTH CHARACTER_RUN_LEFT_HEIGHT
  constructor
  · rintro ⟨h1, h2, h3, h4⟩
    obtain ⟨cx, hcx1, hcx2⟩ := (overlap_iff_cell (toInt s.g_playerX) 13 x w (by norm_num) hw).mp
      ⟨h1, h2⟩
    obtain ⟨cy, hcy1, hcy2⟩ := (overlap_iff_cell (toInt s.g_playerY - 17) 17 y h (by norm_num)
      hh).mp ⟨h3, h4⟩
    exact ⟨cx, cy, hcx1, hcx2, hcy1, hcy2⟩
  · rintro ⟨cx, cy, hcx1, hcx2, hcy1, hcy2⟩
    omega

theorem checkKillboxEntry_iff (s : GameState) :
    CheckKillboxEntry s = true ↔
      ∃ k ∈ s.g_killboxes, playerRectMeets s k.x k.y k.width k.height := by
  unfold CheckKillboxEntry
  rw [List.any_eq_true]
  constructor
  · rintro ⟨k, hk, h⟩
    exact ⟨k, hk, (killboxOverlap_iff s k).mp h⟩
  · rintro ⟨k, hk, h⟩
    exact ⟨k, hk, (killboxOverlap_iff s k).mpr h⟩

theorem checkPlayerEnemyCollision_iff (s : GameState) :
    CheckPlayerEnemyCollision s = true ↔
      ∃ e ∈ s.g_enemies, playerRectMeets s (toInt e.x) (toInt e.y - CHARACTER_RUN_LEFT_HEIGHT)
        CHARACTER_RUN_LEFT_WIDTH CHARACTER_RUN_LEFT_HEIGHT := by
  unfold CheckPlayerEnemyCollision
  rw [List.any_eq_true]
  constructor
  · rintro ⟨k, hk, h⟩
    exact ⟨k, hk, (enemyOverlap_iff s k).mp h⟩
  · rintro ⟨k, hk, h⟩
    exact ⟨k, hk, (enemyOverlap_iff s k).mpr h⟩

/-- C11: for every player position and every killbox table whose boxes have
positive width and height, CheckKillboxEntry returns true if and only if some
registered killbox [x, x+width) x [y, y+height) shares at least one unit cell
with the player's rectangle [px, px+13) x [py-17, py), px and py being the
truncated player position.  The function returns a value only: it writes no
variable. -/
theorem C11_killbox_overlap_exact (s : GameState)
    (hpos : ∀ k ∈ s.g_killboxes, 0 < k.width ∧ 0 < k.height) :
    CheckKillboxEntry s = true ↔
      ∃ k ∈ s.g_killboxes,
        sharesCell (toInt s.g_playerX) (toInt s.g_playerY - 17) 13 17 k.x k.y k.width k.height := by
  rw [checkKillboxEntry_iff]
  constructor
  · rintro ⟨k, hk, h⟩
    exact ⟨k, hk, (playerRectMeets_iff_sharesCell s k.x k.y k.width k.height (hpos k hk).1
      (hpos k hk).2).mp h⟩
  · rintro ⟨k, hk, h⟩
    exact ⟨k, hk, (playerRectMeets_iff_sharesCell s k.x k.y k.width k.height (hpos k hk).1
      (hpos k hk).2).mpr h⟩

/-- C11 instance: the player at (20, 30) has the rectangle [20, 33) x [13, 30).
The killbox (32, 29, 5, 5) shares exactly the cell (32, 29) with it, and the
killbox (0, 0, 127, 30) contains it; CheckKillboxEntry returns true for each,
and false for the killbox (33, 30, 5, 5) that only touches the corner. -/
theorem C11_killbox_overlap_exact_witness :
    (∀ k ∈ ({ playerAt 20 30 0 0 false with g_killboxes := [⟨32, 29, 5, 5⟩] }).g_killboxes,
      0 < k.width ∧ 0 < k.height) ∧
    CheckKillboxEntry { playerAt 20 30 0 0 false with g_killboxes := [⟨32, 29, 5, 5⟩] } = true ∧
    sharesCell 20 13 13 17 32 29 5 5 ∧
    CheckKillboxEntry { playerAt 20 30 0 0 false with g_killboxes := [⟨0, 0, 127, 30⟩] } = true ∧
    CheckKillboxEntry { playerAt 20 30 0 0 false with g_killboxes := [⟨33, 30, 5, 5⟩] } = false := by
  have hpos : ∀ k ∈ ({ playerAt 20 30 0 0 false with
      g_killboxes := [⟨32, 29, 5, 5⟩] }).g_killboxes, 0 < k.width ∧ 0 < k.height := by
    intro k hk
    simp only [List.mem_singleton] at hk
    subst hk
    decide
  have hcell : sharesCell 20 13 13 17 32 29 5 5 := ⟨32, 29, by decide⟩
  refine ⟨hpos, ?_, hcell, by decide, by decide⟩
  exact (C11_killbox_overlap_exact _ hpos).mpr ⟨⟨32, 29, 5, 5⟩, by simp, by
    have h20 : toInt (20 : ℚ) = 20 := by decide
    have h30 : toInt (30 : ℚ) = 30 := by decide
    show sharesCell (toInt 20) (toInt 30 - 17) 13 17 32 29 5 5
    rw [h20, h30]
    exact hcell⟩

/-- The door loop, in terms of the first door of the list that the player's
rectangle meets and whose target differs from the current level. -/
theorem doorLoop_eq_find (s : GameState) (l : List Door) :
    doorLoop s l =
      match l.find? (fun d => doorOverlap s d && decide (d.targetMap ≠ s.g_currentMapFrame)) with
      | some d => (true, { s with g_currentMapFrame := d.targetMap })
      | none => (false, s) := by
  induction l with
  | nil => rfl
  | cons d rest ih =>
    unfold doorLoop
    by_cases ho : doorOverlap s d = true
    · by_cases ht : s.g_currentMapFrame ≠ d.targetMap
      · have hp : (doorOverlap s d && decide (d.targetMap ≠ s.g_currentMapFrame)) = true := by
          simp [ho, Ne.symm ht]
        rw [if_pos ho, if_pos ht]
        simp only [List.find?_cons, hp]
      · have hp : (doorOverlap s d && decide (d.targetMap ≠ s.g_currentMapFrame)) = false := by
          have : d.targetMap = s.g_currentMapFrame := (not_not.mp ht).symm
          simp [this]
        rw [if_pos ho, if_neg ht, ih]
        simp only [List.find?_cons, hp]
    · have hp : (doorOverlap s d && decide (d.targetMap ≠ s.g_currentMapFrame)) = false := by
        simp [ho]
      rw [if_neg ho, ih]
      simp only [List.find?_cons, hp]

/-- CheckDoorEntry returns true exactly when some door passes both tests. -/
theorem checkDoorEntry_true_iff (s : GameState) :
    (CheckDoorEntry s).1 = true ↔
      ∃ d ∈ s.g_doors, playerRectMeets s d.x d.y d.width d.height ∧
        d.targetMap ≠ s.g_currentMapFrame := by
  unfold CheckDoorEntry
  rw [doorLoop_eq_find]
  cases hf : s.g_doors.find? (fun d => doorOverlap s d &&
      decide (d.targetMap ≠ s.g_currentMapFrame)) with
  | none =>
    simp only [Bool.false_eq_true, false_iff]
    rintro ⟨d, hd, hm, ht⟩
    have := List.find?_eq_none.mp hf d hd
    simp [(doorOverlap_iff s d).mpr hm, ht] at this
  | some d =>
    simp only [true_iff]
    have h1 := List.find?_some hf
    have h2 := List.mem_of_find?_eq_some hf
    simp only [Bool.and_eq_true, decide_eq_true_eq] at h1
    exact ⟨d, h2, (doorOverlap_iff s d).mp h1.1, h1.2⟩

/-- A call of CheckDoorEntry that returns false leaves the state as it was. -/
theorem checkDoorEntry_false (s : GameState) (h : (CheckDoorEntry s).1 = false) :
    (CheckDoorEntry s).2 = s := by
  unfold CheckDoorEntry at h ⊢
  rw [doorLoop_eq_find] at h ⊢
  cases hf : s.g_doors.find? (fun d => doorOverlap s d &&
      decide (d.targetMap ≠ s.g_currentMapFrame)) with
  | none => rfl
  | some d => rw [hf] at h; simp at h

/-- A call of CheckDoorEntry that returns true has set the level index to the
target of a registered door, and nothing else. -/
theorem checkDoorEntry_true (s : GameState) (h : (CheckDoorEntry s).1 = true) :
    ∃ d ∈ s.g_doors, (CheckDoorEntry s).2 = { s with g_currentMapFrame := d.targetMap } := by
  unfold CheckDoorEntry at h ⊢
  rw [doorLoop_eq_find] at h ⊢
  cases hf : s.g_doors.find? (fun d => doorOverlap s d &&
      decide (d.targetMap ≠ s.g_currentMapFrame)) with
  | none => rw [hf] at h; simp at h
  | some d => exact ⟨d, List.mem_of_find?_eq_some hf, rfl⟩

/-- C13: CheckDoorEntry changes the level index exactly when the player's
rectangle meets a registered door whose targetMap differs from the current
level.  In that case the level becomes the targetMap of the first such door in
table order, nothing else changes and the function returns true; in every
other case the state is unchanged and the function returns false. -/
theorem C13_door_entry (s : GameState) :
    (CheckDoorEntry s =
      match s.g_doors.find?
        (fun d => decide (playerRectMeets s d.x d.y d.width d.height) &&
          decide (d.targetMap ≠ s.g_currentMapFrame)) with
      | some d => (true, { s with g_currentMapFrame := d.targetMap })
      | none => (false, s)) ∧
    ((CheckDoorEntry s).1 = true ↔
      ∃ d ∈ s.g_doors, playerRectMeets s d.x d.y d.width d.height ∧
        d.targetMap ≠ s.g_currentMapFrame) ∧
    ((CheckDoorEntry s).2.g_currentMapFrame ≠ s.g_currentMapFrame ↔
      ∃ d ∈ s.g_doors, playerRectMeets s d.x d.y d.width d.height ∧
        d.targetMap ≠ s.g_currentMapFrame) := by
  have hfun : (fun d : Door => decide (playerRectMeets s d.x d.y d.width d.height) &&
      decide (d.targetMap ≠ s.g_currentMapFrame)) =
      (fun d => doorOverlap s d && decide (d.targetMap ≠ s.g_currentMapFrame)) := by
    funext d
    rfl
  refine ⟨?_, checkDoorEntry_true_iff s, ?_⟩
  · rw [hfun]
    exact doorLoop_eq_find s s.g_doors
  · rw [← checkDoorEntry_true_iff]
    unfold CheckDoorEntry
    rw [doorLoop_eq_find]
    cases hf : s.g_doors.find? (fun d => doorOverlap s d &&
        decide (d.targetMap ≠ s.g_currentMapFrame)) with
    | none => simp
    | some d =>
      have h1 := List.find?_some hf
      simp only [Bool.and_eq_true, decide_eq_true_eq] at h1
      simp [h1.2]

/-- The position, the speed bound and the direction after enemyStep, and what
it leaves alone. -/
theorem enemyStep_patrol (e : Enemy) (h12 : e.x1 ≤ e.x2) (hs : 0 ≤ e.speed)
    (hd : e.direction = 1 ∨ e.direction = -1) (hx1 : e.x1 ≤ e.x) (hx2 : e.x ≤ e.x2) :
    e.x1 ≤ (enemyStep e).x ∧ (enemyStep e).x ≤ e.x2 ∧
    |(enemyStep e).x - e.x| ≤ e.speed ∧
    (e.x + (e.direction : ℚ) * e.speed ≤ e.x1 → (enemyStep e).direction = 1) ∧
    (¬ e.x + (e.direction : ℚ) * e.speed ≤ e.x1 → e.x + (e.direction : ℚ) * e.speed ≥ e.x2 →
      (enemyStep e).direction = -1) ∧
    (¬ e.x + (e.direction : ℚ) * e.speed ≤ e.x1 → ¬ e.x + (e.direction : ℚ) * e.speed ≥ e.x2 →
      (enemyStep e).direction = e.direction) ∧
    (enemyStep e).y = e.y ∧ (enemyStep e).x1 = e.x1 ∧ (enemyStep e).x2 = e.x2 ∧
    (enemyStep e).speed = e.speed := by
  have hmove : |e.x + (e.direction : ℚ) * e.speed - e.x| ≤ e.speed := by
    rcases hd with h | h <;> rw [h] <;> simp [abs_of_nonneg hs]
  have hlo : e.x - e.speed ≤ e.x + (e.direction : ℚ) * e.speed := by
    rcases hd with h | h <;> rw [h] <;> simp; linarith
  have hhi : e.x + (e.direction : ℚ) * e.speed ≤ e.x + e.speed := by
    rcases hd with h | h <;> rw [h] <;> simp; linarith
  unfold enemyStep
  dsimp only
  by_cases ha : e.x + (e.direction : ℚ) * e.speed ≤ e.x1
  · rw [if_pos ha]
    refine ⟨le_refl _, h12, ?_, fun _ => rfl, fun h => absurd ha h, fun h => absurd ha h,
      rfl, rfl, rfl, rfl⟩
    rw [abs_le]
    constructor <;> linarith
  · rw [if_neg ha]
    by_cases hb : e.x + (e.direction : ℚ) * e.speed ≥ e.x2
    · rw [if_pos hb]
      refine ⟨h12, le_refl _, ?_, fun h => absurd h ha, fun _ _ => rfl, fun _ h => absurd hb h,
        rfl, rfl, rfl, rfl⟩
      rw [abs_le]
      constructor <;> linarith
    · rw [if_neg hb]
      exact ⟨le_of_lt (not_le.mp ha), le_of_lt (not_le.mp hb), hmove, fun h => absurd h ha,
        fun _ h => absurd h hb, fun _ _ => rfl, rfl, rfl, rfl, rfl⟩

/-- C14 (amended): for every enemy in use with x1 <= x2, speed >= 0, direction
in {1, -1} and x1 <= x <= x2, one UpdateEnemyPhysics leaves it at a position
x' with x1 <= x' <= x2 and |x' - x| <= speed; its direction becomes 1 when the
unclamped move reaches or passes x1, becomes -1 when the move does not reach
x1 and reaches or passes x2, and is otherwise unchanged; y, x1, x2 and speed
are not modified. -/
theorem C14_enemy_patrol (s : GameState) (i : ℕ) (e : Enemy)
    (hi : s.g_enemies[i]? = some e)
    (h12 : e.x1 ≤ e.x2) (hs : 0 ≤ e.speed)
    (hd : e.direction = 1 ∨ e.direction = -1) (hx1 : e.x1 ≤ e.x) (hx2 : e.x ≤ e.x2) :
    ∃ e2 : Enemy, (UpdateEnemyPhysics s).g_enemies[i]? = some e2 ∧
      e.x1 ≤ e2.x ∧ e2.x ≤ e.x2 ∧ |e2.x - e.x| ≤ e.speed ∧
      (e.x + (e.direction : ℚ) * e.speed ≤ e.x1 → e2.direction = 1) ∧
      (¬ e.x + (e.direction : ℚ) * e.speed ≤ e.x1 →
        e.x + (e.direction : ℚ) * e.speed ≥ e.x2 → e2.direction = -1) ∧
      (¬ e.x + (e.direction : ℚ) * e.speed ≤ e.x1 →
        ¬ e.x + (e.direction : ℚ) * e.speed ≥ e.x2 → e2.direction = e.direction) ∧
      e2.y = e.y ∧ e2.x1 = e.x1 ∧ e2.x2 = e.x2 ∧ e2.speed = e.speed := by
  refine ⟨enemyStep e, ?_, enemyStep_patrol e h12 hs hd hx1 hx2⟩
  unfold UpdateEnemyPhysics
  simp [List.getElem?_map, hi]

/-- C14 instance: the enemy of map 3, at x = 78.5 moving right between 63 and
79 with speed 1, arrives at x = 79 and turns left. -/
theorem C14_enemy_patrol_witness :
    ({ playerAt 0 0 0 0 false with
        g_enemies := [⟨78.5, 55, 63, 79, 1, 1, 0, -1, -1, true⟩] }).g_enemies[0]? =
      some ⟨78.5, 55, 63, 79, 1, 1, 0, -1, -1, true⟩ ∧
    ∃ e2 : Enemy, (UpdateEnemyPhysics { playerAt 0 0 0 0 false with
        g_enemies := [⟨78.5, 55, 63, 79, 1, 1, 0, -1, -1, true⟩] }).g_enemies[0]? = some e2 ∧
      e2.x = 79 ∧ e2.direction = -1 := by
  refine ⟨rfl, ?_⟩
  obtain ⟨e2, h1, _, h3, _, _, h6, _⟩ := C14_enemy_patrol
    { playerAt 0 0 0 0 false with g_enemies := [⟨78.5, 55, 63, 79, 1, 1, 0, -1, -1, true⟩] }
    0 ⟨78.5, 55, 63, 79, 1, 1, 0, -1, -1, true⟩ rfl (by norm_num) (by norm_num)
    (Or.inl rfl) (by norm_num) (by norm_num)
  refine ⟨e2, h1, ?_, h6 (by norm_num) (by norm_num)⟩
  norm_num [UpdateEnemyPhysics, enemyStep, playerAt] at h1
  rw [← h1]

/-- C14 as stated fails: an enemy with x1 = x2 = x = 5, speed 0 and direction
-1 satisfies the hypotheses, its unclamped move 5 reaches x2, and
UpdateEnemyPhysics sets its direction to 1, not -1. -/
theorem C14_degenerate_patrol_turns_right :
    ((5 : ℚ) ≤ 5 ∧ (0 : ℚ) ≤ 0 ∧ ((-1 : ℤ) = 1 ∨ (-1 : ℤ) = -1)) ∧
    ((5 : ℚ) + ((-1 : ℤ) : ℚ) * 0 ≥ 5) ∧
    (UpdateEnemyPhysics { playerAt 0 0 0 0 false with
        g_enemies := [⟨5, 0, 5, 5, 0, -1, 0, -1, -1, true⟩] }).g_enemies.map
      (fun e => e.direction) = [1] := by
  refine ⟨⟨le_refl _, le_refl _, Or.inr rfl⟩, by norm_num, ?_⟩
  simp [UpdateEnemyPhysics, enemyStep, playerAt]

theorem applyTableOp_capacity (s : GameState) (op : TableOp) (h : tablesWithinCapacity s) :
    tablesWithinCapacity (applyTableOp s op) := by
  obtain ⟨hk, hd, he⟩ := h
  cases op with
  | clearKillboxes => exact ⟨Nat.zero_le _, hd, he⟩
  | clearDoors => exact ⟨hk, Nat.zero_le _, he⟩
  | clearEnemies => exact ⟨hk, hd, Nat.zero_le _⟩
  | addKillbox x y width height =>
    unfold applyTableOp AddKillbox tablesWithinCapacity
    split_ifs with hc
    · refine ⟨?_, hd, he⟩
      simp only [List.length_append, List.length_singleton]
      omega
    · exact ⟨hk, hd, he⟩
  | addDoor x y width height targetMap =>
    unfold applyTableOp AddDoor tablesWithinCapacity
    split_ifs with hc
    · refine ⟨hk, ?_, he⟩
      simp only [List.length_append, List.length_singleton]
      omega
    · exact ⟨hk, hd, he⟩
  | addEnemy x y x1 x2 speed initialDirection =>
    unfold applyTableOp AddEnemy tablesWithinCapacity
    split_ifs with hc
    · refine ⟨hk, hd, ?_⟩
      simp only [List.length_append, List.length_singleton]
      omega
    · exact ⟨hk, hd, he⟩

theorem applyTableOps_capacity (ops : List TableOp) :
    ∀ s : GameState, tablesWithinCapacity s → tablesWithinCapacity (applyTableOps s ops) := by
  induction ops with
  | nil => intro s h; exact h
  | cons op rest ih =>
    intro s h
    exact ih _ (applyTableOp_capacity s op h)

/-- C15: bounded tables with silent drop.  Called on a full table (count 10, 5,
8), AddKillbox, AddDoor and AddEnemy return the state unchanged; called on a
table that is not full they store the new record at index count, leave the
earlier records as they were and increase the count by one.  From a state
whose counts are within 10, 5 and 8 (all three are 0 at start-up), any
sequence of Clear and Add calls ends with counts within 10, 5 and 8, so every
write index is within its array. -/
theorem C15_bounded_tables (s : GameState) (ops : List TableOp)
    (h0 : tablesWithinCapacity s) :
    (∀ x y width height : ℤ, s.g_killboxes.length = 10 → AddKillbox s x y width height = s) ∧
    (∀ x y width height targetMap : ℤ, s.g_doors.length = 5 →
      AddDoor s x y width height targetMap = s) ∧
    (∀ (x y x1 x2 speed : ℚ) (dir : ℤ), s.g_enemies.length = 8 →
      AddEnemy s x y x1 x2 speed dir = s) ∧
    (∀ x y width height : ℤ, s.g_killboxes.length < 10 →
      (AddKillbox s x y width height).g_killboxes = s.g_killboxes ++ [⟨x, y, width, height⟩] ∧
      (AddKillbox s x y width height).g_killboxes[s.g_killboxes.length]? =
        some ⟨x, y, width, height⟩ ∧
      (AddKillbox s x y width height).g_killboxes.length = s.g_killboxes.length + 1) ∧
    (∀ x y width height targetMap : ℤ, s.g_doors.length < 5 →
      (AddDoor s x y width height targetMap).g_doors =
        s.g_doors ++ [⟨x, y, width, height, targetMap⟩] ∧
      (AddDoor s x y width height targetMap).g_doors[s.g_doors.length]? =
        some ⟨x, y, width, height, targetMap⟩ ∧
      (AddDoor s x y width height targetMap).g_doors.length = s.g_doors.length + 1) ∧
    (∀ (x y x1 x2 speed : ℚ) (dir : ℤ), s.g_enemies.length < 8 →
      (AddEnemy s x y x1 x2 speed dir).g_enemies =
        s.g_enemies ++ [⟨x, y, x1, x2, speed, dir, 0, -1, -1, true⟩] ∧
      (AddEnemy s x y x1 x2 speed dir).g_enemies[s.g_enemies.length]? =
        some ⟨x, y, x1, x2, speed, dir, 0, -1, -1, true⟩ ∧
      (AddEnemy s x y x1 x2 speed dir).g_enemies.length = s.g_enemies.length + 1) ∧
    (applyTableOps s ops).g_killboxes.length ≤ 10 ∧
    (applyTableOps s ops).g_doors.length ≤ 5 ∧
    (applyTableOps s ops).g_enemies.length ≤ 8 := by
  refine ⟨?_, ?_, ?_, ?_, ?_, ?_, applyTableOps_capacity ops s h0⟩
  · intro x y width height h
    unfold AddKillbox MAX_KILLBOXES
    rw [if_neg (by omega)]
  · intro x y width height targetMap h
    unfold AddDoor MAX_DOORS
    rw [if_neg (by omega)]
  · intro x y x1 x2 speed dir h
    unfold AddEnemy MAX_ENEMIES
    rw [if_neg (by omega)]
  · intro x y width height h
    unfold AddKillbox MAX_KILLBOXES
    rw [if_pos h]
    simp
  · intro x y width height targetMap h
    unfold AddDoor MAX_DOORS
    rw [if_pos h]
    simp
  · intro x y x1 x2 speed dir h
    unfold AddEnemy MAX_ENEMIES
    rw [if_pos h]
    simp

/-- C15 instance: from the empty tables, eleven AddKillbox calls leave ten
killboxes. -/
theorem C15_bounded_tables_witness :
    tablesWithinCapacity (playerAt 0 0 0 0 false) ∧
    (applyTableOps (playerAt 0 0 0 0 false)
      (List.replicate 11 (TableOp.addKillbox 1 2 3 4))).g_killboxes.length ≤ 10 ∧
    (applyTableOps (playerAt 0 0 0 0 false)
      (List.replicate 11 (TableOp.addKillbox 1 2 3 4))).g_killboxes.length = 10 := by
  have h0 : tablesWithinCapacity (playerAt 0 0 0 0 false) := by
    unfold tablesWithinCapacity
    decide
  exact ⟨h0, (C15_bounded_tables _ (List.replicate 11 (TableOp.addKillbox 1 2 3 4)) h0).2.2.2.2.2.2.1,
    by decide⟩

theorem integratePlayer_levelData (s : GameState) (inp : FrameInput) :
    levelData (integratePlayer s inp) = levelData s := by
  unfold integratePlayer
  lift_lets
  extract_lets a1 a2 a3 a4 a5 a6 a7 a8
  have h1 : levelData a1 = levelData s := by
    simp only [a1]
    split_ifs <;> rfl
  have h2 : levelData a2 = levelData a1 := by
    simp only [a2]
    split_ifs <;> rfl
  have h3 : levelData a3 = levelData a2 := by
    simp only [a3]
    split_ifs <;> rfl
  have h4 : levelData a4 = levelData a2 := by
    simp only [a4]
    split_ifs
    · exact h3
    · rfl
  have h5 : levelData a5 = levelData a4 := by
    simp only [a5]
    split_ifs <;> rfl
  have h7 : levelData a7 = levelData a5 := by
    simp only [a7, a6]
    split_ifs <;> rfl
  have h8 : levelData a8 = levelData a7 := rfl
  show levelData a8 = levelData s
  rw [h8, h7, h5, h4, h2, h1]

theorem integratePlayer_tables (s : GameState) (inp : FrameInput) :
    (integratePlayer s inp).g_currentMapFrame = s.g_currentMapFrame ∧
    (integratePlayer s inp).g_doors = s.g_doors ∧
    (integratePlayer s inp).g_killboxes = s.g_killboxes ∧
    (integratePlayer s inp).g_enemies = s.g_enemies := by
  have h := integratePlayer_levelData s inp
  unfold levelData at h
  simp only [Prod.mk.injEq] at h
  exact h

theorem AddDoor_frame (s : GameState) (x y width height targetMap : ℤ) :
    (AddDoor s x y width height targetMap).g_currentMapFrame = s.g_currentMapFrame := by
  unfold AddDoor
  split_ifs <;> rfl

theorem AddKillbox_frame (s : GameState) (x y width height : ℤ) :
    (AddKillbox s x y width height).g_currentMapFrame = s.g_currentMapFrame := by
  unfold AddKillbox
  split_ifs <;> rfl

theorem AddEnemy_frame (s : GameState) (x y x1 x2 speed : ℚ) (dir : ℤ) :
    (AddEnemy s x y x1 x2 speed dir).g_currentMapFrame = s.g_currentMapFrame := by
  unfold AddEnemy
  split_ifs <;> rfl

/-- VideoGame_Initialize on a level index in 0..5 leaves the player in the
spawn state of that level. -/
theorem initialize_spawn (s : GameState) (L : ℤ) (hs : s.g_currentMapFrame = L)
    (h0 : 0 ≤ L) (h5 : L ≤ 5) : isSpawnState (VideoGame_Initialize s) L := by
  have hc : L = 0 ∨ L = 1 ∨ L = 2 ∨ L = 3 ∨ L = 4 ∨ L = 5 := by omega
  unfold isSpawnState
  rcases hc with h | h | h | h | h | h <;> subst h <;>
    simp [VideoGame_Initialize, ClearDoors, ClearKillboxes, ClearEnemies, AddDoor_frame,
      AddKillbox_frame, AddEnemy_frame, hs, spawnPosition] <;> norm_num

/-- The spawn positions lie within the playfield. -/
theorem spawn_in_playfield (s : GameState) (L : ℤ) (h : isSpawnState s L) :
    0 ≤ s.g_playerX ∧ s.g_playerX ≤ 115 ∧ 0 ≤ s.g_playerY ∧ s.g_playerY ≤ 128 := by
  obtain ⟨_, hx, hy, _⟩ := h
  rw [hx, hy]
  unfold spawnPosition
  split_ifs <;> norm_num

theorem checkBitmapCollision_frame (s : GameState) (bitmapX bitmapY : ℤ) (bitmap : ℕ → ℕ)
    (width height pixelSize : ℤ) :
    (CheckBitmapCollision s bitmapX bitmapY bitmap width height pixelSize).g_currentMapFrame =
      s.g_currentMapFrame := by
  unfold CheckBitmapCollision resolveContacts
  dsimp only
  split_ifs <;> rfl

theorem resolvePlayer_frame (s : GameState) (levelBitmap : ℕ → ℕ) :
    (resolvePlayer s levelBitmap).g_currentMapFrame = s.g_currentMapFrame := by
  unfold resolvePlayer
  dsimp only
  split_ifs <;> simp only [checkBitmapCollision_frame]

/-- After the clamp to the screen edges the player is between 0 and 115. -/
theorem resolvePlayer_x (s : GameState) (levelBitmap : ℕ → ℕ) :
    0 ≤ (resolvePlayer s levelBitmap).g_playerX ∧ (resolvePlayer s levelBitmap).g_playerX ≤ 115 := by
  unfold resolvePlayer SCREEN_WIDTH CHARACTER_RUN_LEFT_WIDTH
  dsimp only
  split_ifs with h1 h2
  · norm_num
  · norm_num
  · push_cast at h2
    exact ⟨not_lt.mp h1, by linarith [not_lt.mp h2]⟩

/-- C12: fatal overlap resets to spawn.  For every level index L in 0..5 and
every input, if after the integration of the position the player's rectangle
meets the rectangle of an enemy in use or a registered killbox, the step ends
with the level index still L and the player in the spawn state of L: position
(60,80), (20,107), (20,35), (26,112), (12,41), (8,73) for L = 0..5, both
velocities 0, on-ground false, double jump available. -/
theorem C12_fatal_overlap_resets (get_map_frame : ℤ → ℕ → ℕ) (inp : FrameInput)
    (s : GameState) (L : ℤ) (hL0 : 0 ≤ L) (hL5 : L ≤ 5) (hs : s.g_currentMapFrame = L)
    (hfatal :
      (∃ e ∈ (integratePlayer s inp).g_enemies,
        playerRectMeets (integratePlayer s inp) (toInt e.x) (toInt e.y - 17) 13 17) ∨
      (∃ k ∈ (integratePlayer s inp).g_killboxes,
        playerRectMeets (integratePlayer s inp) k.x k.y k.width k.height)) :
    isSpawnState (UpdatePlayerPhysics get_map_frame inp s) L ∧
    (UpdatePlayerPhysics get_map_frame inp s).g_playerX =
      (if L = 0 then 60 else if L = 1 then 20 else if L = 2 then 20 else if L = 3 then 26
       else if L = 4 then 12 else 8) ∧
    (UpdatePlayerPhysics get_map_frame inp s).g_playerY =
      (if L = 0 then 80 else if L = 1 then 107 else if L = 2 then 35 else if L = 3 then 112
       else if L = 4 then 41 else 73) := by
  have hframe : ({ integratePlayer s inp with g_firstFrame := true } : GameState).g_currentMapFrame
      = L := by
    show (integratePlayer s inp).g_currentMapFrame = L
    rw [(integratePlayer_tables s inp).1, hs]
  have hreset := initialize_spawn _ L hframe hL0 hL5
  have hres : UpdatePlayerPhysics get_map_frame inp s =
      VideoGame_Initialize { integratePlayer s inp with g_firstFrame := true } := by
    unfold UpdatePlayerPhysics
    dsimp only
    rcases hfatal with he | hk
    · rw [if_pos ((checkPlayerEnemyCollision_iff _).mpr he)]
    · have hk2 := (checkKillboxEntry_iff _).mpr hk
      split_ifs
      · rfl
      · rfl
  rw [hres]
  refine ⟨hreset, ?_, ?_⟩
  · rw [hreset.2.1]
    unfold spawnPosition
    split_ifs <;> rfl
  · rw [hreset.2.2.1]
    unfold spawnPosition
    split_ifs <;> rfl

/-- C16: playfield invariant.  For every level index L in 0..5 whose registered
doors all lead to a level in 0..5 (as the doors that VideoGame_Initialize
registers do), every level bitmap and every input, the player position after
UpdatePlayerPhysics satisfies 0 <= playerX <= 115 and 0 <= playerY <= 128; and
a step without enemy, killbox or door event whose resolved playerY is below 0
ends in the spawn state of L. -/
theorem C16_playfield_invariant (get_map_frame : ℤ → ℕ → ℕ) (inp : FrameInput)
    (s : GameState) (L : ℤ) (hL0 : 0 ≤ L) (hL5 : L ≤ 5) (hs : s.g_currentMapFrame = L)
    (hdoors : ∀ d ∈ s.g_doors, 0 ≤ d.targetMap ∧ d.targetMap ≤ 5) :
    (0 ≤ (UpdatePlayerPhysics get_map_frame inp s).g_playerX ∧
     (UpdatePlayerPhysics get_map_frame inp s).g_playerX ≤ 115 ∧
     0 ≤ (UpdatePlayerPhysics get_map_frame inp s).g_playerY ∧
     (UpdatePlayerPhysics get_map_frame inp s).g_playerY ≤ 128) ∧
    (CheckPlayerEnemyCollision (integratePlayer s inp) = false →
     CheckKillboxEntry (integratePlayer s inp) = false →
     (CheckDoorEntry (integratePlayer s inp)).1 = false →
     (resolvePlayer (integratePlayer s inp) (get_map_frame L)).g_playerY < 0 →
     isSpawnState (UpdatePlayerPhysics get_map_frame inp s) L) := by
  obtain ⟨hf1, hd1, _, _⟩ := integratePlayer_tables s inp
  have hframe : ({ integratePlayer s inp with g_firstFrame := true } : GameState).g_currentMapFrame
      = L := by
    show (integratePlayer s inp).g_currentMapFrame = L
    rw [hf1, hs]
  have hreset := initialize_spawn _ L hframe hL0 hL5
  constructor
  · unfold UpdatePlayerPhysics
    dsimp only
    split_ifs with he hk hdoor hfall hceil
    · exact spawn_in_playfield _ L hreset
    · exact spawn_in_playfield _ L hreset
    · obtain ⟨d, hd, hEq⟩ := checkDoorEntry_true _ hdoor
      rw [hEq]
      rw [hd1] at hd
      exact spawn_in_playfield _ d.targetMap
        (initialize_spawn _ d.targetMap rfl (hdoors d hd).1 (hdoors d hd).2)
    · rw [checkDoorEntry_false _ (by simpa using hdoor)]
      refine spawn_in_playfield _ L (initialize_spawn _ L ?_ hL0 hL5)
      show (resolvePlayer _ _).g_currentMapFrame = L
      rw [resolvePlayer_frame, hf1, hs]
    · refine ⟨(resolvePlayer_x _ _).1, (resolvePlayer_x _ _).2, ?_, ?_⟩
      · show (0 : ℚ) ≤ (SCREEN_HEIGHT : ℚ)
        unfold SCREEN_HEIGHT
        norm_num
      · show ((SCREEN_HEIGHT : ℤ) : ℚ) ≤ 128
        unfold SCREEN_HEIGHT
        norm_num
    · refine ⟨(resolvePlayer_x _ _).1, (resolvePlayer_x _ _).2, not_lt.mp hfall, ?_⟩
      have := not_lt.mp hceil
      unfold SCREEN_HEIGHT at this
      push_cast at this
      exact this
  · intro he hk hdoor hfall
    unfold UpdatePlayerPhysics
    dsimp only
    have hsame := checkDoorEntry_false _ hdoor
    rw [if_neg (by simp [he]), if_neg (by simp [hk]), if_neg (by simp [hdoor]), hsame, hf1, hs,
      if_pos hfall]
    refine initialize_spawn _ L ?_ hL0 hL5
    show (resolvePlayer _ _).g_currentMapFrame = L
    rw [resolvePlayer_frame, hf1, hs]

/-- Every door that VideoGame_Initialize registers leads to a level in 0..5. -/
theorem initialize_doors (s : GameState) :
    ∀ d ∈ (VideoGame_Initialize s).g_doors, 0 ≤ d.targetMap ∧ d.targetMap ≤ 5 := by
  by_cases h0 : s.g_currentMapFrame = 0
  · simp [VideoGame_Initialize, ClearDoors, ClearKillboxes, ClearEnemies, AddDoor, AddKillbox,
      AddEnemy, MAX_DOORS, MAX_KILLBOXES, MAX_ENEMIES, h0]
  by_cases h1 : s.g_currentMapFrame = 1
  · simp [VideoGame_Initialize, ClearDoors, ClearKillboxes, ClearEnemies, AddDoor, AddKillbox,
      AddEnemy, MAX_DOORS, MAX_KILLBOXES, MAX_ENEMIES, h1]
  by_cases h2 : s.g_currentMapFrame = 2
  · simp [VideoGame_Initialize, ClearDoors, ClearKillboxes, ClearEnemies, AddDoor, AddKillbox,
      AddEnemy, MAX_DOORS, MAX_KILLBOXES, MAX_ENEMIES, h2]
  by_cases h3 : s.g_currentMapFrame = 3
  · simp [VideoGame_Initialize, ClearDoors, ClearKillboxes, ClearEnemies, AddDoor, AddKillbox,
      AddEnemy, MAX_DOORS, MAX_KILLBOXES, MAX_ENEMIES, h3]
  by_cases h4 : s.g_currentMapFrame = 4
  · simp [VideoGame_Initialize, ClearDoors, ClearKillboxes, ClearEnemies, AddDoor, AddKillbox,
      AddEnemy, MAX_DOORS, MAX_KILLBOXES, MAX_ENEMIES, h4]
  by_cases h5 : s.g_currentMapFrame = 5
  · simp [VideoGame_Initialize, ClearDoors, ClearKillboxes, ClearEnemies, AddDoor, AddKillbox,
      AddEnemy, MAX_DOORS, MAX_KILLBOXES, MAX_ENEMIES, h5]
  simp [VideoGame_Initialize, ClearDoors, ClearKillboxes, ClearEnemies, h0, h1, h2, h3, h4, h5]

/-- C12 instance: on level 1 a player standing at (60, 80) beside the spike
killbox (64, 64, 10, 55), with the joystick centred, is reset to (20, 107). -/
theorem C12_fatal_overlap_resets_witness :
    (∃ k ∈ (integratePlayer { playerAt 60 80 0 0 true with
          g_currentMapFrame := 1, g_killboxes := [⟨64, 64, 10, 55⟩] } ⟨false, 16, 0.7⟩).g_killboxes,
      playerRectMeets (integratePlayer { playerAt 60 80 0 0 true with
          g_currentMapFrame := 1, g_killboxes := [⟨64, 64, 10, 55⟩] } ⟨false, 16, 0.7⟩)
        k.x k.y k.width k.height) ∧
    isSpawnState (UpdatePlayerPhysics (fun _ _ => 0) ⟨false, 16, 0.7⟩
      { playerAt 60 80 0 0 true with
        g_currentMapFrame := 1, g_killboxes := [⟨64, 64, 10, 55⟩] }) 1 := by
  have hx : (integratePlayer { playerAt 60 80 0 0 true with
      g_currentMapFrame := 1, g_killboxes := [⟨64, 64, 10, 55⟩] } ⟨false, 16, 0.7⟩).g_playerX = 60 := by
    norm_num [integratePlayer, playerAt, MAX_HORIZONTAL_SPEED, HORIZONTAL_ACCEL,
      HORIZONTAL_DAMPING, GRAVITY, JUMP_VELOCITY]
  have hy : (integratePlayer { playerAt 60 80 0 0 true with
      g_currentMapFrame := 1, g_killboxes := [⟨64, 64, 10, 55⟩] } ⟨false, 16, 0.7⟩).g_playerY = 80 := by
    norm_num [integratePlayer, playerAt, MAX_HORIZONTAL_SPEED, HORIZONTAL_ACCEL,
      HORIZONTAL_DAMPING, GRAVITY, JUMP_VELOCITY]
  have h60 : toInt (60 : ℚ) = 60 := by decide
  have h80 : toInt (80 : ℚ) = 80 := by decide
  have hk : ∃ k ∈ (integratePlayer { playerAt 60 80 0 0 true with
          g_currentMapFrame := 1, g_killboxes := [⟨64, 64, 10, 55⟩] } ⟨false, 16, 0.7⟩).g_killboxes,
      playerRectMeets (integratePlayer { playerAt 60 80 0 0 true with
          g_currentMapFrame := 1, g_killboxes := [⟨64, 64, 10, 55⟩] } ⟨false, 16, 0.7⟩)
        k.x k.y k.width k.height := by
    refine ⟨⟨64, 64, 10, 55⟩, ?_, ?_⟩
    · rw [(integratePlayer_tables _ _).2.2.1]
      simp
    · unfold playerRectMeets
      rw [hx, hy, h60, h80]
      decide
  exact ⟨hk, (C12_fatal_overlap_resets (fun _ _ => 0) ⟨false, 16, 0.7⟩ _ 1 (by decide) (by decide)
    rfl (Or.inr hk)).1⟩

/-- C16 instance: the state that VideoGame_Initialize builds for level 0, with
the joystick pushed fully to one side and an empty level bitmap. -/
theorem C16_playfield_invariant_witness :
    (∀ d ∈ (VideoGame_Initialize (playerAt 0 0 0 0 false)).g_doors,
      0 ≤ d.targetMap ∧ d.targetMap ≤ 5) ∧
    0 ≤ (UpdatePlayerPhysics (fun _ _ => 0) ⟨false, 16, 1.4⟩
      (VideoGame_Initialize (playerAt 0 0 0 0 false))).g_playerX ∧
    (UpdatePlayerPhysics (fun _ _ => 0) ⟨false, 16, 1.4⟩
      (VideoGame_Initialize (playerAt 0 0 0 0 false))).g_playerX ≤ 115 ∧
    0 ≤ (UpdatePlayerPhysics (fun _ _ => 0) ⟨false, 16, 1.4⟩
      (VideoGame_Initialize (playerAt 0 0 0 0 false))).g_playerY ∧
    (UpdatePlayerPhysics (fun _ _ => 0) ⟨false, 16, 1.4⟩
      (VideoGame_Initialize (playerAt 0 0 0 0 false))).g_playerY ≤ 128 :=
  ⟨initialize_doors _,
   (C16_playfield_invariant (fun _ _ => 0) ⟨false, 16, 1.4⟩
     (VideoGame_Initialize (playerAt 0 0 0 0 false)) 0 (by decide) (by decide)
     (initialize_spawn _ 0 rfl (by decide) (by decide)).1 (initialize_doors _)).1⟩

/-! ### Contacts, bitmap addressing, levels and jumping -/

/-- C22 (code defect): an 8 x 8 bitmap at (0, 0) with pixel size 1 whose only
solid pixel is row 0, column 2 (screen x = 2, bottom 7, top 8), and the player
at (3, 20) moving left with velocity (-1, 0).  The pixel passes the left-contact
test: the player's left edge 3 is on the pixel's right edge 2 + 1, the feet 3
are below the pixel's top, the head 20 is above its bottom and the top is
5 >= 17/3 above the feet.  CheckBitmapCollision stops the player (vx = 0) but
puts its left edge at 4 = pixelX + 2, not at the pixel's right edge
3 = pixelX + pixelSize, where the player already was.  In the mirrored
situation, the player at (-11, 20) moving right with its right edge 2 on the
pixel's left edge, the right contact leaves it at -11 = pixelX - 13. -/
theorem C22_left_contact_lands_one_off :
    solidPixel (fun k => if k = 0 then 0x20 else 0) 8 0 2 = true ∧
    (bitmapScan (playerAt 3 20 (-1) 0 false) 0 0 (fun k => if k = 0 then 0x20 else 0) 8 8 1).collideLeft
      = true ∧
    (bitmapScan (playerAt 3 20 (-1) 0 false) 0 0 (fun k => if k = 0 then 0x20 else 0) 8 8 1).collideRight
      = false ∧
    (CheckBitmapCollision (playerAt 3 20 (-1) 0 false) 0 0
      (fun k => if k = 0 then 0x20 else 0) 8 8 1).g_playerX = 4 ∧
    (CheckBitmapCollision (playerAt 3 20 (-1) 0 false) 0 0
      (fun k => if k = 0 then 0x20 else 0) 8 8 1).g_playerVX = 0 ∧
    (0 : ℤ) + 2 * 1 + 1 = 3 ∧
    (CheckBitmapCollision (playerAt (-11) 20 1 0 false) 0 0
      (fun k => if k = 0 then 0x20 else 0) 8 8 1).g_playerX = -11 ∧
    (CheckBitmapCollision (playerAt (-11) 20 1 0 false) 0 0
      (fun k => if k = 0 then 0x20 else 0) 8 8 1).g_playerVX = 0 := by
  refine ⟨by decide, by decide, by decide, ?_, ?_, by decide, ?_, ?_⟩
  · decide
  · decide
  · decide
  · decide

/-- The byte width (width + 7) / 8 computed by the code is the width divided by
8, rounded up. -/
theorem byteWidth_eq_bytesPerRow (width : ℤ) (hw : 1 ≤ width) :
    Int.tdiv (width + 7) 8 = (bytesPerRow width : ℤ) := by
  unfold bytesPerRow
  have h1 : Int.tdiv (width + 7) 8 = (width + 7) / 8 := by
    rw [Int.tdiv_eq_ediv] <;> omega
  have h2 : ⌈(width : ℚ) / 8⌉ = (width + 7) / 8 := by
    rw [Int.ceil_eq_iff]
    have hq : ((((width + 7) / 8 : ℤ)) : ℚ) * 8 = ((((width + 7) / 8) * 8 : ℤ) : ℚ) := by
      push_cast; ring
    have hdm := Int.ediv_add_emod (width + 7) 8
    have hm0 := Int.emod_nonneg (width + 7) (by norm_num : (8 : ℤ) ≠ 0)
    have hm8 := Int.emod_lt_of_pos (width + 7) (by norm_num : (0 : ℤ) < 8)
    have e : ((width + 7) / 8) * 8 = width + 7 - (width + 7) % 8 := by omega
    constructor
    · have : ((((width + 7) / 8) * 8 : ℤ) : ℚ) < (width : ℚ) + 8 := by
        rw [e]; push_cast
        have : (0 : ℚ) ≤ (((width + 7) % 8 : ℤ) : ℚ) := by exact_mod_cast hm0
        push_cast at this
        linarith
      rw [← hq] at this
      linarith
    · have : (width : ℚ) ≤ ((((width + 7) / 8) * 8 : ℤ) : ℚ) := by
        rw [e]; push_cast
        have : (((width + 7) % 8 : ℤ) : ℚ) ≤ 7 := by exact_mod_cast (by omega : (width + 7) % 8 ≤ 7)
        push_cast at this
        linarith
      rw [← hq] at this
      linarith
  rw [h1, h2]
  have : 0 ≤ (width + 7) / 8 := by omega
  omega

/-- The mask test of the code reads bit 7 - i mod 8 of the byte. -/
theorem maskTest_eq_testBit (b i : ℕ) :
    decide (b &&& (0x80 >>> (i &&& 7)) ≠ 0) = b.testBit (7 - i % 8) := by
  have h7 : i &&& 7 = i % 8 := Nat.and_pow_two_sub_one_eq_mod i 3
  rw [h7]
  have hlt : i % 8 < 8 := Nat.mod_lt _ (by norm_num)
  have hpow : 0x80 >>> (i % 8) = 2 ^ (7 - i % 8) := by
    rw [Nat.shiftRight_eq_div_pow]
    interval_cases (i % 8) <;> norm_num
  rw [hpow, Nat.and_two_pow]
  cases h : b.testBit (7 - i % 8) <;> simp

theorem solidPixel_eq_testBit (bitmap : ℕ → ℕ) (width : ℤ) (hw : 1 ≤ width) (j i : ℕ) :
    solidPixel bitmap width j i =
      (bitmap (j * bytesPerRow width + i / 8)).testBit (7 - i % 8) := by
  have hidx : ((j : ℤ) * Int.tdiv (width + 7) 8 + Int.tdiv (i : ℤ) 8).toNat =
      j * bytesPerRow width + i / 8 := by
    have ht : Int.tdiv (i : ℤ) 8 = (i : ℤ) / 8 := by
      rw [Int.tdiv_eq_ediv] <;> omega
    rw [byteWidth_eq_bytesPerRow width hw, ht]
    have : ((j : ℤ) * (bytesPerRow width : ℤ) + (i : ℤ) / 8) =
        ((j * bytesPerRow width + i / 8 : ℕ) : ℤ) := by
      push_cast
      rfl
    rw [this, Int.toNat_natCast]
  unfold solidPixel
  dsimp only
  rw [hidx]
  exact maskTest_eq_testBit _ _

theorem byteIndex_in_buffer (width height : ℤ) (hw : 1 ≤ width) (i j : ℕ)
    (hi : (i : ℤ) < width) (hj : (j : ℤ) < height) :
    j * bytesPerRow width + i / 8 < bytesPerRow width * height.toNat := by
  have hB := byteWidth_eq_bytesPerRow width hw
  have h1 : Int.tdiv (width + 7) 8 = (width + 7) / 8 := by
    rw [Int.tdiv_eq_ediv] <;> omega
  rw [h1] at hB
  have hcol : i / 8 < bytesPerRow width := by omega
  have hrow : j + 1 ≤ height.toNat := by omega
  calc j * bytesPerRow width + i / 8 < j * bytesPerRow width + bytesPerRow width := by omega
    _ = (j + 1) * bytesPerRow width := by ring
    _ ≤ height.toNat * bytesPerRow width := Nat.mul_le_mul_right _ hrow
    _ = bytesPerRow width * height.toNat := Nat.mul_comm _ _

theorem drawBitmap_mem (x y : ℤ) (bitmap : ℕ → ℕ) (width height : ℤ) (color bg : ℕ)
    (i j : ℕ) (hi : (i : ℤ) < width) (hj : (j : ℤ) < height) :
    ({ x := x + (i : ℤ), y := y + (j : ℤ), color := color } : PixelCall) ∈
        drawBitmap x y bitmap width height color 1 false bg ↔
      solidPixel bitmap width j i = true := by
  have hr1 : List.range 1 = [0] := rfl
  unfold drawBitmap solidPixel
  simp only [List.mem_flatMap, List.mem_range, Int.toNat_one, hr1,
    List.map_cons, List.map_nil, List.flatMap_cons, List.flatMap_nil, List.append_nil,
    Bool.false_eq_true, if_false, decide_eq_true_eq]
  constructor
  · rintro ⟨j2, hj2, i2, hi2, hmem⟩
    split_ifs at hmem with ht
    · simp only [List.mem_singleton, PixelCall.mk.injEq] at hmem
      obtain ⟨hx, hy, _⟩ := hmem
      have e1 : i2 = i := by push_cast at hx; omega
      have e2 : j2 = j := by push_cast at hy; omega
      subst e1; subst e2
      exact ht
    · exact absurd hmem (List.not_mem_nil _)
  · intro ht
    refine ⟨j, by omega, i, by omega, ?_⟩
    rw [if_pos ht]
    simp

/-- C23: packed-bitmap addressing.  For every width >= 1, height >= 1, column
0 <= i < width and row 0 <= j < height, CheckBitmapCollision treats the pixel
(i, j) as solid iff bit 7 - i mod 8 of byte j * ceil(width/8) + floor(i/8) is
set; that byte index is below ceil(width/8) * height, which is 2048 =
MAP_FRAME_SIZE for the 128 x 128 level; and drawBitmap, drawing with pixel size
1 and no background, draws the pixel (x + i, y + j) iff the same test
succeeds. -/
theorem C23_packed_bitmap_addressing (bitmap : ℕ → ℕ) (width height : ℤ) (i j : ℕ)
    (hw : 1 ≤ width) (hh : 1 ≤ height) (hi : (i : ℤ) < width) (hj : (j : ℤ) < height) :
    solidPixel bitmap width j i =
      (bitmap (j * bytesPerRow width + i / 8)).testBit (7 - i % 8) ∧
    j * bytesPerRow width + i / 8 < bytesPerRow width * height.toNat ∧
    (width = 128 → height = 128 → j * bytesPerRow width + i / 8 < MAP_FRAME_SIZE) ∧
    (∀ (x y : ℤ) (color bg : ℕ),
      ({ x := x + (i : ℤ), y := y + (j : ℤ), color := color } : PixelCall) ∈
          drawBitmap x y bitmap width height color 1 false bg ↔
        solidPixel bitmap width j i = true) := by
  refine ⟨solidPixel_eq_testBit bitmap width hw j i,
    byteIndex_in_buffer width height hw i j hi hj, ?_,
    fun x y color bg => drawBitmap_mem x y bitmap width height color bg i j hi hj⟩
  intro h1 h2
  have hb := byteIndex_in_buffer width height hw i j hi hj
  have hB := byteWidth_eq_bytesPerRow width hw
  subst h1; subst h2
  have h16 : bytesPerRow 128 = 16 := by
    have : Int.tdiv ((128 : ℤ) + 7) 8 = 16 := by decide
    omega
  rw [h16] at hb ⊢
  simpa [MAP_FRAME_SIZE] using hb

/-- C23 instance: the 128 x 128 level, row 3, column 21; the byte is
3 * 16 + 2 = 50 and the bit is 7 - 5 = 2.  With only bit 2 of byte 50 set the
pixel is solid and drawBitmap draws it at (21, 3). -/
theorem C23_packed_bitmap_addressing_witness :
    ((1 : ℤ) ≤ 128 ∧ ((21 : ℕ) : ℤ) < 128 ∧ ((3 : ℕ) : ℤ) < 128) ∧
    3 * bytesPerRow 128 + 21 / 8 = 50 ∧ 7 - 21 % 8 = 2 ∧
    solidPixel (fun k => if k = 50 then 4 else 0) 128 3 21 = true ∧
    ({ x := 21, y := 3, color := 0xFFFF } : PixelCall) ∈
      drawBitmap 0 0 (fun k => if k = 50 then 4 else 0) 128 128 0xFFFF 1 false 0 := by
  have h := C23_packed_bitmap_addressing (fun k => if k = 50 then 4 else 0) 128 128 21 3
    (by decide) (by decide) (by decide) (by decide)
  have h16 : bytesPerRow 128 = 16 := by
    have h1 := byteWidth_eq_bytesPerRow 128 (by decide)
    have : Int.tdiv ((128 : ℤ) + 7) 8 = 16 := by decide
    omega
  have hs : solidPixel (fun k => if k = 50 then 4 else 0) 128 3 21 = true := by decide
  refine ⟨⟨by decide, by decide, by decide⟩, by rw [h16], by decide, hs, ?_⟩
  have := (h.2.2.2 0 0 0xFFFF 0).mpr hs
  simpa using this

/-- With a vertical velocity > 0 no pixel sets the bottom-contact flag. -/
theorem pixelStep_bottom_rising (s : GameState) (bitmapX bitmapY height pixelSize : ℤ)
    (c : Contacts) (j i : ℕ) (hvy : s.g_playerVY > 0) :
    (pixelStep s bitmapX bitmapY height pixelSize c j i).collideBottom = c.collideBottom := by
  have hn : ¬ (s.g_playerVY ≤ 0) := not_le.mpr hvy
  unfold pixelStep
  dsimp only
  simp only [hn, false_and, if_false]
  split_ifs <;> rfl

/-- With a horizontal velocity <= 0 no pixel sets the right-contact flag. -/
theorem pixelStep_right_still (s : GameState) (bitmapX bitmapY height pixelSize : ℤ)
    (c : Contacts) (j i : ℕ) (hvx : s.g_playerVX ≤ 0) :
    (pixelStep s bitmapX bitmapY height pixelSize c j i).collideRight = c.collideRight := by
  have hn : ¬ (s.g_playerVX > 0) := not_lt.mpr hvx
  unfold pixelStep
  dsimp only
  simp only [hn, false_and, if_false]
  split_ifs <;> rfl

/-- With a horizontal velocity >= 0 no pixel sets the left-contact flag. -/
theorem pixelStep_left_still (s : GameState) (bitmapX bitmapY height pixelSize : ℤ)
    (c : Contacts) (j i : ℕ) (hvx : 0 ≤ s.g_playerVX) :
    (pixelStep s bitmapX bitmapY height pixelSize c j i).collideLeft = c.collideLeft := by
  have hn : ¬ (s.g_playerVX < 0) := not_lt.mpr hvx
  unfold pixelStep
  dsimp only
  simp only [hn, false_and, if_false]
  split_ifs <;> rfl

/-- The flags at the end of the pixel loops: a flag is set only under the sign
of the velocity that its test requires. -/
theorem bitmapScan_flag_signs (s : GameState) (bitmapX bitmapY : ℤ) (bitmap : ℕ → ℕ)
    (width height pixelSize : ℤ) :
    ((bitmapScan s bitmapX bitmapY bitmap width height pixelSize).collideBottom = true →
        s.g_playerVY ≤ 0) ∧
    ((bitmapScan s bitmapX bitmapY bitmap width height pixelSize).collideTop = true →
        s.g_playerVY > 0) ∧
    ((bitmapScan s bitmapX bitmapY bitmap width height pixelSize).collideRight = true →
        s.g_playerVX > 0) ∧
    ((bitmapScan s bitmapX bitmapY bitmap width height pixelSize).collideLeft = true →
        s.g_playerVX < 0) := by
  refine ⟨?_, ?_, ?_, ?_⟩
  · intro h
    by_contra hn
    have := bitmapScan_keeps s bitmapX bitmapY bitmap width height pixelSize
      (fun c => c.collideBottom = false)
      (fun c j _ i _ _ hc => by
        show (pixelStep s bitmapX bitmapY height pixelSize c j i).collideBottom = false
        rw [pixelStep_bottom_rising s bitmapX bitmapY height pixelSize c j i (not_le.mp hn)]
        exact hc) rfl
    have this2 : (bitmapScan s bitmapX bitmapY bitmap width height pixelSize).collideBottom = false :=
      this
    rw [h] at this2
    exact absurd this2 (by decide)
  · intro h
    by_contra hn
    have := bitmapScan_keeps s bitmapX bitmapY bitmap width height pixelSize
      (fun c => c.collideTop = false)
      (fun c j _ i _ _ hc => by
        show (pixelStep s bitmapX bitmapY height pixelSize c j i).collideTop = false
        rw [pixelStep_top s bitmapX bitmapY height pixelSize c j i (not_lt.mp hn)]
        exact hc) rfl
    have this2 : (bitmapScan s bitmapX bitmapY bitmap width height pixelSize).collideTop = false :=
      this
    rw [h] at this2
    exact absurd this2 (by decide)
  · intro h
    by_contra hn
    have := bitmapScan_keeps s bitmapX bitmapY bitmap width height pixelSize
      (fun c => c.collideRight = false)
      (fun c j _ i _ _ hc => by
        show (pixelStep s bitmapX bitmapY height pixelSize c j i).collideRight = false
        rw [pixelStep_right_still s bitmapX bitmapY height pixelSize c j i (not_lt.mp hn)]
        exact hc) rfl
    have this2 : (bitmapScan s bitmapX bitmapY bitmap width height pixelSize).collideRight = false :=
      this
    rw [h] at this2
    exact absurd this2 (by decide)
  · intro h
    by_contra hn
    have := bitmapScan_keeps s bitmapX bitmapY bitmap width height pixelSize
      (fun c => c.collideLeft = false)
      (fun c j _ i _ _ hc => by
        show (pixelStep s bitmapX bitmapY height pixelSize c j i).collideLeft = false
        rw [pixelStep_left_still s bitmapX bitmapY height pixelSize c j i (not_lt.mp hn)]
        exact hc) rfl
    have this2 : (bitmapScan s bitmapX bitmapY bitmap width height pixelSize).collideLeft = false :=
      this
    rw [h] at this2
    exact absurd this2 (by decide)

/-- C27: in a single call of CheckBitmapCollision, for every bitmap and player
state, the pixel loops never end with both the bottom and the top flag set
(bottom needs vy <= 0, top needs vy > 0), nor with both the right and the left
flag set (right needs vx > 0, left needs vx < 0).  Hence the resolution applies
at most one vertical snap and at most one horizontal snap: with the top flag
set the bottom branch is not taken, and with the left flag set the right
branch, which would win, is not taken. -/
theorem C27_contacts_exclusive (s : GameState) (bitmapX bitmapY : ℤ) (bitmap : ℕ → ℕ)
    (width height pixelSize : ℤ) :
    ¬ ((bitmapScan s bitmapX bitmapY bitmap width height pixelSize).collideBottom = true ∧
       (bitmapScan s bitmapX bitmapY bitmap width height pixelSize).collideTop = true) ∧
    ¬ ((bitmapScan s bitmapX bitmapY bitmap width height pixelSize).collideRight = true ∧
       (bitmapScan s bitmapX bitmapY bitmap width height pixelSize).collideLeft = true) ∧
    ((bitmapScan s bitmapX bitmapY bitmap width height pixelSize).collideTop = true →
      (bitmapScan s bitmapX bitmapY bitmap width height pixelSize).collideBottom = false) ∧
    ((bitmapScan s bitmapX bitmapY bitmap width height pixelSize).collideLeft = true →
      (bitmapScan s bitmapX bitmapY bitmap width height pixelSize).collideRight = false) := by
  obtain ⟨hb, ht, hr, hl⟩ := bitmapScan_flag_signs s bitmapX bitmapY bitmap width height pixelSize
  refine ⟨?_, ?_, ?_, ?_⟩
  · rintro ⟨h1, h2⟩
    exact absurd (hb h1) (not_le.mpr (ht h2))
  · rintro ⟨h1, h2⟩
    exact absurd (hr h1) (not_lt.mpr (le_of_lt (hl h2)))
  · intro h2
    cases hB : (bitmapScan s bitmapX bitmapY bitmap width height pixelSize).collideBottom
    · rfl
    · exact absurd (hb hB) (not_le.mpr (ht h2))
  · intro h2
    cases hR : (bitmapScan s bitmapX bitmapY bitmap width height pixelSize).collideRight
    · rfl
    · exact absurd (hr hR) (not_lt.mpr (le_of_lt (hl h2)))

/-- VideoGame_Initialize keeps the level index. -/
theorem initialize_frame (s : GameState) :
    (VideoGame_Initialize s).g_currentMapFrame = s.g_currentMapFrame := by
  by_cases h0 : s.g_currentMapFrame = 0
  · simp [VideoGame_Initialize, ClearDoors, ClearKillboxes, ClearEnemies, AddDoor_frame,
      AddKillbox_frame, AddEnemy_frame, h0]
  by_cases h1 : s.g_currentMapFrame = 1
  · simp [VideoGame_Initialize, ClearDoors, ClearKillboxes, ClearEnemies, AddDoor_frame,
      AddKillbox_frame, AddEnemy_frame, h1]
  by_cases h2 : s.g_currentMapFrame = 2
  · simp [VideoGame_Initialize, ClearDoors, ClearKillboxes, ClearEnemies, AddDoor_frame,
      AddKillbox_frame, AddEnemy_frame, h2]
  by_cases h3 : s.g_currentMapFrame = 3
  · simp [VideoGame_Initialize, ClearDoors, ClearKillboxes, ClearEnemies, AddDoor_frame,
      AddKillbox_frame, AddEnemy_frame, h3]
  by_cases h4 : s.g_currentMapFrame = 4
  · simp [VideoGame_Initialize, ClearDoors, ClearKillboxes, ClearEnemies, AddDoor_frame,
      AddKillbox_frame, AddEnemy_frame, h4]
  by_cases h5 : s.g_currentMapFrame = 5
  · simp [VideoGame_Initialize, ClearDoors, ClearKillboxes, ClearEnemies, AddDoor_frame,
      AddKillbox_frame, AddEnemy_frame, h5]
  simp [VideoGame_Initialize, ClearDoors, ClearKillboxes, ClearEnemies, h0, h1, h2, h3, h4, h5]

/-- Every door that VideoGame_Initialize registers leads to a level in 0..5
other than the current one. -/
theorem initialize_doors_elsewhere (s : GameState) :
    ∀ d ∈ (VideoGame_Initialize s).g_doors,
      0 ≤ d.targetMap ∧ d.targetMap ≤ 5 ∧ d.targetMap ≠ s.g_currentMapFrame := by
  by_cases h0 : s.g_currentMapFrame = 0
  · simp [VideoGame_Initialize, ClearDoors, ClearKillboxes, ClearEnemies, AddDoor, AddKillbox,
      AddEnemy, MAX_DOORS, MAX_KILLBOXES, MAX_ENEMIES, h0]
  by_cases h1 : s.g_currentMapFrame = 1
  · simp [VideoGame_Initialize, ClearDoors, ClearKillboxes, ClearEnemies, AddDoor, AddKillbox,
      AddEnemy, MAX_DOORS, MAX_KILLBOXES, MAX_ENEMIES, h1]
  by_cases h2 : s.g_currentMapFrame = 2
  · simp [VideoGame_Initialize, ClearDoors, ClearKillboxes, ClearEnemies, AddDoor, AddKillbox,
      AddEnemy, MAX_DOORS, MAX_KILLBOXES, MAX_ENEMIES, h2]
  by_cases h3 : s.g_currentMapFrame = 3
  · simp [VideoGame_Initialize, ClearDoors, ClearKillboxes, ClearEnemies, AddDoor, AddKillbox,
      AddEnemy, MAX_DOORS, MAX_KILLBOXES, MAX_ENEMIES, h3]
  by_cases h4 : s.g_currentMapFrame = 4
  · simp [VideoGame_Initialize, ClearDoors, ClearKillboxes, ClearEnemies, AddDoor, AddKillbox,
      AddEnemy, MAX_DOORS, MAX_KILLBOXES, MAX_ENEMIES, h4]
  by_cases h5 : s.g_currentMapFrame = 5
  · simp [VideoGame_Initialize, ClearDoors, ClearKillboxes, ClearEnemies, AddDoor, AddKillbox,
      AddEnemy, MAX_DOORS, MAX_KILLBOXES, MAX_ENEMIES, h5]
  simp [VideoGame_Initialize, ClearDoors, ClearKillboxes, ClearEnemies, h0, h1, h2, h3, h4, h5]

theorem initialize_levelInvariant (s : GameState) (h0 : 0 ≤ s.g_currentMapFrame)
    (h5 : s.g_currentMapFrame ≤ 5) : levelInvariant (VideoGame_Initialize s) := by
  refine ⟨?_, ?_, ?_⟩
  · rw [initialize_frame]; exact h0
  · rw [initialize_frame]; exact h5
  · intro d hd
    rw [initialize_frame]
    exact initialize_doors_elsewhere s d hd

theorem checkBitmapCollision_doors (s : GameState) (bitmapX bitmapY : ℤ) (bitmap : ℕ → ℕ)
    (width height pixelSize : ℤ) :
    (CheckBitmapCollision s bitmapX bitmapY bitmap width height pixelSize).g_doors =
      s.g_doors := by
  unfold CheckBitmapCollision resolveContacts
  dsimp only
  split_ifs <;> rfl

theorem resolvePlayer_doors (s : GameState) (levelBitmap : ℕ → ℕ) :
    (resolvePlayer s levelBitmap).g_doors = s.g_doors := by
  unfold resolvePlayer
  dsimp only
  split_ifs <;> simp only [checkBitmapCollision_doors]

/-- UpdatePlayerPhysics keeps the level invariant. -/
theorem updatePlayerPhysics_levelInvariant (get_map_frame : ℤ → ℕ → ℕ) (inp : FrameInput)
    (s : GameState) (h : levelInvariant s) :
    levelInvariant (UpdatePlayerPhysics get_map_frame inp s) := by
  obtain ⟨h0, h5, hd⟩ := h
  obtain ⟨hf1, hd1, _, _⟩ := integratePlayer_tables s inp
  have hreset : levelInvariant
      (VideoGame_Initialize { integratePlayer s inp with g_firstFrame := true }) := by
    apply initialize_levelInvariant
    · show 0 ≤ (integratePlayer s inp).g_currentMapFrame
      rw [hf1]; exact h0
    · show (integratePlayer s inp).g_currentMapFrame ≤ 5
      rw [hf1]; exact h5
  unfold UpdatePlayerPhysics
  dsimp only
  split_ifs with he hk hdoor hfall hceil
  · exact hreset
  · exact hreset
  · obtain ⟨d, hdm, hEq⟩ := checkDoorEntry_true _ hdoor
    rw [hEq]
    rw [hd1] at hdm
    exact initialize_levelInvariant _ (hd d hdm).1 (hd d hdm).2.1
  · have hno := checkDoorEntry_false _ (by simpa using hdoor)
    rw [hno]
    apply initialize_levelInvariant
    · show 0 ≤ (resolvePlayer _ _).g_currentMapFrame
      rw [resolvePlayer_frame, hf1]; exact h0
    · show (resolvePlayer _ _).g_currentMapFrame ≤ 5
      rw [resolvePlayer_frame, hf1]; exact h5
  · have hno := checkDoorEntry_false _ (by simpa using hdoor)
    rw [hno]
    refine ⟨?_, ?_, ?_⟩
    · show 0 ≤ (resolvePlayer _ _).g_currentMapFrame
      rw [resolvePlayer_frame, hf1]; exact h0
    · show (resolvePlayer _ _).g_currentMapFrame ≤ 5
      rw [resolvePlayer_frame, hf1]; exact h5
    · intro d hdm
      have hdm2 : d ∈ (resolvePlayer (integratePlayer s inp)
          (get_map_frame (integratePlayer s inp).g_currentMapFrame)).g_doors := hdm
      rw [resolvePlayer_doors, hd1] at hdm2
      show 0 ≤ d.targetMap ∧ d.targetMap ≤ 5 ∧ d.targetMap ≠ (resolvePlayer _ _).g_currentMapFrame
      rw [resolvePlayer_frame, hf1]
      exact hd d hdm2
  · have hno := checkDoorEntry_false _ (by simpa using hdoor)
    rw [hno]
    refine ⟨?_, ?_, ?_⟩
    · rw [resolvePlayer_frame, hf1]; exact h0
    · rw [resolvePlayer_frame, hf1]; exact h5
    · intro d hdm
      rw [resolvePlayer_doors, hd1] at hdm
      rw [resolvePlayer_frame, hf1]
      exact hd d hdm

theorem updateCharacterAnimation_level (k : AnimationFrames) (s : GameState) :
    (UpdateCharacterAnimation k s).g_currentMapFrame = s.g_currentMapFrame ∧
    (UpdateCharacterAnimation k s).g_doors = s.g_doors := by
  unfold UpdateCharacterAnimation
  dsimp only
  split_ifs <;> exact ⟨rfl, rfl⟩

/-- VideoGame_RunFrame keeps the level invariant. -/
theorem runFrame_levelInvariant (k : AnimationFrames) (get_map_frame : ℤ → ℕ → ℕ)
    (shouldExit : Bool) (inp : FrameInput) (s : GameState) (h : levelInvariant s) :
    levelInvariant (VideoGame_RunFrame k get_map_frame shouldExit inp s).2 := by
  have h1 : levelInvariant (if s.g_firstFrame = true then VideoGame_Initialize s else s) := by
    split_ifs
    · exact initialize_levelInvariant s h.1 h.2.1
    · exact h
  have h2 := updatePlayerPhysics_levelInvariant get_map_frame inp _ h1
  have e1 := fun t => (updateCharacterAnimation_level k t).1
  have e2 := fun t => (updateCharacterAnimation_level k t).2
  unfold VideoGame_RunFrame
  cases shouldExit
  · simp only [Bool.false_eq_true, if_false]
    generalize UpdatePlayerPhysics get_map_frame inp
      (if s.g_firstFrame = true then VideoGame_Initialize s else s) = u at h2
    by_cases hret : (UpdateEnemyPhysics u).g_firstFrame = true ∧ (UpdateEnemyPhysics u).g_playerY < 0
    · rw [if_pos hret]
      exact h2
    · rw [if_neg hret]
      unfold levelInvariant
      simp only [e1, e2]
      split_ifs <;> exact h2
  · simp only [if_true]
    exact h

/-- C28: level-index invariant.  In every state reachable from the start-up
state (level 0, empty tables) through VideoGame_Initialize, UpdatePlayerPhysics
and VideoGame_RunFrame, with any inputs, the level index is in 0..5
(below MAP_FRAME_COUNT = 6), every registered door has its targetMap in 0..5
and different from the current level, and VideoGame_Initialize called in that
state assigns the spawn position of the level. -/
theorem C28_level_index_invariant (k : AnimationFrames) (get_map_frame : ℤ → ℕ → ℕ)
    (s : GameState) (hr : Reachable k get_map_frame s) :
    (0 ≤ s.g_currentMapFrame ∧ s.g_currentMapFrame < 6) ∧
    (∀ d ∈ s.g_doors, 0 ≤ d.targetMap ∧ d.targetMap ≤ 5 ∧ d.targetMap ≠ s.g_currentMapFrame) ∧
    isSpawnState (VideoGame_Initialize s) s.g_currentMapFrame := by
  have hinv : levelInvariant s := by
    induction hr with
    | start => exact ⟨by decide, by decide, fun d hd => by simp [initialState] at hd⟩
    | reset s _ ih => exact initialize_levelInvariant s ih.1 ih.2.1
    | update s inp _ ih => exact updatePlayerPhysics_levelInvariant get_map_frame inp s ih
    | frame s x inp _ ih => exact runFrame_levelInvariant k get_map_frame x inp s ih
  obtain ⟨h0, h5, hd⟩ := hinv
  exact ⟨⟨h0, by omega⟩, hd, initialize_spawn s _ rfl h0 h5⟩

/-- C28 instance: the state after VideoGame_Initialize and one
UpdatePlayerPhysics from start-up (joystick centred, no button) is reachable.
VideoGame_Initialize registers the single door of level 0, which leads to
level 1. -/
theorem C28_level_index_invariant_witness :
    (VideoGame_Initialize initialState).g_doors.map (fun d => d.targetMap) = [1] ∧
    Reachable ⟨4, 6⟩ (fun _ _ => 0)
      (UpdatePlayerPhysics (fun _ _ => 0) ⟨false, 16, 0.7⟩ (VideoGame_Initialize initialState)) ∧
    (0 ≤ (UpdatePlayerPhysics (fun _ _ => 0) ⟨false, 16, 0.7⟩
        (VideoGame_Initialize initialState)).g_currentMapFrame ∧
      (UpdatePlayerPhysics (fun _ _ => 0) ⟨false, 16, 0.7⟩
        (VideoGame_Initialize initialState)).g_currentMapFrame < 6) ∧
    (∀ d ∈ (UpdatePlayerPhysics (fun _ _ => 0) ⟨false, 16, 0.7⟩
        (VideoGame_Initialize initialState)).g_doors,
      0 ≤ d.targetMap ∧ d.targetMap ≤ 5 ∧
      d.targetMap ≠ (UpdatePlayerPhysics (fun _ _ => 0) ⟨false, 16, 0.7⟩
        (VideoGame_Initialize initialState)).g_currentMapFrame) ∧
    isSpawnState
      (VideoGame_Initialize (UpdatePlayerPhysics (fun _ _ => 0) ⟨false, 16, 0.7⟩
        (VideoGame_Initialize initialState)))
      (UpdatePlayerPhysics (fun _ _ => 0) ⟨false, 16, 0.7⟩
        (VideoGame_Initialize initialState)).g_currentMapFrame :=
  ⟨by decide,
   Reachable.update _ ⟨false, 16, 0.7⟩ (Reachable.reset _ Reachable.start),
   C28_level_index_invariant ⟨4, 6⟩ (fun _ _ => 0) _
     (Reachable.update _ ⟨false, 16, 0.7⟩ (Reachable.reset _ Reachable.start))⟩

/-- In the state left by VideoGame_Initialize on a level in 0..5 none of the
three overlap checks fires. -/
theorem initialize_checks (s : GameState) (h0 : 0 ≤ s.g_currentMapFrame)
    (h5 : s.g_currentMapFrame ≤ 5) :
    CheckPlayerEnemyCollision (VideoGame_Initialize s) = false ∧
    CheckKillboxEntry (VideoGame_Initialize s) = false ∧
    CheckDoorEntry (VideoGame_Initialize s) = (false, VideoGame_Initialize s) := by
  have hc : s.g_currentMapFrame = 0 ∨ s.g_currentMapFrame = 1 ∨ s.g_currentMapFrame = 2 ∨
      s.g_currentMapFrame = 3 ∨ s.g_currentMapFrame = 4 ∨ s.g_currentMapFrame = 5 := by omega
  rcases hc with h | h | h | h | h | h
  all_goals
    refine ⟨?_, ?_, ?_⟩
    · simp [VideoGame_Initialize, ClearDoors, ClearKillboxes, ClearEnemies, AddDoor, AddKillbox,
        AddEnemy, MAX_DOORS, MAX_KILLBOXES, MAX_ENEMIES, h, CheckPlayerEnemyCollision,
        enemyOverlap, toInt, CHARACTER_RUN_LEFT_WIDTH, CHARACTER_RUN_LEFT_HEIGHT]
    · simp [VideoGame_Initialize, ClearDoors, ClearKillboxes, ClearEnemies, AddDoor, AddKillbox,
        AddEnemy, MAX_DOORS, MAX_KILLBOXES, MAX_ENEMIES, h, CheckKillboxEntry,
        killboxOverlap, toInt, CHARACTER_RUN_LEFT_WIDTH, CHARACTER_RUN_LEFT_HEIGHT]
    · simp [VideoGame_Initialize, ClearDoors, ClearKillboxes, ClearEnemies, AddDoor, AddKillbox,
        AddEnemy, MAX_DOORS, MAX_KILLBOXES, MAX_ENEMIES, h, CheckDoorEntry, doorLoop,
        doorOverlap, toInt, CHARACTER_RUN_LEFT_WIDTH, CHARACTER_RUN_LEFT_HEIGHT]

/-- In the state left by VideoGame_Initialize on a level in 0..5 the player's
rectangle passes the overlap test of no registered door, killbox or enemy. -/
theorem initialize_no_overlap (s : GameState) (h0 : 0 ≤ s.g_currentMapFrame)
    (h5 : s.g_currentMapFrame ≤ 5) :
    (∀ d ∈ (VideoGame_Initialize s).g_doors, doorOverlap (VideoGame_Initialize s) d = false) ∧
    (∀ k ∈ (VideoGame_Initialize s).g_killboxes,
      killboxOverlap (VideoGame_Initialize s) k = false) ∧
    (∀ e ∈ (VideoGame_Initialize s).g_enemies,
      enemyOverlap (VideoGame_Initialize s) e = false) := by
  have hc : s.g_currentMapFrame = 0 ∨ s.g_currentMapFrame = 1 ∨ s.g_currentMapFrame = 2 ∨
      s.g_currentMapFrame = 3 ∨ s.g_currentMapFrame = 4 ∨ s.g_currentMapFrame = 5 := by omega
  rcases hc with h | h | h | h | h | h
  all_goals
    refine ⟨?_, ?_, ?_⟩
    · simp [VideoGame_Initialize, ClearDoors, ClearKillboxes, ClearEnemies, AddDoor, AddKillbox,
        AddEnemy, MAX_DOORS, MAX_KILLBOXES, MAX_ENEMIES, h,
        doorOverlap, toInt, CHARACTER_RUN_LEFT_WIDTH, CHARACTER_RUN_LEFT_HEIGHT]
    · simp [VideoGame_Initialize, ClearDoors, ClearKillboxes, ClearEnemies, AddDoor, AddKillbox,
        AddEnemy, MAX_DOORS, MAX_KILLBOXES, MAX_ENEMIES, h,
        killboxOverlap, toInt, CHARACTER_RUN_LEFT_WIDTH, CHARACTER_RUN_LEFT_HEIGHT]
    · simp [VideoGame_Initialize, ClearDoors, ClearKillboxes, ClearEnemies, AddDoor, AddKillbox,
        AddEnemy, MAX_DOORS, MAX_KILLBOXES, MAX_ENEMIES, h,
        enemyOverlap, toInt, CHARACTER_RUN_LEFT_WIDTH, CHARACTER_RUN_LEFT_HEIGHT]

/-- C29: spawn positions are safe.  For each level L in 0..5, in the state
left by VideoGame_Initialize the player is in the spawn state of L and its
rectangle meets no door, no killbox and no enemy (at its initial position)
registered for L; so CheckDoorEntry, CheckKillboxEntry and
CheckPlayerEnemyCollision all return false there, CheckDoorEntry changing
nothing.  A step of UpdatePlayerPhysics that enters a door returns the state
left by VideoGame_Initialize on the level behind the door, so this holds in
the state in which the player arrives through a door.  The steps after the
arrival, in which the player has moved, are not covered. -/
theorem C29_spawn_is_safe (get_map_frame : ℤ → ℕ → ℕ) (s : GameState) (L : ℤ) (hL0 : 0 ≤ L)
    (hL5 : L ≤ 5) (hs : s.g_currentMapFrame = L) :
    isSpawnState (VideoGame_Initialize s) L ∧
    (∀ d ∈ (VideoGame_Initialize s).g_doors,
      ¬ playerRectMeets (VideoGame_Initialize s) d.x d.y d.width d.height) ∧
    (∀ k ∈ (VideoGame_Initialize s).g_killboxes,
      ¬ playerRectMeets (VideoGame_Initialize s) k.x k.y k.width k.height) ∧
    (∀ e ∈ (VideoGame_Initialize s).g_enemies,
      ¬ playerRectMeets (VideoGame_Initialize s) (toInt e.x)
        (toInt e.y - CHARACTER_RUN_LEFT_HEIGHT) CHARACTER_RUN_LEFT_WIDTH
        CHARACTER_RUN_LEFT_HEIGHT) ∧
    CheckDoorEntry (VideoGame_Initialize s) = (false, VideoGame_Initialize s) ∧
    CheckKillboxEntry (VideoGame_Initialize s) = false ∧
    CheckPlayerEnemyCollision (VideoGame_Initialize s) = false ∧
    (∀ (inp : FrameInput) (s0 : GameState),
      CheckPlayerEnemyCollision (integratePlayer s0 inp) = false →
      CheckKillboxEntry (integratePlayer s0 inp) = false →
      (CheckDoorEntry (integratePlayer s0 inp)).1 = true →
      UpdatePlayerPhysics get_map_frame inp s0 =
        VideoGame_Initialize (CheckDoorEntry (integratePlayer s0 inp)).2) := by
  have h0 : 0 ≤ s.g_currentMapFrame := by rw [hs]; exact hL0
  have h5 : s.g_currentMapFrame ≤ 5 := by rw [hs]; exact hL5
  obtain ⟨hd, hk, he⟩ := initialize_no_overlap s h0 h5
  obtain ⟨c1, c2, c3⟩ := initialize_checks s h0 h5
  refine ⟨initialize_spawn s L hs hL0 hL5, ?_, ?_, ?_, c3, c2, c1, ?_⟩
  · intro d hd2 hm
    have := (doorOverlap_iff _ d).mpr hm
    rw [hd d hd2] at this
    exact absurd this (by decide)
  · intro k hk2 hm
    have := (killboxOverlap_iff _ k).mpr hm
    rw [hk k hk2] at this
    exact absurd this (by decide)
  · intro e he2 hm
    have := (enemyOverlap_iff _ e).mpr hm
    rw [he e he2] at this
    exact absurd this (by decide)
  · intro inp s0 hne hnk hdoor
    unfold UpdatePlayerPhysics
    dsimp only
    rw [if_neg (by rw [hne]; decide), if_neg (by rw [hnk]; decide), if_pos hdoor]

/-- C29 instance: level 5, entered from any state; the player is put at
(8, 73), between the door at x in [0, 3) and the killboxes above and below. -/
theorem C29_spawn_is_safe_witness :
    ((0 : ℤ) ≤ 5 ∧ (5 : ℤ) ≤ 5) ∧
    (VideoGame_Initialize { playerAt 100 50 3 (-2) true with g_currentMapFrame := 5 }).g_playerX = 8 ∧
    (VideoGame_Initialize { playerAt 100 50 3 (-2) true with g_currentMapFrame := 5 }).g_playerY = 73 ∧
    (VideoGame_Initialize { playerAt 100 50 3 (-2) true with
      g_currentMapFrame := 5 }).g_killboxes.length = 3 ∧
    CheckKillboxEntry (VideoGame_Initialize { playerAt 100 50 3 (-2) true with
      g_currentMapFrame := 5 }) = false ∧
    CheckPlayerEnemyCollision (VideoGame_Initialize { playerAt 100 50 3 (-2) true with
      g_currentMapFrame := 5 }) = false ∧
    (CheckDoorEntry (VideoGame_Initialize { playerAt 100 50 3 (-2) true with
      g_currentMapFrame := 5 })).1 = false := by
  have h := C29_spawn_is_safe (fun _ _ => 0)
    { playerAt 100 50 3 (-2) true with g_currentMapFrame := 5 } 5 (by decide) (by decide) rfl
  obtain ⟨hsp, _, _, _, hd, hk, he, _⟩ := h
  refine ⟨⟨by decide, by decide⟩, ?_, ?_, ?_, hk, he, ?_⟩
  · rw [hsp.2.1]; decide
  · rw [hsp.2.2.1]; decide
  · decide
  · rw [hd]

/-- The integration step from the spawn state of level 1 with the joystick
pushed fully to the left (voltage 1.4) and no button: the player is at
(19.54, 106.5). -/
theorem integratePlayer_left_push :
    (integratePlayer (VideoGame_Initialize { initialState with g_currentMapFrame := 1 })
      ⟨false, 16, 1.4⟩).g_playerX = 977 / 50 ∧
    (integratePlayer (VideoGame_Initialize { initialState with g_currentMapFrame := 1 })
      ⟨false, 16, 1.4⟩).g_playerY = 213 / 2 := by
  constructor
  · norm_num [integratePlayer, VideoGame_Initialize, initialState, ClearDoors, ClearKillboxes,
      ClearEnemies, AddDoor, AddKillbox, AddEnemy, MAX_DOORS, MAX_KILLBOXES, MAX_ENEMIES,
      MAX_HORIZONTAL_SPEED, HORIZONTAL_ACCEL, HORIZONTAL_DAMPING, GRAVITY, JUMP_VELOCITY,
      abs_of_pos]
  · norm_num [integratePlayer, VideoGame_Initialize, initialState, ClearDoors, ClearKillboxes,
      ClearEnemies, AddDoor, AddKillbox, AddEnemy, MAX_DOORS, MAX_KILLBOXES, MAX_ENEMIES,
      MAX_HORIZONTAL_SPEED, HORIZONTAL_ACCEL, HORIZONTAL_DAMPING, GRAVITY, JUMP_VELOCITY,
      abs_of_pos]

theorem toInt_of_nonneg (x : ℚ) (n : ℤ) (h0 : 0 ≤ x) (h1 : (n : ℚ) ≤ x) (h2 : x < n + 1) :
    toInt x = n := by
  unfold toInt
  rw [if_pos h0, Int.floor_eq_iff]
  exact ⟨h1, h2⟩

/-- C29 (counterexample): on level 1 the state left by VideoGame_Initialize,
in which the player arrives through the door of level 0, is the spawn state
(20, 107), and no check fires in it; but the next UpdatePlayerPhysics, with the
joystick pushed fully to the left (voltage 1.4) and no button, moves the player
to (19.54, 106.5), where its rectangle meets the door (10, 86, 10, 24) that
leads to level 0: CheckDoorEntry returns true and the step ends in the spawn
state of level 0, whatever the level bitmaps are. -/
theorem C29_left_push_reenters_door :
    isSpawnState (VideoGame_Initialize { initialState with g_currentMapFrame := 1 }) 1 ∧
    (CheckDoorEntry (VideoGame_Initialize { initialState with g_currentMapFrame := 1 })).1 =
      false ∧
    (CheckDoorEntry (integratePlayer
      (VideoGame_Initialize { initialState with g_currentMapFrame := 1 })
      ⟨false, 16, 1.4⟩)).1 = true ∧
    ∀ get_map_frame : ℤ → ℕ → ℕ,
      isSpawnState (UpdatePlayerPhysics get_map_frame ⟨false, 16, 1.4⟩
        (VideoGame_Initialize { initialState with g_currentMapFrame := 1 })) 0 := by
  have hsp := initialize_spawn { initialState with g_currentMapFrame := 1 } 1 rfl
    (by decide) (by decide)
  have hck := initialize_checks { initialState with g_currentMapFrame := 1 }
    (by decide) (by decide)
  obtain ⟨hx, hy⟩ := integratePlayer_left_push
  have htab := integratePlayer_tables
    (VideoGame_Initialize { initialState with g_currentMapFrame := 1 }) ⟨false, 16, 1.4⟩
  have hdoors : (VideoGame_Initialize { initialState with g_currentMapFrame := 1 }).g_doors =
      [⟨10, 86, 10, 24, 0⟩, ⟨118, 11, 10, 24, 2⟩] := by
    simp [VideoGame_Initialize, initialState, ClearDoors, ClearKillboxes,
      ClearEnemies, AddDoor, AddKillbox, AddEnemy, MAX_DOORS, MAX_KILLBOXES, MAX_ENEMIES]
  have hkill : (VideoGame_Initialize { initialState with g_currentMapFrame := 1 }).g_killboxes =
      [⟨64, 64, 10, 55⟩] := by
    simp [VideoGame_Initialize, initialState, ClearDoors, ClearKillboxes,
      ClearEnemies, AddDoor, AddKillbox, AddEnemy, MAX_DOORS, MAX_KILLBOXES, MAX_ENEMIES]
  have hen : (VideoGame_Initialize { initialState with g_currentMapFrame := 1 }).g_enemies =
      [] := by
    simp [VideoGame_Initialize, initialState, ClearDoors, ClearKillboxes,
      ClearEnemies, AddDoor, AddKillbox, AddEnemy, MAX_DOORS, MAX_KILLBOXES, MAX_ENEMIES]
  have tx : toInt (977 / 50 : ℚ) = 19 :=
    toInt_of_nonneg _ 19 (by norm_num) (by norm_num) (by norm_num)
  have ty : toInt (213 / 2 : ℚ) = 106 :=
    toInt_of_nonneg _ 106 (by norm_num) (by norm_num) (by norm_num)
  have hlev : (integratePlayer (VideoGame_Initialize { initialState with g_currentMapFrame := 1 })
      ⟨false, 16, 1.4⟩).g_currentMapFrame = 1 := by
    rw [htab.1]
    exact hsp.1
  have hdoor : CheckDoorEntry (integratePlayer
      (VideoGame_Initialize { initialState with g_currentMapFrame := 1 }) ⟨false, 16, 1.4⟩) =
      (true, { integratePlayer
        (VideoGame_Initialize { initialState with g_currentMapFrame := 1 }) ⟨false, 16, 1.4⟩
        with g_currentMapFrame := 0 }) := by
    unfold CheckDoorEntry
    rw [htab.2.1, hdoors]
    have ho : doorOverlap (integratePlayer
        (VideoGame_Initialize { initialState with g_currentMapFrame := 1 }) ⟨false, 16, 1.4⟩)
        ⟨10, 86, 10, 24, 0⟩ = true := by
      unfold doorOverlap
      rw [hx, hy, tx, ty]
      decide
    simp only [doorLoop, ho, if_true, hlev]
    rfl
  have hkb : CheckKillboxEntry (integratePlayer
      (VideoGame_Initialize { initialState with g_currentMapFrame := 1 }) ⟨false, 16, 1.4⟩) =
      false := by
    unfold CheckKillboxEntry
    rw [htab.2.2.1, hkill]
    simp only [List.any_cons, List.any_nil, Bool.or_false]
    unfold killboxOverlap
    rw [hx, hy, tx, ty]
    decide
  have hen2 : CheckPlayerEnemyCollision (integratePlayer
      (VideoGame_Initialize { initialState with g_currentMapFrame := 1 }) ⟨false, 16, 1.4⟩) =
      false := by
    unfold CheckPlayerEnemyCollision
    rw [htab.2.2.2, hen]
    rfl
  refine ⟨hsp, by rw [hck.2.2], by rw [hdoor], ?_⟩
  intro get_map_frame
  have hstep : UpdatePlayerPhysics get_map_frame ⟨false, 16, 1.4⟩
      (VideoGame_Initialize { initialState with g_currentMapFrame := 1 }) =
      VideoGame_Initialize { integratePlayer
        (VideoGame_Initialize { initialState with g_currentMapFrame := 1 }) ⟨false, 16, 1.4⟩
        with g_currentMapFrame := 0 } := by
    unfold UpdatePlayerPhysics
    dsimp only
    rw [if_neg (by rw [hen2]; decide), if_neg (by rw [hkb]; decide), if_pos (by rw [hdoor]),
      hdoor]
  rw [hstep]
  exact initialize_spawn _ 0 rfl (by decide) (by decide)

theorem initialize_doubleJump (t : GameState) :
    (VideoGame_Initialize t).double_jump_available = true := by
  unfold VideoGame_Initialize
  rfl

end VideoGame
